import Mathlib

/-!
# HWSensors: ACPI probe scheduler and CPU sensor calibration

A shallow embedding of `ACPISensors/ACPIProbe.cpp` and `CPUSensors/CPUSensors.cpp`.

Conventions of the embedding

* C++ objects reached through pointers live in an explicit heap; a pointer is a `Nat`
  and `NULL` is `none`.
* Unsigned machine integers are `Nat` with an explicit `% 2 ^ w` where the source can wrap.
* `double` and `float` quantities (the clock of `ptimer_read_seconds`, power values) are
  exact rationals: rounding is not modelled.
* External primitives (ACPI method evaluation, MSR reads, the clock) are inputs.
-/

set_option autoImplicit false

namespace HWSensors

/-! ## IOKit vocabulary -/

/-- The `IOReturn` status code, as its unsigned 32-bit pattern. -/
abbrev IOReturn := Nat

def kIOReturnSuccess : IOReturn := 0
def kIOReturnBadArgument : IOReturn := 0xE00002C2
def kIOReturnAborted : IOReturn := 0xE00002EB

/-- The libkern container values that firmware evaluation and configuration hand back:
`OSNumber`, `OSString`, `OSBoolean` and `OSArray`. -/
inductive OSObject where
  | number (value : Nat)
  | string (value : String)
  | boolean (value : Bool)
  | array (items : List OSObject)

/-- The `OSNumber::unsigned64BitValue` accessor. -/
def unsigned64BitValue (n : Nat) : Nat := n % 2 ^ 64

/-- The `OSNumber::unsigned32BitValue` accessor. -/
def unsigned32BitValue (n : Nat) : Nat := n % 2 ^ 32

/-- The `OSDynamicCast(OSString, _)` cast on a possibly absent object. -/
def castOSString : Option OSObject → Option String
  | some (.string s) => some s
  | _ => none

/-- The `OSDynamicCast(OSNumber, _)` cast on a possibly absent object. -/
def castOSNumber : Option OSObject → Option Nat
  | some (.number n) => some n
  | _ => none

/-- The `OSDynamicCast(OSBoolean, _)` cast on a possibly absent object. -/
def castOSBoolean : Option OSObject → Option Bool
  | some (.boolean b) => some b
  | _ => none

/-- The `OSDynamicCast(OSArray, _)` cast on a possibly absent object. -/
def castOSArray : Option OSObject → Option (List OSObject)
  | some (.array xs) => some xs
  | _ => none

/-- An `OSDictionary` with string keys: entries in insertion order, one entry per key. -/
abbrev OSDictionary (α : Type) := List (String × α)

namespace OSDictionary

variable {α : Type}

/-- Number of entries (`getCount`). -/
def getCount (d : OSDictionary α) : Nat := d.length

/-- Lookup by key (`getObject`), `none` standing for `NULL`. -/
def getObject : OSDictionary α → String → Option α
  | [], _ => none
  | (k, v) :: rest, key => if k = key then some v else getObject rest key

/-- Insert or replace (`setObject`): an existing key keeps its place and gets the new value. -/
def setObject : OSDictionary α → String → α → OSDictionary α
  | [], key, v => [(key, v)]
  | (k, v0) :: rest, key, v =>
    if k = key then (key, v) :: rest else (k, v0) :: setObject rest key v

end OSDictionary

/-! ## ACPIProbeProfile -/

/-- One polling profile (`class ACPIProbeProfile`, declared in `ACPIProbe.h`).  `methods`
holds the names of the ACPI methods to poll; the tick treats every element of the array as
an `OSString`.  `interval` and `timeout` are 64-bit unsigned members, `startedAt` holds a
reading of `ptimer_read_seconds`, in seconds. -/
structure ACPIProbeProfile where
  name : String
  methods : List String
  interval : Nat
  timeout : Nat
  verbose : Bool
  startedAt : ℚ

/-- A freshly allocated, zero-filled profile object. -/
def ACPIProbeProfile.zero : ACPIProbeProfile :=
  { name := "", methods := [], interval := 0, timeout := 0, verbose := false, startedAt := 0 }

/-- The initialiser `ACPIProbeProfile::init`: `none` is the `false` return. -/
def ACPIProbeProfile.init (this : ACPIProbeProfile) (aName : Option String)
    (aMethods : List String) (aInterval aTimeout : Option Nat) (aVerbose : Option Bool) :
    Option ACPIProbeProfile :=
  match aName, aInterval with
  | some nm, some iv =>
    if nm.length = 0 ∨ unsigned64BitValue iv = 0 then none
    else
      some { this with
        name := nm.take 31
        methods := aMethods
        interval := unsigned64BitValue iv
        timeout := match aTimeout with
          | some t => unsigned64BitValue t
          | none => 0
        verbose := match aVerbose with
          | some b => b
          | none => false }
  | _, _ => none

/-- What `ACPIProbeProfile::withParameters` hands back: `NULL`, a pointer to an initialised
profile, or (when `init` failed) a pointer to the object it has just released, because
`OSSafeRelease` does not clear the pointer. -/
inductive ProfileAlloc where
  | null
  | released
  | valid (profile : ACPIProbeProfile)

/-- The factory `ACPIProbeProfile::withParameters`. -/
def ACPIProbeProfile.withParameters (name : Option String) (methods : Option (List String))
    (interval timeout : Option Nat) (verbose : Option Bool) : ProfileAlloc :=
  match methods, interval with
  | some ms, some iv =>
    if ms.length = 0 ∨ unsigned64BitValue iv = 0 then .null
    else
      match ACPIProbeProfile.zero.init name ms interval timeout verbose with
      | some p => .valid p
      | none => .released
  | _, _ => .null

/-! ## ACPIProbe -/

/-- The scheduler object (`class ACPIProbe`).  Profiles are heap objects: `heap` maps a
pointer to the object, `heapNext` is the next unused pointer.  `valuesProperty` is the
registry property "Values"; `timerEventSource` tells whether the member of that name points
to a timer event source (`false`: it is `NULL`); `timeoutMS` is the delay the timer event
source is armed for. -/
structure ACPIProbe where
  heap : Nat → ACPIProbeProfile
  heapNext : Nat
  profiles : Option (OSDictionary Nat)
  profileList : Option (List Nat)
  activeProfile : Option Nat
  valuesProperty : Option (OSDictionary OSObject)
  timerEventSource : Bool
  timeoutMS : Option Nat

/-- The object before `start`: every member is zero or `NULL`. -/
def ACPIProbe.fresh : ACPIProbe :=
  { heap := fun _ => ACPIProbeProfile.zero, heapNext := 0, profiles := none,
    profileList := none, activeProfile := none, valuesProperty := none,
    timerEventSource := false, timeoutMS := none }

/-- A fault that ends the run: the source dereferences a pointer it must not. -/
inductive Fault where
  | releasedProfile
  | nullPointer

namespace ACPIProbe

/-- The method `ACPIProbe::addProfile`.  It is called only from `start`, after both
containers were created. -/
def addProfile (self : ACPIProbe) (name : Option String) (methods : Option (List String))
    (interval timeout : Option Nat) (verbose : Option Bool) : Except Fault ACPIProbe :=
  match ACPIProbeProfile.withParameters name methods interval timeout verbose with
  | .null => .ok self
  | .released => .error .releasedProfile
  | .valid profile =>
    match name, self.profiles, self.profileList with
    | some nm, some d, some l =>
      let p := self.heapNext
      .ok { self with
        heap := fun q => if q = p then profile else self.heap q
        heapNext := p + 1
        profiles := some (d.setObject nm p)
        profileList := some (l ++ [p]) }
    | _, _, _ => .error .nullPointer

/-- The accessor `getProfile(OSString *)` / `getProfile(const char *)`. -/
def getProfileByName (self : ACPIProbe) (name : String) : Option Nat :=
  match self.profiles with
  | some d => d.getObject name
  | none => none

/-- The accessor `getProfile(unsigned int)`. -/
def getProfile (self : ACPIProbe) (index : Nat) : Option Nat :=
  match self.profileList with
  | some l => l.get? index
  | none => none

/-- The accessor `getProfileCount`. -/
def getProfileCount (self : ACPIProbe) : Nat :=
  match self.profileList with
  | some l => l.length
  | none => 0

/-- The accessor `getActiveProfile`. -/
def getActiveProfile (self : ACPIProbe) : Option Nat := self.activeProfile

/-- The method `ACPIProbe::activateProfile`; `now` is the reading of `ptimer_read_seconds`. -/
def activateProfile (self : ACPIProbe) (name : String) (now : ℚ) : IOReturn × ACPIProbe :=
  match self.profiles with
  | some d =>
    if d.getCount ≠ 0 then
      match d.getObject name with
      | some profile =>
        (kIOReturnSuccess,
          { self with
            activeProfile := some profile
            heap := fun q =>
              if q = profile then { self.heap profile with startedAt := now } else self.heap q })
      | none => (kIOReturnBadArgument, self)
    else (kIOReturnAborted, self)
  | none => (kIOReturnAborted, self)

end ACPIProbe

/-- The C call `snprintf(name, 64, "%s[%d]", method, i)`: the formatted key, cut to 63
characters.  The index of an array entry is below `2 ^ 31` (an `OSArray` holds fewer
entries), where `%d` prints the unsigned `i` as it is. -/
def indexedName (method : String) (i : Nat) : String :=
  (method ++ "[" ++ toString i ++ "]").take 63

/-- The number the conversion `%lld` prints for a 64-bit argument: its signed reading. -/
def formatLLD (x : Nat) : Int :=
  if x % 2 ^ 64 < 2 ^ 63 then ((x % 2 ^ 64 : Nat) : Int) else ((x % 2 ^ 64 : Nat) : Int) - 2 ^ 64

mutual
/-- The method `ACPIProbe::logValue`: the info-log lines it writes, each as the key and the
number that `"%s = %lld"` prints after it for the argument `unsigned64BitValue()`. -/
def logValue (method : String) : OSObject → List (String × Int)
  | .number v => [(method, formatLLD (unsigned64BitValue v))]
  | .array items => logValueFrom method 0 items
  | .string _ => []
  | .boolean _ => []
/-- The loop of `logValue` over an array, from index `i` on. -/
def logValueFrom (method : String) (i : Nat) : List OSObject → List (String × Int)
  | [] => []
  | x :: xs => logValue (indexedName method i) x ++ logValueFrom method (i + 1) xs
end

/-- The external evaluator `IOACPIPlatformDevice::evaluateObject`, over an explicit firmware
state: the status, the object stored through the out-parameter, and the next state. -/
abbrev Evaluator (σ : Type) := σ → String → (IOReturn × Option OSObject) × σ

/-- One invocation of the evaluator, as recorded by the tick. -/
structure Call where
  method : String
  result : IOReturn
  object : Option OSObject

/-- What the probe loop of the tick has accumulated. -/
structure LoopState (σ : Type) where
  fw : σ
  values : OSDictionary OSObject
  calls : List Call
  infoLog : List (String × Int)
  errorLog : List (String × IOReturn)

/-- One iteration of the probe loop of `woorkloopTimerEvent`. -/
def probeStep {σ : Type} (ev : Evaluator σ) (verbose : Bool) (st : LoopState σ)
    (method : String) : LoopState σ :=
  match ev st.fw method with
  | ((result, object), fw1) =>
    let call : Call := { method := method, result := result, object := object }
    match object with
    | some obj =>
      if kIOReturnSuccess = result then
        { fw := fw1
          values := st.values.setObject method obj
          calls := st.calls ++ [call]
          infoLog := st.infoLog ++ (if verbose then logValue method obj else [])
          errorLog := st.errorLog }
      else
        { fw := fw1, values := st.values, calls := st.calls ++ [call],
          infoLog := st.infoLog, errorLog := st.errorLog ++ [(method, result)] }
    | none =>
      { fw := fw1, values := st.values, calls := st.calls ++ [call],
        infoLog := st.infoLog, errorLog := st.errorLog ++ [(method, result)] }

/-- The probe loop of `woorkloopTimerEvent` over the methods of the active profile. -/
def probeLoop {σ : Type} (ev : Evaluator σ) (verbose : Bool) (methods : List String)
    (st : LoopState σ) : LoopState σ :=
  methods.foldl (probeStep ev verbose) st

/-- The C conversion `(UInt32)x` of a non-negative value. -/
def toUInt32 (x : Nat) : Nat := x % 2 ^ 32

/-- What one run of `woorkloopTimerEvent` did: the object afterwards, the firmware state,
the status returned, the evaluator calls in order, the batch passed to
`setProperty("Values", _)` (`none`: not called), the delay passed to `setTimeoutMS`, the log
lines, and the fault that ended the run.  The only call that can fault is the last one,
`timerEventSource->setTimeoutMS(_)`, when the member is `NULL`: the calls, the batch and the
log lines came before it and the delay is the argument of that call; the status and the
armed delay of the object are those of a call that goes through. -/
structure TickResult (σ : Type) where
  self : ACPIProbe
  fw : σ
  ret : IOReturn
  calls : List Call
  published : Option (OSDictionary OSObject)
  armedMS : Nat
  infoLog : List (String × Int)
  errorLog : List (String × IOReturn)
  fault : Option Fault

namespace ACPIProbe

/-- The timeout test of `woorkloopTimerEvent` for an active profile:
`timeout == 0 || ptimer_read_seconds() - startedAt < timeout * 1000`. -/
def gateOpen (profile : ACPIProbeProfile) (now : ℚ) : Prop :=
  profile.timeout = 0 ∨ now - profile.startedAt < ((profile.timeout * 1000 % 2 ^ 64 : Nat) : ℚ)

instance (profile : ACPIProbeProfile) (now : ℚ) : Decidable (gateOpen profile now) := by
  unfold gateOpen; infer_instance

/-- The timer action `ACPIProbe::woorkloopTimerEvent`; `now` is the reading of
`ptimer_read_seconds`. -/
def woorkloopTimerEvent {σ : Type} (ev : Evaluator σ) (self : ACPIProbe) (now : ℚ) (fw : σ) :
    TickResult σ :=
  let fault : Option Fault := if self.timerEventSource then none else some .nullPointer
  let recheck : TickResult σ :=
    { self := { self with timeoutMS := some 5000 }, fw := fw, ret := kIOReturnSuccess,
      calls := [], published := none, armedMS := 5000, infoLog := [], errorLog := [],
      fault := fault }
  match self.activeProfile with
  | some p =>
    let profile := self.heap p
    if gateOpen profile now then
      let st := probeLoop ev profile.verbose profile.methods
        { fw := fw, values := [], calls := [], infoLog := [], errorLog := [] }
      let ms := toUInt32 (profile.interval * 1000)
      { self := { self with valuesProperty := some st.values, timeoutMS := some ms }
        fw := st.fw
        ret := kIOReturnSuccess
        calls := st.calls
        published := some st.values
        armedMS := ms
        infoLog := st.infoLog
        errorLog := st.errorLog
        fault := fault }
    else recheck
  | none => recheck

end ACPIProbe

/-- The node returned by `getConfigurationNode`, seen through the `OSDynamicCast`s that
`ACPIProbe::start` applies to its entries: an entry of another type reads as absent.
`MethodsToPoll` is taken to be an array of strings. -/
structure Configuration where
  ProfileName : Option String
  PollingInterval : Option Nat
  PollingTimeout : Option Nat
  VerboseLog : Option Bool
  MethodsToPoll : Option (List String)

/-- What `ACPIProbe::start` gets from its surroundings: whether `super::start` succeeded,
whether the provider is an ACPI platform device, the configuration node, whether a work
loop and a timer event source could be obtained, and the status of `addEventSource`. -/
structure StartEnv where
  superStart : Bool
  acpiDevice : Bool
  configuration : Option Configuration
  workloop : Bool
  timerEventSource : Bool
  addEventSource : IOReturn

/-- The strings among the entries of an array, in order: the inner loop of `start` that
fills `pMethods`. -/
def stringsOf : List OSObject → List String
  | [] => []
  | .string s :: rest => s :: stringsOf rest
  | _ :: rest => stringsOf rest

namespace ACPIProbe

/-- The body of the loop of `start` over the entries of `LIST`.  The evaluator is taken to
write its out-parameter on every call, `NULL` when it has no value. -/
def loadListEntry {σ : Type} (ev : Evaluator σ) (acc : ACPIProbe × σ) (item : OSObject) :
    Except Fault (ACPIProbe × σ) :=
  match item with
  | .string method =>
    match ev acc.2 method with
    | ((result, some (.array config)), fw1) =>
      if kIOReturnSuccess = result ∧ config.length > 4 then
        match addProfile acc.1 (castOSString (config.get? 0)) (some (stringsOf (config.drop 4)))
            (castOSNumber (config.get? 1)) (castOSNumber (config.get? 2))
            (castOSBoolean (config.get? 3)) with
        | .ok self1 => .ok (self1, fw1)
        | .error f => .error f
      else .ok (acc.1, fw1)
    | (_, fw1) => .ok (acc.1, fw1)
  | _ => .ok acc

/-- The loop of `start` over the entries of `LIST`. -/
def loadList {σ : Type} (ev : Evaluator σ) : List OSObject → ACPIProbe × σ →
    Except Fault (ACPIProbe × σ)
  | [], acc => .ok acc
  | item :: rest, acc =>
    match loadListEntry ev acc item with
    | .ok acc1 => loadList ev rest acc1
    | .error f => .error f

/-- The first half of `start`: profiles defined by the ACPI device through `LIST`. -/
def loadFromDevice {σ : Type} (ev : Evaluator σ) (self : ACPIProbe) (fw : σ) :
    Except Fault (ACPIProbe × σ) :=
  match ev fw "LIST" with
  | ((result, some object), fw1) =>
    if kIOReturnSuccess = result then
      match object with
      | .array list => loadList ev list (self, fw1)
      | _ => .ok (self, fw1)
    else .ok (self, fw1)
  | ((_, none), fw1) => .ok (self, fw1)

/-- The second half of the loading in `start`: the profile of the configuration node, used
when the device defined none. -/
def loadFromConfiguration (env : StartEnv) (self : ACPIProbe) : Except Fault ACPIProbe :=
  match self.profiles with
  | some d =>
    if d.getCount = 0 then
      match env.configuration with
      | some c =>
        addProfile self c.ProfileName c.MethodsToPoll c.PollingInterval c.PollingTimeout
          c.VerboseLog
      | none => .ok self
    else .ok self
  | none => .error .nullPointer

/-- The end of `start`: activate the first profile of the list and arm the timer. -/
def activateFirst (env : StartEnv) (self : ACPIProbe) : Except Fault (Bool × ACPIProbe) :=
  match self.profiles, self.profileList with
  | some d, some l =>
    if d.getCount ≠ 0 then
      let self1 := { self with activeProfile := l.get? 0 }
      if ¬ env.workloop then .ok (false, self1)
      else if ¬ env.timerEventSource then .ok (false, { self1 with timerEventSource := false })
      else
        let self2 := { self1 with timerEventSource := true }
        if kIOReturnSuccess ≠ env.addEventSource then .ok (false, self2)
        else .ok (true, { self2 with timeoutMS := some 100 })
    else .ok (true, self)
  | _, _ => .error .nullPointer

/-- The method `ACPIProbe::start`: the value returned, the object and the firmware state
afterwards, or the fault that ended it. -/
def start {σ : Type} (ev : Evaluator σ) (env : StartEnv) (self : ACPIProbe) (fw : σ) :
    Except Fault (Bool × ACPIProbe × σ) :=
  if ¬ env.superStart then .ok (false, self, fw)
  else if ¬ env.acpiDevice then .ok (false, self, fw)
  else
    let self0 := { self with profiles := some [], profileList := some [] }
    match loadFromDevice ev self0 fw with
    | .error f => .error f
    | .ok (self1, fw1) =>
      match loadFromConfiguration env self1 with
      | .error f => .error f
      | .ok self2 =>
        match activateFirst env self2 with
        | .error f => .error f
        | .ok (ret, self3) => .ok (ret, self3, fw1)

end ACPIProbe

/-! ## Rounding to `float` and `double` -/

/-- The integer nearest to `y`, a tie going to the even one. -/
def roundHalfEven (y : ℚ) : ℤ :=
  if y - (⌊y⌋ : ℚ) < (1 / 2 : ℚ) then ⌊y⌋
  else if (1 / 2 : ℚ) < y - (⌊y⌋ : ℚ) then ⌊y⌋ + 1
  else if ⌊y⌋ % 2 = 0 then ⌊y⌋ else ⌊y⌋ + 1

/-- The value with a significand of `p` bits nearest to `x`, a tie going to the even
significand (the default rounding of binary floating point).  The exponent is not bounded:
overflow and underflow of a format are not modelled. -/
def roundBinary (p : Nat) (x : ℚ) : ℚ :=
  if x = 0 then 0
  else
    (roundHalfEven (x / (2 : ℚ) ^ (Int.log 2 |x| - ((p : ℤ) - 1))) : ℚ)
      * (2 : ℚ) ^ (Int.log 2 |x| - ((p : ℤ) - 1))

/-- The conversion to `float`, and the rounding of the result of a `float` operation: 24
bits of significand. -/
def toFloat (x : ℚ) : ℚ := roundBinary 24 x

/-- The rounding of the result of a `double` operation: 53 bits of significand. -/
def toDouble (x : ℚ) : ℚ := roundBinary 53 x

/-! ## CPUSensors: processor identity, registers, per-core caches -/

/-- The CPUID model numbers that `CPUSensors::start` switches on for family 0x06.  Their
values come from headers; they are parameters here. -/
structure CpuidModels where
  CPUID_MODEL_PENTIUM_M : Nat
  CPUID_MODEL_YONAH : Nat
  CPUID_MODEL_MEROM : Nat
  CPUID_MODEL_PENRYN : Nat
  CPUID_MODEL_ATOM : Nat
  CPUID_MODEL_NEHALEM : Nat
  CPUID_MODEL_FIELDS : Nat
  CPUID_MODEL_DALES : Nat
  CPUID_MODEL_DALES_32NM : Nat
  CPUID_MODEL_WESTMERE : Nat
  CPUID_MODEL_NEHALEM_EX : Nat
  CPUID_MODEL_WESTMERE_EX : Nat
  CPUID_MODEL_SANDYBRIDGE : Nat
  CPUID_MODEL_JAKETOWN : Nat
  CPUID_MODEL_IVYBRIDGE : Nat
  CPUID_MODEL_IVYBRIDGE_EP : Nat
  CPUID_MODEL_HASWELL_DT : Nat
  CPUID_MODEL_HASWELL_MB : Nat
  CPUID_MODEL_HASWELL_ULT : Nat
  CPUID_MODEL_HASWELL_ULX : Nat

/-- The case labels of the family-0x06 switch of `CPUSensors::start`, in source order. -/
def CpuidModels.caseLabels (k : CpuidModels) : List Nat :=
  [k.CPUID_MODEL_PENTIUM_M, k.CPUID_MODEL_YONAH, k.CPUID_MODEL_MEROM, k.CPUID_MODEL_PENRYN,
   k.CPUID_MODEL_ATOM, k.CPUID_MODEL_NEHALEM, k.CPUID_MODEL_FIELDS, k.CPUID_MODEL_DALES,
   k.CPUID_MODEL_DALES_32NM, k.CPUID_MODEL_WESTMERE, k.CPUID_MODEL_NEHALEM_EX,
   k.CPUID_MODEL_WESTMERE_EX, k.CPUID_MODEL_SANDYBRIDGE, k.CPUID_MODEL_JAKETOWN,
   k.CPUID_MODEL_IVYBRIDGE, k.CPUID_MODEL_HASWELL_DT, k.CPUID_MODEL_HASWELL_MB,
   k.CPUID_MODEL_HASWELL_ULT, k.CPUID_MODEL_HASWELL_ULX]

/-- The constants `CPUSensors.cpp` takes from headers: the size of the per-core arrays, the
Intel vendor string, the MSR feature bit and the model numbers, whose case labels are
pairwise different (a C++ switch does not compile otherwise). -/
structure Constants extends CpuidModels where
  kCPUSensorsMaxCpus : Nat
  CPUID_VID_INTEL : String
  CPUID_FEATURE_MSR : Nat
  labelsDistinct : toCpuidModels.caseLabels.Pairwise (fun a b => a ≠ b)

/-- The values of `cpuid_info()->cpuid_cpufamily` that the source tells apart. -/
inductive CpuFamily where
  | CPUFAMILY_INTEL_NEHALEM
  | CPUFAMILY_INTEL_WESTMERE
  | CPUFAMILY_INTEL_SANDYBRIDGE
  | CPUFAMILY_INTEL_IVYBRIDGE
  | CPUFAMILY_INTEL_HASWELL
  | CPUFAMILY_INTEL_HASWELL_ULT
  | other (id : Nat)
  deriving DecidableEq

/-- The fields of `cpuid_info()` that the source reads. -/
structure CpuidInfo where
  cpuid_vendor : String
  cpuid_features : Nat
  core_count : Nat
  thread_count : Nat
  cpuid_family : Nat
  cpuid_model : Nat
  cpuid_stepping : Nat
  cpuid_cpufamily : CpuFamily

/-- The model-specific registers the source reads, by name; `cpu_energy_msrs i` is entry `i`
of the table `cpu_energy_msrs`, `addr a` a register given by its number. -/
inductive Msr where
  | MSR_IA32_THERM_STS
  | MSR_IA32_PACKAGE_THERM_STATUS
  | MSR_IA32_PERF_STS
  | MSR_IA32_TEMP_TARGET
  | MSR_IA32_MPERF
  | MSR_IA32_APERF
  | MSR_PLATFORM_INFO
  | MSR_RAPL_POWER_UNIT
  | MSR_PERF_FIXED_CTR_CTRL
  | MSR_PERF_GLOBAL_CTRL
  | cpu_energy_msrs (index : Nat)
  | addr (a : Nat)
  deriving DecidableEq

/-- The processor package as the driver sees it at one call: the logical CPUs in the order
in which a rendezvous action takes effect, the CPU the caller runs on, the content of every
register of every CPU, and the performance counters (`rdpmc`: low and high word). -/
structure Machine where
  cpus : List Nat
  current : Nat
  msr : Nat → Msr → Nat
  pmc : Nat → Nat → Nat × Nat

/-- The primitive `rdmsr64` executed on logical CPU `cpu`. -/
def rdmsr64 (m : Machine) (cpu : Nat) (reg : Msr) : Nat := m.msr cpu reg % 2 ^ 64

/-- The primitive `wrmsr64` executed on logical CPU `cpu`. -/
def wrmsr64 (m : Machine) (cpu : Nat) (reg : Msr) (value : Nat) : Machine :=
  { m with msr := fun c r => if c = cpu ∧ r = reg then value % 2 ^ 64 else m.msr c r }

/-- Array store `a[i] = v`. -/
def setAt {α : Type} (a : Nat → α) (i : Nat) (v : α) : Nat → α :=
  fun j => if j = i then v else a j

/-- The file-scope arrays of `CPUSensors.cpp`, indexed by core number. -/
structure Globals where
  cpu_thermal : Nat → Nat
  cpu_thermal_updated : Nat → Bool
  cpu_state : Nat → Nat
  cpu_state_updated : Nat → Bool
  cpu_last_ucc : Nat → Nat
  cpu_last_urc : Nat → Nat
  cpu_turbo : Nat → ℚ
  cpu_turbo_updated : Nat → Bool
  cpu_ratio : Nat → ℚ

/-- The arrays as the loader leaves them: zero-filled. -/
def Globals.zero : Globals :=
  { cpu_thermal := fun _ => 0, cpu_thermal_updated := fun _ => false, cpu_state := fun _ => 0,
    cpu_state_updated := fun _ => false, cpu_last_ucc := fun _ => 0, cpu_last_urc := fun _ => 0,
    cpu_turbo := fun _ => 0, cpu_turbo_updated := fun _ => false, cpu_ratio := fun _ => 0 }

/-- The helper `get_cpu_number`, on logical CPU `cpu`. -/
def get_cpu_number (info : CpuidInfo) (cpu : Nat) : Nat := cpu % info.core_count

/-- The primitive `mp_rendezvous_no_intrs`: the action runs once on every logical CPU. -/
def mp_rendezvous_no_intrs {S : Type} (action : Nat → S → S) (m : Machine) (s : S) : S :=
  m.cpus.foldl (fun acc cpu => action cpu acc) s

/-- The rendezvous action `read_cpu_thermal`, on logical CPU `cpu`. -/
def read_cpu_thermal (k : Constants) (info : CpuidInfo) (m : Machine) (cpu : Nat)
    (g : Globals) : Globals :=
  let number := get_cpu_number info cpu
  if number < k.kCPUSensorsMaxCpus then
    let msr := rdmsr64 m cpu .MSR_IA32_THERM_STS
    if msr &&& 0x80000000 ≠ 0 then
      { g with
        cpu_thermal := setAt g.cpu_thermal number ((msr >>> 16) &&& 0x7F)
        cpu_thermal_updated := setAt g.cpu_thermal_updated number true }
    else g
  else g

/-- The rendezvous action `read_cpu_state`, on logical CPU `cpu`; `package` tells whether
the argument pointer is non-null. -/
def read_cpu_state (k : Constants) (info : CpuidInfo) (m : Machine) (package : Bool)
    (cpu : Nat) (g : Globals) : Globals :=
  let number := get_cpu_number info cpu
  if package ∧ number ≠ 0 then g
  else if number < k.kCPUSensorsMaxCpus then
    { g with
      cpu_state := setAt g.cpu_state number (rdmsr64 m cpu .MSR_IA32_PERF_STS &&& 0xFFFF)
      cpu_state_updated := setAt g.cpu_state_updated number true }
  else g

/-- The rendezvous action `init_cpu_turbo_counters`, on logical CPU `cpu`. -/
def init_cpu_turbo_counters (cpu : Nat) (m : Machine) : Machine :=
  wrmsr64 (wrmsr64 m cpu .MSR_PERF_FIXED_CTR_CTRL 0x222) cpu .MSR_PERF_GLOBAL_CTRL (0x7 <<< 32)

/-- The wraparound delta of `read_cpu_turbo`:
`last < now ? 0xFFFFFFFFFFFFFFFF - last + now : now - last` in 64-bit unsigned arithmetic. -/
def counterDelta (last now : Nat) : Nat :=
  if last < now then (0xFFFFFFFFFFFFFFFF + 2 ^ 64 - last + now) % 2 ^ 64
  else (now + 2 ^ 64 - last) % 2 ^ 64

/-- The rendezvous action `read_cpu_turbo`, on logical CPU `cpu`; `multiplier` is the byte
the argument points to.  The two deltas are the integers of the source; the ratio stored in
`cpu_turbo` is kept exact, where the source rounds the operands and the quotient to
`float`. -/
def read_cpu_turbo (k : Constants) (info : CpuidInfo) (m : Machine) (multiplier : Nat)
    (cpu : Nat) (g : Globals) : Globals :=
  let number := get_cpu_number info cpu
  if number < k.kCPUSensorsMaxCpus then
    let c1 := m.pmc cpu 0x40000001
    let ucc := ((c1.2 % 2 ^ 32) <<< 32) ||| (c1.1 % 2 ^ 32)
    let c2 := m.pmc cpu 0x40000002
    let urc := ((c2.2 % 2 ^ 32) <<< 32) ||| (c2.1 % 2 ^ 32)
    let ucc_delta := counterDelta (g.cpu_last_ucc number) ucc
    let urc_delta := counterDelta (g.cpu_last_urc number) urc
    let g1 := { g with
      cpu_last_ucc := setAt g.cpu_last_ucc number ucc
      cpu_last_urc := setAt g.cpu_last_urc number urc }
    if urc_delta ≠ 0 then
      { g1 with
        cpu_turbo := setAt g1.cpu_turbo number
          ((ucc_delta : ℚ) * ((multiplier % 256 : Nat) : ℚ) / (urc_delta : ℚ))
        cpu_turbo_updated := setAt g1.cpu_turbo_updated number true }
    else g1
  else g

/-- The rendezvous action `read_cpu_ratio`, on logical CPU `cpu`: it also clears the two
registers it has read. -/
def read_cpu_ratio (info : CpuidInfo) (package : Bool) (cpu : Nat) (s : Machine × Globals) :
    Machine × Globals :=
  let number := get_cpu_number info cpu
  if package ∧ number ≠ 0 then s
  else
    let MPERF := rdmsr64 s.1 cpu .MSR_IA32_MPERF
    let APERF := rdmsr64 s.1 cpu .MSR_IA32_APERF
    if APERF ≠ 0 ∧ MPERF ≠ 0 then
      (wrmsr64 (wrmsr64 s.1 cpu .MSR_IA32_APERF 0) cpu .MSR_IA32_MPERF 0,
        { s.2 with
          cpu_ratio := setAt s.2.cpu_ratio number
            (toFloat (toDouble (toDouble (APERF : ℚ) / toDouble (MPERF : ℚ))))
          cpu_turbo_updated := setAt s.2.cpu_turbo_updated number true })
    else s

/-! ## CPUSensors: the plugin object -/

/-- The sensor groups `CPUSensors::getSensorValue` dispatches on. -/
inductive SensorGroup where
  | kFakeSMCTemperatureSensor
  | kCPUSensorsPackageThermalSensor
  | kFakeSMCMultiplierSensor
  | kFakeSMCFrequencySensor
  | kCPUSensorsPowerSensor
  | other (id : Nat)
  deriving DecidableEq

/-- A registered sensor (`FakeSMCSensor`): its group and its index. -/
structure FakeSMCSensor where
  group : SensorGroup
  index : Nat
  deriving DecidableEq

/-- The members of `class CPUSensors` (declared in `CPUSensors.h`).  `tjmax` is an array of
8-bit values, `lastEnergyValue` an array of 64-bit counters, `lastEnergyTime` holds readings
of `ptimer_read_seconds`, `platform` is the eight bytes of the `OSData`, `busClock` is in
MHz; `sensors` lists the `addSensor` requests and `keys` the `setKeyValue` requests, in
order. -/
structure CPUSensors where
  tjmax : Nat → Nat
  platform : Option (List Nat)
  busClock : Nat
  multiplier : Nat → ℚ
  baseMultiplier : Nat
  energyUnitValue : ℚ
  lastEnergyTime : Nat → ℚ
  lastEnergyValue : Nat → Nat
  sensors : List FakeSMCSensor
  keys : List (String × List Nat)

/-- The object before `start`: zero-filled. -/
def CPUSensors.fresh : CPUSensors :=
  { tjmax := fun _ => 0, platform := none, busClock := 0, multiplier := fun _ => 0,
    baseMultiplier := 0, energyUnitValue := 0, lastEnergyTime := fun _ => 0,
    lastEnergyValue := fun _ => 0, sensors := [], keys := [] }

/-- The state a sensor read works on: the object, the file-scope arrays, the registers. -/
structure World where
  self : CPUSensors
  g : Globals
  m : Machine

namespace CPUSensors

/-- The method `CPUSensors::readTjmaxFromMSR`. -/
def readTjmaxFromMSR (info : CpuidInfo) (m : Machine) (self : CPUSensors) : CPUSensors :=
  (List.range info.core_count).foldl
    (fun acc i =>
      { acc with
        tjmax := setAt acc.tjmax i ((rdmsr64 m m.current .MSR_IA32_TEMP_TARGET >>> 16) &&& 0xFF) })
    self

/-- The frequency-ID decoding of the default case of `readMultiplier`. -/
def decodeFid (fid : Nat) : ℚ :=
  ((fid &&& 0x1f : Nat) : ℚ) * (if fid &&& 0x80 ≠ 0 then (1 / 2 : ℚ) else (1 : ℚ))
    + (1 / 2 : ℚ) * (((fid >>> 6) &&& 1 : Nat) : ℚ)

/-- The method `CPUSensors::readMultiplier`; the argument is a `UInt8`. -/
def readMultiplier (k : Constants) (info : CpuidInfo) (cpu_index : Nat) (w : World) :
    ℚ × World :=
  let idx := cpu_index % 256
  match info.cpuid_cpufamily with
  | .CPUFAMILY_INTEL_NEHALEM | .CPUFAMILY_INTEL_WESTMERE =>
    let g1 := mp_rendezvous_no_intrs (read_cpu_state k info w.m true) w.m w.g
    let v : ℚ := ((g1.cpu_state 0 &&& 0xFF : Nat) : ℚ)
    (v, { w with g := g1, self := { w.self with multiplier := setAt w.self.multiplier idx v } })
  | .CPUFAMILY_INTEL_SANDYBRIDGE | .CPUFAMILY_INTEL_IVYBRIDGE | .CPUFAMILY_INTEL_HASWELL
  | .CPUFAMILY_INTEL_HASWELL_ULT =>
    let g1 := mp_rendezvous_no_intrs (read_cpu_state k info w.m true) w.m w.g
    let v : ℚ := (((g1.cpu_state 0 >>> 8) &&& 0xFF : Nat) : ℚ)
    (v, { w with g := g1, self := { w.self with multiplier := setAt w.self.multiplier idx v } })
  | .other _ =>
    let g1 :=
      if w.g.cpu_state_updated idx then w.g
      else mp_rendezvous_no_intrs (read_cpu_state k info w.m false) w.m w.g
    let g2 := { g1 with cpu_state_updated := setAt g1.cpu_state_updated idx false }
    let fid := (g2.cpu_state 0 >>> 8) &&& 0xFF
    let v := decodeFid fid
    (v, { w with g := g2, self := { w.self with multiplier := setAt w.self.multiplier idx v } })

/-- The method `CPUSensors::readFrequency`; the argument is a `UInt8`. -/
def readFrequency (info : CpuidInfo) (cpu_index : Nat) (w : World) : ℚ × World :=
  let idx := cpu_index % 256
  if w.self.baseMultiplier ≠ 0 then
    let s := mp_rendezvous_no_intrs (read_cpu_ratio info true) w.m (w.m, w.g)
    (toFloat (toFloat (s.2.cpu_ratio idx * toFloat (w.self.baseMultiplier : ℚ))
        * toFloat (w.self.busClock : ℚ)),
      { w with m := s.1, g := s.2 })
  else (toFloat (w.self.multiplier idx * toFloat (w.self.busClock : ℚ)), w)

/-- The method `CPUSensors::getSensorValue`; `time` is the reading of `ptimer_read_seconds`,
a `double`.  The result is the `float` returned and the state afterwards.  In the power
branch the elapsed time is a `double` difference converted to `float`, and the counter
delta, the product and the quotient are each rounded to `float`. -/
def getSensorValue (k : Constants) (info : CpuidInfo) (time : ℚ) (sensor : FakeSMCSensor)
    (w : World) : ℚ × World :=
  let index := sensor.index
  match sensor.group with
  | .kFakeSMCTemperatureSensor =>
    let g1 :=
      if w.g.cpu_thermal_updated index then w.g
      else mp_rendezvous_no_intrs (read_cpu_thermal k info w.m) w.m w.g
    let g2 := { g1 with cpu_thermal_updated := setAt g1.cpu_thermal_updated index false }
    ((((w.self.tjmax index : ℤ) - (g2.cpu_thermal index : ℤ) : ℤ) : ℚ), { w with g := g2 })
  | .kCPUSensorsPackageThermalSensor =>
    let raw := rdmsr64 w.m w.m.current .MSR_IA32_PACKAGE_THERM_STATUS
    ((((w.self.tjmax 0 + 2 ^ 64 - (raw >>> 16)) % 2 ^ 64 &&& 0x7F : Nat) : ℚ), w)
  | .kFakeSMCMultiplierSensor => readMultiplier k info index w
  | .kFakeSMCFrequencySensor => readFrequency info index w
  | .kCPUSensorsPowerSensor =>
    let energy := rdmsr64 w.m w.m.current (.cpu_energy_msrs index)
    if energy = 0 then (0, w)
    else
      let deltaTime : ℚ := toFloat (toDouble (time - w.self.lastEnergyTime index))
      if deltaTime = 0 then (0, w)
      else
        let consumed : ℚ :=
          toFloat (toFloat (w.self.energyUnitValue
            * toFloat
              (((energy + 2 ^ 64 - w.self.lastEnergyValue index % 2 ^ 64) % 2 ^ 64 : Nat) : ℚ))
            / deltaTime)
        (consumed,
          { w with self := { w.self with
              lastEnergyTime := setAt w.self.lastEnergyTime index time
              lastEnergyValue := setAt w.self.lastEnergyValue index energy } })
  | .other _ => (0, w)

end CPUSensors

/-- The entries of the configuration node that `CPUSensors::start` reads, seen through its
`OSDynamicCast`s: an entry of another type reads as absent. -/
structure CpuConfiguration where
  Tjmax : Option Nat
  PlatformString : Option String

/-- What `CPUSensors::start` gets from its surroundings: whether `super::start` succeeded,
the configuration node, the `FSBFrequency` property of `/efi/platform` in Hz, the field
`gPEClockFrequencyInfo.bus_frequency_max_hz`, and register `eax` of CPUID leaf 6. -/
structure CpuStartEnv where
  superStart : Bool
  configuration : Option CpuConfiguration
  FSBFrequency : Option Nat
  bus_frequency_max_hz : Nat
  cpuid6_eax : Nat

/-- The eight bytes that `OSData::withBytes(text, 8)` copies from a C string literal or from
the buffer `snprintf(p, 9, "%s", text)` filled: the first eight characters, zero-padded.
The text is a C string: each character stands for one byte, none of them zero. -/
def platformBytes (text : String) : List Nat :=
  ((text.toList.map Char.toNat) ++ List.replicate 8 0).take 8

/-- The loop `for (i = 1; i < core_count; i++) tjmax[i] = tjmax[0]`. -/
def fillTjmax (core_count : Nat) (tjmax : Nat → Nat) : Nat → Nat :=
  (List.range' 1 (core_count - 1)).foldl (fun t i => setAt t i (t 0)) tjmax

namespace CPUSensors

/-- The statement `if (!platform) platform = OSData::withBytes(text, 8)`. -/
def defaultPlatform (text : String) (self : CPUSensors) : CPUSensors :=
  match self.platform with
  | some _ => self
  | none => { self with platform := some (platformBytes text) }

/-- The statement `tjmax[0] = v`. -/
def setTjmax0 (v : Nat) (self : CPUSensors) : CPUSensors :=
  { self with tjmax := setAt self.tjmax 0 (v % 256) }

/-- The part of `start` that reads the configuration node: the user-defined `Tjmax` and
`PlatformString`. -/
def readConfiguration (env : CpuStartEnv) (info : CpuidInfo) (self : CPUSensors) : CPUSensors :=
  match env.configuration with
  | none => self
  | some c =>
    let self1 :=
      match c.Tjmax with
      | some number =>
        let s0 := setTjmax0 (unsigned32BitValue number) self
        if s0.tjmax 0 > 0 then { s0 with tjmax := fillTjmax info.core_count s0.tjmax } else s0
      | none => self
    match c.PlatformString with
    | some string =>
      if string.length > 0 then { self1 with platform := some (platformBytes string) } else self1
    | none => self1

/-- The family-0x06 branch of the `Tjmax` calculation of `start`. -/
def calculateTjmax06 (k : Constants) (info : CpuidInfo) (m : Machine) (self : CPUSensors) :
    CPUSensors :=
  let model := info.cpuid_model
  if model = k.CPUID_MODEL_PENTIUM_M then
    defaultPlatform "M70" (setTjmax0 100 self)
  else if model = k.CPUID_MODEL_YONAH then
    setTjmax0 85 (defaultPlatform "K22" self)
  else if model = k.CPUID_MODEL_MEROM then
    let self1 := defaultPlatform "M75" self
    if info.cpuid_stepping = 0x02 then setTjmax0 100 self1
    else if info.cpuid_stepping = 0x06 then
      if info.core_count = 2 then setTjmax0 80 self1
      else if info.core_count = 4 then setTjmax0 90 self1
      else setTjmax0 85 self1
    else if info.cpuid_stepping = 0x0B then setTjmax0 90 self1
    else if info.cpuid_stepping = 0x0D then setTjmax0 85 self1
    else setTjmax0 85 self1
  else if model = k.CPUID_MODEL_PENRYN then
    let self1 := defaultPlatform "M82" self
    if rdmsr64 m m.current (.addr 0x17) &&& (1 <<< 28) ≠ 0 then setTjmax0 105 self1
    else setTjmax0 100 self1
  else if model = k.CPUID_MODEL_ATOM then
    let self1 := defaultPlatform "T9" self
    if info.cpuid_stepping = 0x02 then setTjmax0 90 self1
    else if info.cpuid_stepping = 0x0A then setTjmax0 100 self1
    else setTjmax0 90 self1
  else if model = k.CPUID_MODEL_NEHALEM ∨ model = k.CPUID_MODEL_FIELDS
      ∨ model = k.CPUID_MODEL_DALES ∨ model = k.CPUID_MODEL_DALES_32NM
      ∨ model = k.CPUID_MODEL_WESTMERE ∨ model = k.CPUID_MODEL_NEHALEM_EX
      ∨ model = k.CPUID_MODEL_WESTMERE_EX then
    readTjmaxFromMSR info m (defaultPlatform "k74" self)
  else if model = k.CPUID_MODEL_SANDYBRIDGE ∨ model = k.CPUID_MODEL_JAKETOWN then
    readTjmaxFromMSR info m (defaultPlatform "k62" self)
  else if model = k.CPUID_MODEL_IVYBRIDGE then
    readTjmaxFromMSR info m (defaultPlatform "d8" self)
  else if model = k.CPUID_MODEL_HASWELL_DT ∨ model = k.CPUID_MODEL_HASWELL_MB
      ∨ model = k.CPUID_MODEL_HASWELL_ULT ∨ model = k.CPUID_MODEL_HASWELL_ULX then
    readTjmaxFromMSR info m (defaultPlatform "j43" self)
  else self

/-- The block `if (tjmax[0] == 0) { ... }` of `start`: `none` is its `return false`. -/
def calculateTjmax (k : Constants) (info : CpuidInfo) (m : Machine) (self : CPUSensors) :
    Option CPUSensors :=
  if self.tjmax 0 = 0 then
    if info.cpuid_family = 0x06 then some (calculateTjmax06 k info m self)
    else if info.cpuid_family = 0x0F then
      if info.cpuid_model = 0x00 ∨ info.cpuid_model = 0x01 ∨ info.cpuid_model = 0x02
          ∨ info.cpuid_model = 0x03 ∨ info.cpuid_model = 0x04 ∨ info.cpuid_model = 0x06 then
        some (setTjmax0 100 self)
      else some self
    else none
  else some self

/-- The block "Setup Tjmax" of `start`. -/
def setupTjmax (info : CpuidInfo) (self : CPUSensors) : CPUSensors :=
  match info.cpuid_cpufamily with
  | .CPUFAMILY_INTEL_NEHALEM | .CPUFAMILY_INTEL_WESTMERE | .CPUFAMILY_INTEL_SANDYBRIDGE
  | .CPUFAMILY_INTEL_IVYBRIDGE | .CPUFAMILY_INTEL_HASWELL | .CPUFAMILY_INTEL_HASWELL_ULT => self
  | .other _ => { self with tjmax := fillTjmax info.core_count self.tjmax }

/-- The bus clock of `start`, in MHz: the firmware value when it gives a non-zero clock, a
quarter of the maximum bus frequency otherwise. -/
def setupBusClock (env : CpuStartEnv) (self : CPUSensors) : CPUSensors :=
  let fromFirmware :=
    match env.FSBFrequency with
    | some hz => hz % 2 ^ 64 / 1000000
    | none => 0
  if fromFirmware = 0 then { self with busClock := (env.bus_frequency_max_hz >>> 2) / 1000000 }
  else { self with busClock := fromFirmware }

/-- The platform keys of `start`: `RPlt` and `RBr` are set when a platform value exists. -/
def setupPlatformKeys (self : CPUSensors) : CPUSensors :=
  match self.platform with
  | some bytes => { self with keys := self.keys ++ [("RPlt", bytes), ("RBr", bytes)] }
  | none => self

/-- The call `addSensor(_, _, _, group, index)`. -/
def addSensor (group : SensorGroup) (index : Nat) (self : CPUSensors) : CPUSensors :=
  { self with sensors := self.sensors ++ [{ group := group, index := index }] }

/-- The core-level thermal sensors of `start`: one per core below `kCPUSensorsMaxCpus`. -/
def addCoreThermalSensors (k : Constants) (info : CpuidInfo) (self : CPUSensors) : CPUSensors :=
  (List.range (min info.core_count k.kCPUSensorsMaxCpus)).foldl
    (fun acc i => addSensor .kFakeSMCTemperatureSensor i acc) self

/-- The package-level thermal sensor of `start`. -/
def addPackageThermalSensor (env : CpuStartEnv) (info : CpuidInfo) (self : CPUSensors) :
    CPUSensors :=
  match info.cpuid_cpufamily with
  | .CPUFAMILY_INTEL_SANDYBRIDGE | .CPUFAMILY_INTEL_IVYBRIDGE | .CPUFAMILY_INTEL_HASWELL
  | .CPUFAMILY_INTEL_HASWELL_ULT =>
    if (env.cpuid6_eax >>> 4) &&& 1 ≠ 0 then addSensor .kCPUSensorsPackageThermalSensor 0 self
    else self
  | _ => self

/-- The multiplier and frequency sensors of `start`. -/
def addMultiplierSensors (info : CpuidInfo) (m : Machine) (self : CPUSensors) : CPUSensors :=
  match info.cpuid_cpufamily with
  | .CPUFAMILY_INTEL_NEHALEM | .CPUFAMILY_INTEL_WESTMERE | .CPUFAMILY_INTEL_SANDYBRIDGE
  | .CPUFAMILY_INTEL_IVYBRIDGE | .CPUFAMILY_INTEL_HASWELL | .CPUFAMILY_INTEL_HASWELL_ULT =>
    let self1 :=
      { self with baseMultiplier := (rdmsr64 m m.current .MSR_PLATFORM_INFO >>> 8) &&& 0xFF }
    if self1.baseMultiplier ≠ 0 then
      addSensor .kFakeSMCFrequencySensor 0 (addSensor .kFakeSMCMultiplierSensor 0 self1)
    else self1
  | .other _ =>
    (List.range info.core_count).foldl
      (fun acc i => addSensor .kFakeSMCFrequencySensor i (addSensor .kFakeSMCMultiplierSensor i acc))
      self

/-- The value `UInt16 unit = 1 << (int)((msr >> 8) & 0x1FF)`: the shift, cut to 16 bits.
For a field of 32 or more the shift of the `int` constant is undefined in C++; the value
here is then 0, as for every field from 16 on. -/
def energyUnitDivisor (msr : Nat) : Nat := (1 <<< ((msr >>> 8) &&& 0x1FF)) % 2 ^ 16

/-- The energy sensors of `start`. -/
def addEnergySensors (k : Constants) (info : CpuidInfo) (m : Machine) (self : CPUSensors) :
    CPUSensors :=
  let msr := rdmsr64 m m.current .MSR_RAPL_POWER_UNIT
  let unit := energyUnitDivisor msr
  match info.cpuid_cpufamily with
  | .CPUFAMILY_INTEL_NEHALEM | .CPUFAMILY_INTEL_WESTMERE =>
    if msr ≠ 0 ∧ unit ≠ 0 then
      addSensor .kCPUSensorsPowerSensor 0 { self with energyUnitValue := 1 / (unit : ℚ) }
    else self
  | .CPUFAMILY_INTEL_SANDYBRIDGE | .CPUFAMILY_INTEL_IVYBRIDGE | .CPUFAMILY_INTEL_HASWELL
  | .CPUFAMILY_INTEL_HASWELL_ULT =>
    if msr ≠ 0 ∧ unit ≠ 0 then
      let self1 := { self with energyUnitValue := 1 / (unit : ℚ) }
      if self1.energyUnitValue ≠ 0 then
        let self2 := addSensor .kCPUSensorsPowerSensor 1 (addSensor .kCPUSensorsPowerSensor 0 self1)
        let self3 :=
          if info.cpuid_model ≠ k.CPUID_MODEL_JAKETOWN
              ∨ info.cpuid_model ≠ k.CPUID_MODEL_IVYBRIDGE_EP then
            addSensor .kCPUSensorsPowerSensor 2 self2
          else self2
        addSensor .kCPUSensorsPowerSensor 3 self3
      else self1
    else self
  | .other _ => self

/-- The method `CPUSensors::start`: the value returned and the object afterwards. -/
def start (k : Constants) (env : CpuStartEnv) (info : CpuidInfo) (m : Machine)
    (self : CPUSensors) : Bool × CPUSensors :=
  if ¬ env.superStart then (false, self)
  else if info.cpuid_vendor ≠ k.CPUID_VID_INTEL then (false, self)
  else if info.cpuid_features &&& k.CPUID_FEATURE_MSR = 0 then (false, self)
  else if info.core_count = 0 then (false, self)
  else
    let self1 := readConfiguration env info self
    match calculateTjmax k info m self1 with
    | none => (false, self1)
    | some self2 =>
      let self3 := setupTjmax info self2
      let self4 := setupPlatformKeys (setupBusClock env self3)
      let self5 := addPackageThermalSensor env info (addCoreThermalSensors k info self4)
      (true, addEnergySensors k info m (addMultiplierSensors info m self5))

end CPUSensors

/-! ## Specification-side vocabulary for the probe scheduler -/

/-- The invocations the specification asks of a tick: the evaluator is called once for each
probe identifier, in order, whatever the earlier calls returned. -/
def invocations {σ : Type} (ev : Evaluator σ) : List String → σ → List Call
  | [], _ => []
  | method :: rest, fw =>
    { method := method, result := (ev fw method).1.1, object := (ev fw method).1.2 }
      :: invocations ev rest (ev fw method).2

/-- The firmware state after the invocations of `invocations`. -/
def invocationsState {σ : Type} (ev : Evaluator σ) : List String → σ → σ
  | [], fw => fw
  | method :: rest, fw => invocationsState ev rest (ev fw method).2

/-- The value a call contributes to the batch under `key`: the object it returned, when it
evaluated `key` and returned success with an object. -/
def Call.valueFor (c : Call) (key : String) : Option OSObject :=
  match c.object with
  | some obj => if c.method = key ∧ c.result = kIOReturnSuccess then some obj else none
  | none => none

/-- The value of the last call that contributes a value under `key`, `acc` when there is
none. -/
def lastValueFor (key : String) : Option OSObject → List Call → Option OSObject
  | acc, [] => acc
  | acc, c :: cs =>
    lastValueFor key (match c.valueFor key with
      | some obj => some obj
      | none => acc) cs

/-- The number of entries of the name-keyed collection, zero before it exists. -/
def ACPIProbe.loadedCount (self : ACPIProbe) : Nat :=
  match self.profiles with
  | some d => d.getCount
  | none => 0

/-- A scheduler with one accepted profile `P` (probes `A`, `B`, `C`; interval 2; timeout
1000), as `addProfile` builds it in `start`, with the timer event source that `start`
creates. -/
def sampleProbe : ACPIProbe :=
  match ACPIProbe.addProfile
      { ACPIProbe.fresh with profiles := some [], profileList := some [] }
      (some "P") (some ["A", "B", "C"]) (some 2) (some 1000) none with
  | .ok self => { self with timerEventSource := true }
  | .error _ => ACPIProbe.fresh

/-- An evaluator without state under which method `B` fails and every other method returns
the number 7. -/
def sampleEvaluator : Evaluator Unit :=
  fun _ method =>
    if method = "B" then ((kIOReturnBadArgument, none), ())
    else ((kIOReturnSuccess, some (.number 7)), ())

/-! ## Specification-side vocabulary and sample inputs for the CPU sensors -/

/-- The critical-temperature override in effect: the value the configuration puts into
`tjmax[0]` (the `OSNumber` read through `unsigned32BitValue`, stored in 8 bits), zero when
there is no configuration node or no `Tjmax` number. -/
def CpuStartEnv.userTjmax (env : CpuStartEnv) : Nat :=
  match env.configuration with
  | some c =>
    match c.Tjmax with
    | some number => unsigned32BitValue number % 256
    | none => 0
  | none => 0

/-- The checks at the head of `CPUSensors::start` pass: the base class started, the vendor is
Intel, the MSR feature flag is present and the core count is not zero. -/
def startChecksPass (k : Constants) (env : CpuStartEnv) (info : CpuidInfo) : Prop :=
  env.superStart = true ∧ info.cpuid_vendor = k.CPUID_VID_INTEL
    ∧ info.cpuid_features &&& k.CPUID_FEATURE_MSR ≠ 0 ∧ info.core_count ≠ 0

/-- Every core below the core count has the critical temperature `v`. -/
def allCoresHave (info : CpuidInfo) (self : CPUSensors) (v : Nat) : Prop :=
  ∀ i, i < info.core_count → self.tjmax i = v

/-- Header constants with the usual values: Intel's CPUID model numbers, 32 per-core slots. -/
def sampleConstants : Constants :=
  { CPUID_MODEL_PENTIUM_M := 0x0D, CPUID_MODEL_YONAH := 0x0E, CPUID_MODEL_MEROM := 0x0F,
    CPUID_MODEL_PENRYN := 0x17, CPUID_MODEL_ATOM := 0x1C, CPUID_MODEL_NEHALEM := 0x1A,
    CPUID_MODEL_FIELDS := 0x1E, CPUID_MODEL_DALES := 0x1F, CPUID_MODEL_DALES_32NM := 0x25,
    CPUID_MODEL_WESTMERE := 0x2C, CPUID_MODEL_NEHALEM_EX := 0x2E,
    CPUID_MODEL_WESTMERE_EX := 0x2F, CPUID_MODEL_SANDYBRIDGE := 0x2A,
    CPUID_MODEL_JAKETOWN := 0x2D, CPUID_MODEL_IVYBRIDGE := 0x3A,
    CPUID_MODEL_IVYBRIDGE_EP := 0x3E, CPUID_MODEL_HASWELL_DT := 0x3C,
    CPUID_MODEL_HASWELL_MB := 0x3F, CPUID_MODEL_HASWELL_ULT := 0x45,
    CPUID_MODEL_HASWELL_ULX := 0x46, kCPUSensorsMaxCpus := 32,
    CPUID_VID_INTEL := "GenuineIntel", CPUID_FEATURE_MSR := 0x20,
    labelsDistinct := by decide }

/-- An Intel processor with the MSR feature, of the given family, model, stepping and core
count, which the kernel does not class as Nehalem or newer. -/
def sampleInfo (family model stepping cores : Nat) : CpuidInfo :=
  { cpuid_vendor := "GenuineIntel", cpuid_features := 0x20, core_count := cores,
    thread_count := cores, cpuid_family := family, cpuid_model := model,
    cpuid_stepping := stepping, cpuid_cpufamily := .other 0 }

/-- A machine with logical CPUs 0 and 1 on which every register of every CPU reads `raw`. -/
def sampleMachine (raw : Nat) : Machine :=
  { cpus := [0, 1], current := 0, msr := fun _ _ => raw, pmc := fun _ _ => (0, 0) }

/-- A started driver on a two-core machine: critical temperature 100 on every core, energy
unit 1, and rail 0 last sampled at time 10 with the counter at `lastEnergy`; the thermal
cache of every core holds the reading `cached` and is stale. -/
def sampleWorld (raw cached lastEnergy : Nat) : World :=
  { self := { CPUSensors.fresh with
      tjmax := fun _ => 100, energyUnitValue := 1, lastEnergyTime := fun _ => 10,
      lastEnergyValue := fun _ => lastEnergy }
    g := { Globals.zero with cpu_thermal := fun _ => cached }
    m := sampleMachine raw }

/-- A start environment whose base class started, with the given `Tjmax` entry in the
configuration node and no forced platform string. -/
def sampleStartEnv (tjmax : Option Nat) : CpuStartEnv :=
  { superStart := true, configuration := some { Tjmax := tjmax, PlatformString := none },
    FSBFrequency := none, bus_frequency_max_hz := 800000000, cpuid6_eax := 0 }

/-! ## Later calls on a started scheduler, and sample inputs for `start` -/

/-- A call the host makes on a started scheduler: `activateProfile(name)` at clock reading
`now`, or a timer tick at clock reading `now`. -/
inductive SchedulerOp where
  | activate (name : String) (now : ℚ)
  | tick (now : ℚ)

/-- The scheduler and the firmware state after one call. -/
def applyOp {σ : Type} (ev : Evaluator σ) (st : ACPIProbe × σ) : SchedulerOp → ACPIProbe × σ
  | .activate name now => ((st.1.activateProfile name now).2, st.2)
  | .tick now =>
    ((ACPIProbe.woorkloopTimerEvent ev st.1 now st.2).self,
      (ACPIProbe.woorkloopTimerEvent ev st.1 now st.2).fw)

/-- The scheduler and the firmware state after a sequence of calls. -/
def applyOps {σ : Type} (ev : Evaluator σ) (ops : List SchedulerOp) (st : ACPIProbe × σ) :
    ACPIProbe × σ :=
  ops.foldl (applyOp ev) st

/-- A start environment in which every resource is available and the configuration node
defines profile `P` (probes `A`, `B`, `C`; interval 2; timeout 1000). -/
def sampleAcpiEnv : StartEnv :=
  { superStart := true, acpiDevice := true,
    configuration := some (Configuration.mk (some "P") (some 2) (some 1000) none
      (some ["A", "B", "C"])),
    workloop := true, timerEventSource := true, addEventSource := kIOReturnSuccess }

/-- The scheduler `start` leaves behind for `sampleAcpiEnv`: profile `P` loaded and active,
the timer armed for 100 ms. -/
def sampleStarted : ACPIProbe :=
  { sampleProbe with activeProfile := some 0, timeoutMS := some 100 }

/-- The containers of a scheduler are consistent: both exist, the name-keyed collection is
empty exactly when the ordered list is, every profile stored under a name is in the ordered
list, and no profile is active and no timer armed yet. -/
def ACPIProbe.Loading (self : ACPIProbe) : Prop :=
  ∃ d l, self.profiles = some d ∧ self.profileList = some l ∧ (d.getCount = 0 ↔ l = []) ∧
    (∀ name p, d.getObject name = some p → p ∈ l) ∧
    self.activeProfile = none ∧ self.timeoutMS = none

/-- The scheduler runs: the ordered list exists, every profile stored under a name is in
it, and the active profile is one of its members. -/
def ACPIProbe.Running (self : ACPIProbe) (l : List Nat) : Prop :=
  self.profileList = some l ∧
    (∀ name p, self.getProfileByName name = some p → p ∈ l) ∧
    ∃ p, self.activeProfile = some p ∧ p ∈ l

/-- A processor like `sampleInfo`, which the kernel classes as Sandy Bridge. -/
def sampleSandyBridge : CpuidInfo :=
  { sampleInfo 0x06 0x2A 7 2 with cpuid_cpufamily := .CPUFAMILY_INTEL_SANDYBRIDGE }

/-- The processor family is one of the six the source names, Nehalem through Haswell. -/
def raplCapable (info : CpuidInfo) : Prop :=
  ∀ id, info.cpuid_cpufamily ≠ .other id

/-- A later call that cannot reopen an elapsed timeout: a tick at a clock reading not before
`now`, or an `activateProfile` call that does not succeed on `self`. -/
def SchedulerOp.keepsExpired (self : ACPIProbe) (now : ℚ) : SchedulerOp → Prop
  | .tick t => now ≤ t
  | .activate name t => (self.activateProfile name t).1 ≠ kIOReturnSuccess

/-- No profile object carries a `startedAt` stamp: every one is still zero. -/
def ACPIProbe.Unstamped (self : ACPIProbe) : Prop :=
  ∀ q, (self.heap q).startedAt = 0

/-- The call is a run of the timer handler. -/
def SchedulerOp.isTick : SchedulerOp → Bool
  | .tick _ => true
  | .activate _ _ => false

mutual
/-- The integer leaves of a firmware value in depth-first, left-to-right order, each with the
sequence indices on the path to it. -/
def leaves : OSObject → List (List Nat × Nat)
  | .number v => [([], v)]
  | .array items => leavesFrom 0 items
  | .string _ => []
  | .boolean _ => []
/-- The integer leaves below the entries of a sequence, from index `i` on. -/
def leavesFrom (i : Nat) : List OSObject → List (List Nat × Nat)
  | [] => []
  | x :: xs => (leaves x).map (fun e => (i :: e.1, e.2)) ++ leavesFrom (i + 1) xs
end

/-- The probe name followed by `[i]` for every index of the path. -/
def keyOf (name : String) (path : List Nat) : String :=
  path.foldl (fun acc i => acc ++ "[" ++ toString i ++ "]") name

/-- The arguments of one `addProfile` call. -/
structure ProfileArgs where
  name : Option String
  methods : Option (List String)
  interval : Option Nat
  timeout : Option Nat
  verbose : Option Bool

/-- A sequence of `addProfile` calls on a scheduler, stopping at the first fault. -/
def ACPIProbe.addProfiles : List ProfileArgs → ACPIProbe → Except Fault ACPIProbe
  | [], self => .ok self
  | a :: rest, self =>
    match self.addProfile a.name a.methods a.interval a.timeout a.verbose with
    | .ok self1 => ACPIProbe.addProfiles rest self1
    | .error f => .error f

/-- An accepted call: `withParameters` built a profile for it.  The pair is the name given
in the call and the profile built. -/
def ProfileArgs.accepted (a : ProfileArgs) : Option (String × ACPIProbeProfile) :=
  match ACPIProbeProfile.withParameters a.name a.methods a.interval a.timeout a.verbose,
      a.name with
  | .valid p, some nm => some (nm, p)
  | _, _ => none

/-- The accepted calls of a sequence, in order. -/
def acceptedCalls (calls : List ProfileArgs) : List (String × ACPIProbeProfile) :=
  calls.filterMap ProfileArgs.accepted

/-- The name given in the accepted call number `i`. -/
def nameAt (acc : List (String × ACPIProbeProfile)) (i : Nat) : Option String :=
  (acc.get? i).map Prod.fst

/-- The accepted call number `i` is the most recent one with the name `name`. -/
def LastNamed (acc : List (String × ACPIProbeProfile)) (name : String) (i : Nat) : Prop :=
  nameAt acc i = some name ∧ ∀ j, i < j → nameAt acc j ≠ some name

/-- The containers of a scheduler hold the accepted calls `acc`, the profile of call `i` at
pointer `n0 + i`: the ordered list holds the pointers in insertion order, the name-keyed
collection holds under each name the pointer of the most recent call with that name. -/
def ACPIProbe.Holds (self : ACPIProbe) (n0 : Nat) (acc : List (String × ACPIProbeProfile)) :
    Prop :=
  self.heapNext = n0 + acc.length ∧
  self.profileList = some (List.range' n0 acc.length) ∧
  (∀ i nm prof, acc.get? i = some (nm, prof) → self.heap (n0 + i) = prof) ∧
  ∃ d, self.profiles = some d ∧ (d.getCount = 0 ↔ acc = []) ∧
    ∀ name q, d.getObject name = some q ↔ ∃ i, q = n0 + i ∧ LastNamed acc name i

/-- Two calls that define profiles named `P`, a rejected call between them. -/
def sampleCalls : List ProfileArgs :=
  [ ProfileArgs.mk (some "P") (some ["A"]) (some 2) (some 1000) none,
    ProfileArgs.mk (some "Q") (some []) (some 2) none none,
    ProfileArgs.mk (some "P") (some ["B", "C"]) (some 5) none (some true) ]

/-- The scheduler after the sample calls on freshly created containers. -/
def sampleLoaded : ACPIProbe :=
  match ({ ACPIProbe.fresh with profiles := some [], profileList := some [] }
      : ACPIProbe).addProfiles sampleCalls with
  | .ok self => self
  | .error _ => ACPIProbe.fresh

/-- The forced platform string: the `PlatformString` entry of the configuration node when it
is a string of non-zero length. -/
def CpuStartEnv.forcedPlatform (env : CpuStartEnv) : Option String :=
  match env.configuration with
  | some c =>
    match c.PlatformString with
    | some string => if string.length > 0 then some string else none
    | none => none
  | none => none

/-- The family-0x06 decision table as the specification lists it: the models of a row and
the platform constant of the row. -/
def platformTable (k : CpuidModels) : List (List Nat × String) :=
  [ ([k.CPUID_MODEL_PENTIUM_M], "M70"),
    ([k.CPUID_MODEL_YONAH], "K22"),
    ([k.CPUID_MODEL_MEROM], "M75"),
    ([k.CPUID_MODEL_PENRYN], "M82"),
    ([k.CPUID_MODEL_ATOM], "T9"),
    ([k.CPUID_MODEL_NEHALEM, k.CPUID_MODEL_FIELDS, k.CPUID_MODEL_DALES,
      k.CPUID_MODEL_DALES_32NM, k.CPUID_MODEL_WESTMERE, k.CPUID_MODEL_NEHALEM_EX,
      k.CPUID_MODEL_WESTMERE_EX], "k74"),
    ([k.CPUID_MODEL_SANDYBRIDGE, k.CPUID_MODEL_JAKETOWN], "k62"),
    ([k.CPUID_MODEL_IVYBRIDGE], "d8"),
    ([k.CPUID_MODEL_HASWELL_DT, k.CPUID_MODEL_HASWELL_MB, k.CPUID_MODEL_HASWELL_ULT,
      k.CPUID_MODEL_HASWELL_ULX], "j43") ]

/-- The models whose case of the family-0x06 switch reads the target-temperature register:
the Nehalem, Sandy Bridge, Ivy Bridge and Haswell rows of the table. -/
def targetRegisterModels (k : CpuidModels) : List Nat :=
  [k.CPUID_MODEL_NEHALEM, k.CPUID_MODEL_FIELDS, k.CPUID_MODEL_DALES, k.CPUID_MODEL_DALES_32NM,
   k.CPUID_MODEL_WESTMERE, k.CPUID_MODEL_NEHALEM_EX, k.CPUID_MODEL_WESTMERE_EX,
   k.CPUID_MODEL_SANDYBRIDGE, k.CPUID_MODEL_JAKETOWN, k.CPUID_MODEL_IVYBRIDGE,
   k.CPUID_MODEL_HASWELL_DT, k.CPUID_MODEL_HASWELL_MB, k.CPUID_MODEL_HASWELL_ULT,
   k.CPUID_MODEL_HASWELL_ULX]

/-- A start environment like `sampleStartEnv` with the given `PlatformString` entry and no
`Tjmax` entry. -/
def samplePlatformEnv (text : String) : CpuStartEnv :=
  { superStart := true, configuration := some { Tjmax := none, PlatformString := some text },
    FSBFrequency := none, bus_frequency_max_hz := 800000000, cpuid6_eax := 0 }

/-- A processor like `sampleInfo` of model `CPUID_MODEL_IVYBRIDGE_EP` (0x3E), which the kernel
classes as Ivy Bridge. -/
def sampleIvyBridgeEP : CpuidInfo :=
  { sampleInfo 0x06 0x3E 4 2 with cpuid_cpufamily := .CPUFAMILY_INTEL_IVYBRIDGE }

/-! ## Lemmas on the containers and on the probe loop -/

theorem OSDictionary.getObject_setObject {α : Type} (d : OSDictionary α) (k key : String)
    (v : α) :
    (d.setObject k v).getObject key = if k = key then some v else d.getObject key := by
  induction d with
  | nil => simp [OSDictionary.setObject, OSDictionary.getObject]
  | cons e rest ih =>
    obtain ⟨k0, v0⟩ := e
    by_cases h0 : k0 = k
    · subst h0
      by_cases h1 : k0 = key <;> simp [OSDictionary.setObject, OSDictionary.getObject, h1]
    · by_cases h1 : k0 = key
      · subst h1
        simp [OSDictionary.setObject, OSDictionary.getObject, h0, Ne.symm h0]
      · simp [OSDictionary.setObject, OSDictionary.getObject, h0, h1, ih]

theorem probeStep_calls {σ : Type} (ev : Evaluator σ) (verbose : Bool) (st : LoopState σ)
    (method : String) :
    (probeStep ev verbose st method).calls =
      st.calls ++ [{ method := method, result := (ev st.fw method).1.1,
                     object := (ev st.fw method).1.2 }] := by
  unfold probeStep
  rcases h : ev st.fw method with ⟨⟨result, object⟩, fw1⟩
  cases object with
  | none => simp
  | some obj => by_cases hr : kIOReturnSuccess = result <;> simp [hr]

theorem probeStep_fw {σ : Type} (ev : Evaluator σ) (verbose : Bool) (st : LoopState σ)
    (method : String) : (probeStep ev verbose st method).fw = (ev st.fw method).2 := by
  unfold probeStep
  rcases h : ev st.fw method with ⟨⟨result, object⟩, fw1⟩
  cases object with
  | none => simp
  | some obj => by_cases hr : kIOReturnSuccess = result <;> simp [hr]

theorem probeStep_values {σ : Type} (ev : Evaluator σ) (verbose : Bool) (st : LoopState σ)
    (method key : String) :
    (probeStep ev verbose st method).values.getObject key =
      match (Call.mk method (ev st.fw method).1.1 (ev st.fw method).1.2).valueFor key with
      | some obj => some obj
      | none => st.values.getObject key := by
  unfold probeStep Call.valueFor
  rcases h : ev st.fw method with ⟨⟨result, object⟩, fw1⟩
  cases object with
  | none => simp
  | some obj =>
    by_cases hr : kIOReturnSuccess = result
    · by_cases hk : method = key
      · simp [hr.symm, hk, OSDictionary.getObject_setObject]
      · simp [hr.symm, hk, OSDictionary.getObject_setObject]
    · have hr2 : ¬ result = kIOReturnSuccess := fun e => hr e.symm
      simp [hr, hr2]

theorem probeLoop_calls {σ : Type} (ev : Evaluator σ) (verbose : Bool) (methods : List String)
    (st : LoopState σ) :
    (probeLoop ev verbose methods st).calls = st.calls ++ invocations ev methods st.fw := by
  induction methods generalizing st with
  | nil => simp [probeLoop, invocations]
  | cons method rest ih =>
    have := ih (probeStep ev verbose st method)
    simp only [probeLoop, List.foldl_cons] at this ⊢
    rw [this, probeStep_calls, probeStep_fw]
    simp [invocations]

theorem probeLoop_fw {σ : Type} (ev : Evaluator σ) (verbose : Bool) (methods : List String)
    (st : LoopState σ) :
    (probeLoop ev verbose methods st).fw = invocationsState ev methods st.fw := by
  induction methods generalizing st with
  | nil => simp [probeLoop, invocationsState]
  | cons method rest ih =>
    have := ih (probeStep ev verbose st method)
    simp only [probeLoop, List.foldl_cons] at this ⊢
    rw [this, probeStep_fw]
    simp [invocationsState]

theorem probeLoop_values {σ : Type} (ev : Evaluator σ) (verbose : Bool) (methods : List String)
    (st : LoopState σ) (key : String) :
    (probeLoop ev verbose methods st).values.getObject key =
      lastValueFor key (st.values.getObject key) (invocations ev methods st.fw) := by
  induction methods generalizing st with
  | nil => simp [probeLoop, invocations, lastValueFor]
  | cons method rest ih =>
    have := ih (probeStep ev verbose st method)
    simp only [probeLoop, List.foldl_cons] at this ⊢
    rw [this, probeStep_values, probeStep_fw]
    simp [invocations, lastValueFor]

theorem invocations_methods {σ : Type} (ev : Evaluator σ) (methods : List String) (fw : σ) :
    (invocations ev methods fw).map Call.method = methods := by
  induction methods generalizing fw with
  | nil => simp [invocations]
  | cons method rest ih => simp [invocations, ih]

theorem Call.valueFor_eq_some (c : Call) (key : String) (v : OSObject) :
    c.valueFor key = some v ↔ c.method = key ∧ c.result = kIOReturnSuccess ∧ c.object = some v := by
  unfold Call.valueFor
  cases h : c.object with
  | none => simp
  | some obj =>
    by_cases hc : c.method = key ∧ c.result = kIOReturnSuccess
    · simp [hc]
    · simp only [if_neg hc]
      constructor
      · intro h0; cases h0
      · rintro ⟨h1, h2, _⟩; exact absurd ⟨h1, h2⟩ hc

theorem lastValueFor_some (key : String) (calls : List Call) (acc : Option OSObject)
    (v : OSObject) (h : lastValueFor key acc calls = some v) :
    acc = some v ∨ ∃ c ∈ calls, c.valueFor key = some v := by
  induction calls generalizing acc with
  | nil => left; simpa [lastValueFor] using h
  | cons c cs ih =>
    simp only [lastValueFor] at h
    rcases ih _ h with h1 | ⟨c1, hc1, hv⟩
    · cases hv : c.valueFor key with
      | none => rw [hv] at h1; left; exact h1
      | some obj =>
        rw [hv] at h1
        right; exact ⟨c, List.mem_cons_self _ _, by rw [hv]; exact h1⟩
    · right; exact ⟨c1, List.mem_cons_of_mem _ hc1, hv⟩

theorem lastValueFor_isSome (key : String) (calls : List Call) (acc : Option OSObject)
    (h : acc ≠ none ∨ ∃ c ∈ calls, c.valueFor key ≠ none) :
    lastValueFor key acc calls ≠ none := by
  induction calls generalizing acc with
  | nil =>
    rcases h with h | ⟨c, hc, _⟩
    · simpa [lastValueFor] using h
    · cases hc
  | cons c cs ih =>
    simp only [lastValueFor]
    apply ih
    rcases h with h | ⟨c1, hc1, hv⟩
    · left
      cases hv : c.valueFor key with
      | none => simpa using h
      | some obj => simp
    · rcases List.mem_cons.mp hc1 with rfl | hin
      · left
        cases hv2 : c1.valueFor key with
        | none => exact absurd hv2 hv
        | some obj => simp
      · right; exact ⟨c1, hin, hv⟩

theorem tick_gate_open {σ : Type} (ev : Evaluator σ) (self : ACPIProbe) (now : ℚ) (fw : σ)
    (p : Nat) (hp : self.activeProfile = some p) (hg : ACPIProbe.gateOpen (self.heap p) now) :
    ACPIProbe.woorkloopTimerEvent ev self now fw =
      (let st := probeLoop ev (self.heap p).verbose (self.heap p).methods
          { fw := fw, values := [], calls := [], infoLog := [], errorLog := [] }
       let ms := toUInt32 ((self.heap p).interval * 1000)
       { self := { self with valuesProperty := some st.values, timeoutMS := some ms }
         fw := st.fw, ret := kIOReturnSuccess, calls := st.calls, published := some st.values
         armedMS := ms, infoLog := st.infoLog, errorLog := st.errorLog
         fault := if self.timerEventSource then none else some .nullPointer }) := by
  simp only [ACPIProbe.woorkloopTimerEvent, hp, if_pos hg]

theorem tick_gate_closed {σ : Type} (ev : Evaluator σ) (self : ACPIProbe) (now : ℚ) (fw : σ)
    (p : Nat) (hp : self.activeProfile = some p) (hg : ¬ ACPIProbe.gateOpen (self.heap p) now) :
    ACPIProbe.woorkloopTimerEvent ev self now fw =
      { self := { self with timeoutMS := some 5000 }
        fw := fw, ret := kIOReturnSuccess, calls := [], published := none, armedMS := 5000,
        infoLog := [], errorLog := []
        fault := if self.timerEventSource then none else some .nullPointer } := by
  simp only [ACPIProbe.woorkloopTimerEvent, hp, if_neg hg]

theorem sampleActive_gate :
    ACPIProbe.gateOpen ((sampleProbe.activateProfile "P" 0).2.heap 0) (3 / 2) := by
  right
  show (3 / 2 : ℚ) - 0 < ((1000 * 1000 % 2 ^ 64 : ℕ) : ℚ)
  norm_num

/-! ## The probe scheduler: claims -/

/-- C1 (evaluation of the code at the failing input): a profile with timeout 1000 is
activated at time 0 and the tick runs at 1.5 seconds, after the 1000 ms of the claim have
passed.  The tick still evaluates every probe, publishes a batch and re-arms the timer for
the polling interval instead of 5000 ms, because the test compares the elapsed seconds with
`timeout * 1000`. -/
theorem C1_tick_after_timeout_still_evaluates :
    ((sampleProbe.activateProfile "P" 0).2.heap 0).timeout = 1000 ∧
    ((sampleProbe.activateProfile "P" 0).2.heap 0).startedAt = 0 ∧
    (sampleProbe.activateProfile "P" 0).2.activeProfile = some 0 ∧
    ((ACPIProbe.woorkloopTimerEvent sampleEvaluator (sampleProbe.activateProfile "P" 0).2
        (3 / 2) ()).calls.map Call.method) = ["A", "B", "C"] ∧
    (ACPIProbe.woorkloopTimerEvent sampleEvaluator (sampleProbe.activateProfile "P" 0).2
        (3 / 2) ()).published = some [("A", .number 7), ("C", .number 7)] ∧
    (ACPIProbe.woorkloopTimerEvent sampleEvaluator (sampleProbe.activateProfile "P" 0).2
        (3 / 2) ()).armedMS = 2000 := by
  refine ⟨rfl, rfl, rfl, ?_, ?_, ?_⟩ <;>
    rw [tick_gate_open _ _ _ _ 0 rfl sampleActive_gate] <;> rfl

/-- C2: on a tick that evaluates probes, the evaluator is invoked once for each probe
identifier of the active profile, in profile order, whatever the earlier calls returned;
the published batch has an entry for exactly the identifiers for which a call returned
success with a value, and each entry holds a value such a call returned (the one of the
last such call for that identifier). -/
theorem C2_tick_invokes_all_and_publishes_successes {σ : Type} (ev : Evaluator σ)
    (self : ACPIProbe) (now : ℚ) (fw : σ) (p : Nat) (hp : self.activeProfile = some p)
    (hg : ACPIProbe.gateOpen (self.heap p) now) :
    (ACPIProbe.woorkloopTimerEvent ev self now fw).calls
        = invocations ev (self.heap p).methods fw ∧
    (ACPIProbe.woorkloopTimerEvent ev self now fw).calls.map Call.method
        = (self.heap p).methods ∧
    ∃ batch, (ACPIProbe.woorkloopTimerEvent ev self now fw).published = some batch ∧
      (∀ key, (∃ v, batch.getObject key = some v) ↔
        ∃ c ∈ (ACPIProbe.woorkloopTimerEvent ev self now fw).calls,
          c.method = key ∧ c.result = kIOReturnSuccess ∧ c.object ≠ none) ∧
      (∀ key v, batch.getObject key = some v →
        ∃ c ∈ (ACPIProbe.woorkloopTimerEvent ev self now fw).calls,
          c.method = key ∧ c.result = kIOReturnSuccess ∧ c.object = some v) ∧
      (∀ key, batch.getObject key
        = lastValueFor key none (ACPIProbe.woorkloopTimerEvent ev self now fw).calls) := by
  rw [tick_gate_open ev self now fw p hp hg]
  simp only
  have hcalls := probeLoop_calls ev (self.heap p).verbose (self.heap p).methods
    { fw := fw, values := [], calls := [], infoLog := [], errorLog := [] }
  have hvals := probeLoop_values ev (self.heap p).verbose (self.heap p).methods
    { fw := fw, values := [], calls := [], infoLog := [], errorLog := [] }
  simp only [List.nil_append] at hcalls
  have hnil : ∀ key, OSDictionary.getObject ([] : OSDictionary OSObject) key = none :=
    fun _ => rfl
  simp only [hnil] at hvals
  rw [hcalls]
  refine ⟨rfl, invocations_methods ev _ fw, _, rfl, ?_, ?_, ?_⟩
  · intro key
    rw [hvals key]
    constructor
    · rintro ⟨v, hv⟩
      rcases lastValueFor_some key _ none v hv with h | ⟨c, hc, hcv⟩
      · cases h
      · obtain ⟨h1, h2, h3⟩ := (Call.valueFor_eq_some c key v).mp hcv
        exact ⟨c, hc, h1, h2, by rw [h3]; simp⟩
    · rintro ⟨c, hc, h1, h2, h3⟩
      obtain ⟨v, hv⟩ := Option.ne_none_iff_exists'.mp h3
      have hcv : c.valueFor key = some v := (Call.valueFor_eq_some c key v).mpr ⟨h1, h2, hv⟩
      have := lastValueFor_isSome key (invocations ev (self.heap p).methods fw) none
        (Or.inr ⟨c, hc, by rw [hcv]; simp⟩)
      exact Option.ne_none_iff_exists'.mp this
  · intro key v hv
    rw [hvals key] at hv
    rcases lastValueFor_some key _ none v hv with h | ⟨c, hc, hcv⟩
    · cases h
    · exact ⟨c, hc, (Call.valueFor_eq_some c key v).mp hcv⟩
  · intro key
    exact hvals key

/-- C2 at a concrete tick: probes `A`, `B`, `C` with `B` failing.  All three are evaluated and
the batch holds `A` and `C` only. -/
theorem C2_witness :
    (ACPIProbe.woorkloopTimerEvent sampleEvaluator (sampleProbe.activateProfile "P" 0).2
        (3 / 2) ()).calls.map Call.method = ["A", "B", "C"] ∧
    (ACPIProbe.woorkloopTimerEvent sampleEvaluator (sampleProbe.activateProfile "P" 0).2
        (3 / 2) ()).published = some [("A", .number 7), ("C", .number 7)] :=
  ⟨(C2_tick_invokes_all_and_publishes_successes sampleEvaluator
      (sampleProbe.activateProfile "P" 0).2 (3 / 2) () 0 rfl sampleActive_gate).2.1,
    by rw [tick_gate_open _ _ _ _ 0 rfl sampleActive_gate]; rfl⟩

/-- C3: `activateProfile` returns "aborted" exactly when no profile is loaded, "bad argument"
(not found) exactly when profiles are loaded and none is stored under the name, and success
otherwise.  On success the profile stored under the name is the active one, its `startedAt`
is the clock reading, and both collections, every other member and every other field of
every profile are as before; on any other result the whole object is as before. -/
theorem C3_activateProfile_results (self : ACPIProbe) (name : String) (now : ℚ) :
    ((self.activateProfile name now).1 = kIOReturnAborted ↔ self.loadedCount = 0) ∧
    ((self.activateProfile name now).1 = kIOReturnBadArgument ↔
      self.loadedCount ≠ 0 ∧ self.getProfileByName name = none) ∧
    ((self.activateProfile name now).1 = kIOReturnSuccess ↔
      self.loadedCount ≠ 0 ∧ ∃ p, self.getProfileByName name = some p) ∧
    (∀ p, self.loadedCount ≠ 0 → self.getProfileByName name = some p →
      (self.activateProfile name now).2.activeProfile = some p ∧
      ((self.activateProfile name now).2.heap p).startedAt = now ∧
      (self.activateProfile name now).2.profiles = self.profiles ∧
      (self.activateProfile name now).2.profileList = self.profileList ∧
      (self.activateProfile name now).2.heapNext = self.heapNext ∧
      (self.activateProfile name now).2.valuesProperty = self.valuesProperty ∧
      (self.activateProfile name now).2.timeoutMS = self.timeoutMS ∧
      (∀ q, q ≠ p → (self.activateProfile name now).2.heap q = self.heap q) ∧
      (∀ q, ((self.activateProfile name now).2.heap q).name = (self.heap q).name ∧
        ((self.activateProfile name now).2.heap q).methods = (self.heap q).methods ∧
        ((self.activateProfile name now).2.heap q).interval = (self.heap q).interval ∧
        ((self.activateProfile name now).2.heap q).timeout = (self.heap q).timeout ∧
        ((self.activateProfile name now).2.heap q).verbose = (self.heap q).verbose)) ∧
    ((self.activateProfile name now).1 ≠ kIOReturnSuccess →
      (self.activateProfile name now).2 = self) := by
  cases hd : self.profiles with
  | none =>
    have e : self.activateProfile name now = (kIOReturnAborted, self) := by
      simp [ACPIProbe.activateProfile, hd]
    simp [e, ACPIProbe.loadedCount, ACPIProbe.getProfileByName, hd, kIOReturnAborted,
      kIOReturnBadArgument, kIOReturnSuccess]
  | some d =>
    by_cases hc : d.getCount = 0
    · have e : self.activateProfile name now = (kIOReturnAborted, self) := by
        simp [ACPIProbe.activateProfile, hd, hc]
      simp [e, ACPIProbe.loadedCount, ACPIProbe.getProfileByName, hd, hc, kIOReturnAborted,
        kIOReturnBadArgument, kIOReturnSuccess]
    · cases hl : d.getObject name with
      | none =>
        have e : self.activateProfile name now = (kIOReturnBadArgument, self) := by
          simp [ACPIProbe.activateProfile, hd, hc, hl]
        simp [e, ACPIProbe.loadedCount, ACPIProbe.getProfileByName, hd, hc, hl,
          kIOReturnAborted, kIOReturnBadArgument, kIOReturnSuccess]
      | some p =>
        have e : self.activateProfile name now = (kIOReturnSuccess,
            { self with
              activeProfile := some p
              heap := fun q =>
                if q = p then { self.heap p with startedAt := now } else self.heap q }) := by
          simp [ACPIProbe.activateProfile, hd, hc, hl]
        rw [e]
        have hcount : self.loadedCount = d.getCount := by simp [ACPIProbe.loadedCount, hd]
        have hname : self.getProfileByName name = some p := by
          simp [ACPIProbe.getProfileByName, hd, hl]
        rw [hcount, hname]
        refine ⟨by simp [hc, kIOReturnAborted, kIOReturnSuccess],
          by simp [kIOReturnBadArgument, kIOReturnSuccess], by simp [hc], ?_, by simp⟩
        intro p1 _ hp1
        cases hp1
        refine ⟨rfl, by simp, hd, rfl, rfl, rfl, rfl, ?_, ?_⟩
        · intro q hq; simp [hq]
        · intro q
          by_cases hq : q = p
          · subst hq; simp
          · simp [hq]

/-- C4: a call of `addProfile` whose probe list is absent or empty, or whose interval is
absent or zero, leaves the whole scheduler as it was (both collections included); and when
such a profile is the only one offered to `start` (the device defines none), `start`
succeeds with no profile loaded, no active profile and the timer not armed. -/
theorem C4_addProfile_rejects_empty {σ : Type} (self : ACPIProbe) (name : Option String)
    (methods : Option (List String)) (interval timeout : Option Nat) (verbose : Option Bool)
    (h : methods = none ∨ methods = some [] ∨ interval = none ∨
      ∃ n, interval = some n ∧ unsigned64BitValue n = 0) :
    self.addProfile name methods interval timeout verbose = .ok self ∧
    ∀ (ev : Evaluator σ) (fw : σ) (env : StartEnv),
      env.superStart = true → env.acpiDevice = true →
      ((ev fw "LIST").1.2 = none ∨ (ev fw "LIST").1.1 ≠ kIOReturnSuccess) →
      env.configuration = some (Configuration.mk name interval timeout verbose methods) →
      ∃ s, ACPIProbe.start ev env ACPIProbe.fresh fw = .ok (true, s, (ev fw "LIST").2) ∧
        s.profiles = some [] ∧ s.profileList = some [] ∧ s.activeProfile = none ∧
        s.timeoutMS = none := by
  have hnull : ACPIProbeProfile.withParameters name methods interval timeout verbose
      = .null := by
    unfold ACPIProbeProfile.withParameters
    rcases h with h | h | h | ⟨n, h, hn⟩
    · subst h; rfl
    · subst h; cases interval <;> simp
    · subst h; cases methods <;> rfl
    · subst h; cases methods <;> simp [hn]
  have hadd : ∀ s : ACPIProbe, s.addProfile name methods interval timeout verbose = .ok s := by
    intro s; simp [ACPIProbe.addProfile, hnull]
  refine ⟨hadd self, ?_⟩
  intro ev fw env hs ha hlist hcfg
  have hdev : ∀ s0 : ACPIProbe,
      ACPIProbe.loadFromDevice ev s0 fw = .ok (s0, (ev fw "LIST").2) := by
    intro s0
    unfold ACPIProbe.loadFromDevice
    rcases hev : ev fw "LIST" with ⟨⟨result, object⟩, fw1⟩
    rw [hev] at hlist
    cases object with
    | none => rfl
    | some obj =>
      rcases hlist with h1 | h1
      · cases h1
      · have : ¬ kIOReturnSuccess = result := fun e => h1 e.symm
        simp [this]
  refine ⟨{ ACPIProbe.fresh with profiles := some [], profileList := some [] }, ?_,
    rfl, rfl, rfl, rfl⟩
  simp [ACPIProbe.start, hs, ha, hdev, ACPIProbe.loadFromConfiguration, hcfg, hadd,
    ACPIProbe.activateFirst, OSDictionary.getCount]

/-- C4 at a concrete call: a first profile `P` with an empty probe list is offered to a
scheduler that has no profile; nothing changes. -/
theorem C4_witness :
    ({ ACPIProbe.fresh with profiles := some [], profileList := some [] } : ACPIProbe).addProfile
        (some "P") (some []) (some 2) (some 1000) none
      = .ok { ACPIProbe.fresh with profiles := some [], profileList := some [] } :=
  (@C4_addProfile_rejects_empty Unit _ (some "P") (some []) (some 2) (some 1000) none
    (Or.inr (Or.inl rfl))).1

/-! ## Lemmas on the CPU sensors -/

theorem thermal_field_eq (raw : Nat) : (raw >>> 16) &&& 0x7F = raw / 2 ^ 16 % 2 ^ 7 := by
  rw [Nat.shiftRight_eq_div_pow]
  exact Nat.and_pow_two_sub_one_eq_mod _ 7

theorem valid_bit_iff (raw : Nat) : raw &&& 0x80000000 ≠ 0 ↔ raw.testBit 31 = true := by
  have h : (0x80000000 : Nat) = 2 ^ 31 := by norm_num
  rw [h, Nat.and_two_pow]
  cases raw.testBit 31 <;> simp

/-- A rendezvous in which every read on core `i` returns `raw` with the valid bit set leaves
`raw`'s reading in the cache of core `i` when a CPU of that core took part, and the cache
of core `i` as it was otherwise. -/
theorem rendezvous_thermal_valid (k : Constants) (info : CpuidInfo) (m : Machine) (i raw : Nat)
    (hi : i < k.kCPUSensorsMaxCpus) (hvalid : raw &&& 0x80000000 ≠ 0) (cpus : List Nat)
    (hread : ∀ cpu ∈ cpus, get_cpu_number info cpu = i →
      rdmsr64 m cpu .MSR_IA32_THERM_STS = raw) (g : Globals) :
    (cpus.foldl (fun acc cpu => read_cpu_thermal k info m cpu acc) g).cpu_thermal i =
      (if ∃ cpu ∈ cpus, get_cpu_number info cpu = i then (raw >>> 16) &&& 0x7F
       else g.cpu_thermal i) := by
  induction cpus generalizing g with
  | nil => simp
  | cons c rest ih =>
    have hrest : ∀ cpu ∈ rest, get_cpu_number info cpu = i →
        rdmsr64 m cpu .MSR_IA32_THERM_STS = raw :=
      fun cpu hc => hread cpu (List.mem_cons_of_mem _ hc)
    rw [List.foldl_cons, ih hrest]
    by_cases hex : ∃ cpu ∈ rest, get_cpu_number info cpu = i
    · have : ∃ cpu ∈ c :: rest, get_cpu_number info cpu = i := by
        obtain ⟨cpu, hc, hn⟩ := hex
        exact ⟨cpu, List.mem_cons_of_mem _ hc, hn⟩
      rw [if_pos hex, if_pos this]
    · rw [if_neg hex]
      by_cases hc : get_cpu_number info c = i
      · have : ∃ cpu ∈ c :: rest, get_cpu_number info cpu = i :=
          ⟨c, List.mem_cons_self _ _, hc⟩
        rw [if_pos this]
        have hraw := hread c (List.mem_cons_self _ _) hc
        simp [read_cpu_thermal, hc, hi, hraw, hvalid, setAt]
      · have : ¬ ∃ cpu ∈ c :: rest, get_cpu_number info cpu = i := by
          rintro ⟨cpu, hmem, hn⟩
          rcases List.mem_cons.mp hmem with rfl | hmem
          · exact hc hn
          · exact hex ⟨cpu, hmem, hn⟩
        rw [if_neg this]
        unfold read_cpu_thermal
        have hne : i ≠ get_cpu_number info c := fun e => hc e.symm
        by_cases h1 : get_cpu_number info c < k.kCPUSensorsMaxCpus
        · by_cases h2 : rdmsr64 m c .MSR_IA32_THERM_STS &&& 0x80000000 ≠ 0
          · simp only [h1, h2, if_true, setAt, if_neg hne, ne_eq, not_false_eq_true]
          · simp only [h1, h2, if_true, if_false]
        · simp only [h1, if_false]

/-- A rendezvous in which every read on core `i` returns a value with the valid bit clear
leaves the cached reading and the freshness flag of core `i` as they were. -/
theorem rendezvous_thermal_invalid (k : Constants) (info : CpuidInfo) (m : Machine) (i : Nat)
    (cpus : List Nat)
    (hread : ∀ cpu ∈ cpus, get_cpu_number info cpu = i →
      (rdmsr64 m cpu .MSR_IA32_THERM_STS).testBit 31 = false) (g : Globals) :
    (cpus.foldl (fun acc cpu => read_cpu_thermal k info m cpu acc) g).cpu_thermal i
        = g.cpu_thermal i ∧
    (cpus.foldl (fun acc cpu => read_cpu_thermal k info m cpu acc) g).cpu_thermal_updated i
        = g.cpu_thermal_updated i := by
  induction cpus generalizing g with
  | nil => simp
  | cons c rest ih =>
    have hrest : ∀ cpu ∈ rest, get_cpu_number info cpu = i →
        (rdmsr64 m cpu .MSR_IA32_THERM_STS).testBit 31 = false :=
      fun cpu hc => hread cpu (List.mem_cons_of_mem _ hc)
    rw [List.foldl_cons, (ih hrest _).1, (ih hrest _).2]
    unfold read_cpu_thermal
    by_cases h1 : get_cpu_number info c < k.kCPUSensorsMaxCpus
    · by_cases h2 : rdmsr64 m c .MSR_IA32_THERM_STS &&& 0x80000000 ≠ 0
      · have hne : i ≠ get_cpu_number info c := by
          intro e
          have := hread c (List.mem_cons_self _ _) e.symm
          rw [(valid_bit_iff _).mp h2] at this
          cases this
        simp only [h1, h2, if_true, setAt, if_neg hne, ne_eq, not_false_eq_true, and_self]
      · simp only [h1, h2, if_true, if_false, and_self]
    · simp only [h1, if_false, and_self]

/-! ## The CPU sensors: claims -/

/-- C5: for a core `i` whose cached thermal reading is stale, when the rendezvous runs on a
CPU of core `i` and the thermal-status register read there has its reading-valid bit (bit
31) set, decoding the core-temperature sensor `i` returns `tjmax[i]` minus bits 16..22 of
that register value. -/
theorem C5_core_temperature_valid_reading (k : Constants) (info : CpuidInfo) (time : ℚ)
    (w : World) (i raw : Nat) (hi : i < k.kCPUSensorsMaxCpus)
    (hstale : w.g.cpu_thermal_updated i = false)
    (hrun : ∃ cpu ∈ w.m.cpus, get_cpu_number info cpu = i)
    (hread : ∀ cpu ∈ w.m.cpus, get_cpu_number info cpu = i →
      rdmsr64 w.m cpu .MSR_IA32_THERM_STS = raw)
    (hvalid : raw.testBit 31 = true) :
    (CPUSensors.getSensorValue k info time
        { group := .kFakeSMCTemperatureSensor, index := i } w).1
      = (((w.self.tjmax i : ℤ) - ((raw / 2 ^ 16 % 2 ^ 7 : ℕ) : ℤ) : ℤ) : ℚ) := by
  have hv := (valid_bit_iff raw).mpr hvalid
  have hth := rendezvous_thermal_valid k info w.m i raw hi hv w.m.cpus hread w.g
  rw [if_pos hrun, thermal_field_eq] at hth
  simp only [CPUSensors.getSensorValue, hstale, mp_rendezvous_no_intrs, Bool.false_eq_true,
    if_false]
  rw [hth]

/-- C5 at a concrete read: critical temperature 100, raw reading 25 with the valid bit set
give 75. -/
theorem C5_witness :
    (CPUSensors.getSensorValue sampleConstants (sampleInfo 6 0x0F 6 2) 11
        { group := .kFakeSMCTemperatureSensor, index := 0 }
        (sampleWorld (0x80000000 + 25 * 2 ^ 16) 0 0)).1 = 75 := by
  rw [C5_core_temperature_valid_reading sampleConstants (sampleInfo 6 0x0F 6 2) 11
    (sampleWorld (0x80000000 + 25 * 2 ^ 16) 0 0) 0 (0x80000000 + 25 * 2 ^ 16)
    (by decide) rfl ⟨0, by decide, by decide⟩ (by decide) (by decide)]
  norm_num [sampleWorld]

/-- C6 (counterexample): core 0 has critical temperature 100 and the stale cached reading
25; the rendezvous reads a thermal-status value with the valid bit clear.  The decode
returns 75, not 0. -/
theorem C6_counterexample :
    (rdmsr64 (sampleWorld 25 25 0).m 0 .MSR_IA32_THERM_STS).testBit 31 = false ∧
    (CPUSensors.getSensorValue sampleConstants (sampleInfo 6 0x0F 6 2) 11
        { group := .kFakeSMCTemperatureSensor, index := 0 } (sampleWorld 25 25 0)).1 = 75 ∧
    (CPUSensors.getSensorValue sampleConstants (sampleInfo 6 0x0F 6 2) 11
        { group := .kFakeSMCTemperatureSensor, index := 0 } (sampleWorld 25 25 0)).1 ≠ 0 := by
  have h : (CPUSensors.getSensorValue sampleConstants (sampleInfo 6 0x0F 6 2) 11
      { group := .kFakeSMCTemperatureSensor, index := 0 } (sampleWorld 25 25 0)).1 = 75 := by
    have hc : ((sampleWorld 25 25 0).m.cpus.foldl
        (fun acc cpu => read_cpu_thermal sampleConstants (sampleInfo 6 0x0F 6 2)
          (sampleWorld 25 25 0).m cpu acc) (sampleWorld 25 25 0).g).cpu_thermal 0 = 25 := by
      decide
    simp only [CPUSensors.getSensorValue, mp_rendezvous_no_intrs]
    have hs : (sampleWorld 25 25 0).g.cpu_thermal_updated 0 = false := rfl
    simp only [hs, Bool.false_eq_true, if_false]
    rw [hc]
    norm_num [sampleWorld]
  refine ⟨by decide, h, ?_⟩
  rw [h]; norm_num

/-- C6 (as amended): for every core `i` and every prior cache content, when every
thermal-status register read for core `i` has its reading-valid bit (bit 31) clear, decoding
the core-temperature sensor `i` returns `tjmax[i]` minus the reading the cache already held,
leaves that cached reading as it was, and leaves the cache for core `i` marked stale. -/
theorem C6_core_temperature_invalid_reading (k : Constants) (info : CpuidInfo) (time : ℚ)
    (w : World) (i : Nat)
    (hread : ∀ cpu ∈ w.m.cpus, get_cpu_number info cpu = i →
      (rdmsr64 w.m cpu .MSR_IA32_THERM_STS).testBit 31 = false) :
    (CPUSensors.getSensorValue k info time
        { group := .kFakeSMCTemperatureSensor, index := i } w).1
      = (((w.self.tjmax i : ℤ) - (w.g.cpu_thermal i : ℤ) : ℤ) : ℚ) ∧
    (CPUSensors.getSensorValue k info time
        { group := .kFakeSMCTemperatureSensor, index := i } w).2.g.cpu_thermal i
      = w.g.cpu_thermal i ∧
    (CPUSensors.getSensorValue k info time
        { group := .kFakeSMCTemperatureSensor, index := i } w).2.g.cpu_thermal_updated i
      = false := by
  have hinv := rendezvous_thermal_invalid k info w.m i w.m.cpus hread w.g
  simp only [CPUSensors.getSensorValue, mp_rendezvous_no_intrs]
  cases hu : w.g.cpu_thermal_updated i with
  | true => simp [setAt]
  | false =>
    simp only [Bool.false_eq_true, if_false, hinv.1]
    simp [setAt]

/-- C6 (as amended) at a concrete read: critical temperature 100, cached reading 25, register
value with the valid bit clear: the decode returns 100 - 25. -/
theorem C6_witness :
    (CPUSensors.getSensorValue sampleConstants (sampleInfo 6 0x0F 6 2) 11
        { group := .kFakeSMCTemperatureSensor, index := 0 } (sampleWorld 25 25 0)).1
      = (((100 : ℤ) - (25 : ℤ) : ℤ) : ℚ) :=
  (C6_core_temperature_invalid_reading sampleConstants (sampleInfo 6 0x0F 6 2) 11
    (sampleWorld 25 25 0) 0 (by decide)).1

/-! ## Lemmas on rounding -/

theorem roundHalfEven_intCast (n : ℤ) : roundHalfEven (n : ℚ) = n := by
  unfold roundHalfEven
  rw [Int.floor_intCast]
  simp

/-- Rounding a value of magnitude at least 1 to an integer does not give zero. -/
theorem roundHalfEven_ne_zero (y : ℚ) (h : 1 ≤ |y|) : roundHalfEven y ≠ 0 := by
  have hfl : ((⌊y⌋ : ℤ) : ℚ) ≤ y := Int.floor_le y
  have hlt : y < ((⌊y⌋ : ℤ) : ℚ) + 1 := Int.lt_floor_add_one y
  unfold roundHalfEven
  rcases le_abs.mp h with hpos | hneg
  · have h1 : (1 : ℤ) ≤ ⌊y⌋ := Int.le_floor.mpr (by exact_mod_cast hpos)
    split_ifs <;> omega
  · have h1 : ⌊y⌋ ≤ (-1 : ℤ) := by
      have : ((⌊y⌋ : ℤ) : ℚ) ≤ ((-1 : ℤ) : ℚ) := by push_cast; linarith
      exact_mod_cast this
    split_ifs with ha hb hc
    · omega
    · intro h0
      have h2 : ⌊y⌋ = -1 := by omega
      rw [h2] at ha hb
      push_cast at ha hb
      linarith
    · omega
    · intro h0
      have h2 : ⌊y⌋ = -1 := by omega
      rw [h2] at ha
      push_cast at ha
      linarith

/-- The binary exponent of a non-zero value. -/
theorem log_bounds (x : ℚ) (hx : x ≠ 0) :
    (2 : ℚ) ^ (Int.log 2 |x|) ≤ |x| ∧ |x| < (2 : ℚ) ^ (Int.log 2 |x| + 1) := by
  have hpos : 0 < |x| := abs_pos.mpr hx
  have h1 := Int.zpow_log_le_self (b := 2) (by norm_num) hpos
  have h2 := Int.lt_zpow_succ_log_self (b := 2) (by norm_num) |x|
  simp only [Nat.cast_ofNat] at h1 h2
  exact ⟨h1, h2⟩

theorem log_eq_of_bounds (x : ℚ) (e : ℤ) (hlo : (2 : ℚ) ^ e ≤ |x|)
    (hhi : |x| < (2 : ℚ) ^ (e + 1)) : Int.log 2 |x| = e := by
  have hpos : 0 < |x| := lt_of_lt_of_le (by positivity) hlo
  apply le_antisymm
  · have := (Int.lt_zpow_iff_log_lt (b := 2) (by norm_num) hpos (x := e + 1)).mp
      (by simpa using hhi)
    omega
  · exact (Int.zpow_le_iff_le_log (b := 2) (by norm_num) hpos).mp (by simpa using hlo)

theorem roundBinary_of_bounds (p : Nat) (x : ℚ) (e : ℤ) (hlo : (2 : ℚ) ^ e ≤ |x|)
    (hhi : |x| < (2 : ℚ) ^ (e + 1)) :
    roundBinary p x = (roundHalfEven (x / (2 : ℚ) ^ (e - ((p : ℤ) - 1))) : ℚ)
      * (2 : ℚ) ^ (e - ((p : ℤ) - 1)) := by
  have hx : x ≠ 0 := by
    intro h0
    rw [h0, abs_zero] at hlo
    exact absurd hlo (not_le.mpr (by positivity))
  unfold roundBinary
  rw [if_neg hx, log_eq_of_bounds x e hlo hhi]

/-- Rounding gives zero only for zero. -/
theorem roundBinary_eq_zero_iff (p : Nat) (hp : 1 ≤ p) (x : ℚ) :
    roundBinary p x = 0 ↔ x = 0 := by
  constructor
  · intro h
    by_contra hx
    obtain ⟨hlo, -⟩ := log_bounds x hx
    unfold roundBinary at h
    rw [if_neg hx] at h
    have hu : (0 : ℚ) < (2 : ℚ) ^ (Int.log 2 |x| - ((p : ℤ) - 1)) := by positivity
    rcases mul_eq_zero.mp h with h1 | h1
    · have h2 : roundHalfEven (x / (2 : ℚ) ^ (Int.log 2 |x| - ((p : ℤ) - 1))) = 0 := by
        exact_mod_cast h1
      refine roundHalfEven_ne_zero _ ?_ h2
      rw [abs_div, abs_of_pos hu, le_div_iff₀ hu, one_mul]
      refine le_trans ?_ hlo
      apply zpow_le_zpow_right₀ (by norm_num)
      have : (1 : ℤ) ≤ (p : ℤ) := by exact_mod_cast hp
      omega
    · exact absurd h1 (ne_of_gt hu)
  · intro h
    rw [h]
    unfold roundBinary
    rw [if_pos rfl]

/-- A value `m * 2 ^ j` whose significand `m` fits in `p` bits is not changed by rounding. -/
theorem roundBinary_exact (p : Nat) (m j : ℤ) (hm : |m| < 2 ^ p) :
    roundBinary p ((m : ℚ) * (2 : ℚ) ^ j) = (m : ℚ) * (2 : ℚ) ^ j := by
  by_cases hm0 : m = 0
  · subst hm0
    simp [roundBinary]
  have h2j : (0 : ℚ) < (2 : ℚ) ^ j := by positivity
  have hx : (m : ℚ) * (2 : ℚ) ^ j ≠ 0 := mul_ne_zero (by exact_mod_cast hm0) (ne_of_gt h2j)
  obtain ⟨hlo, -⟩ := log_bounds _ hx
  have habs : |(m : ℚ) * (2 : ℚ) ^ j| < (2 : ℚ) ^ ((p : ℤ) + j) := by
    rw [abs_mul, abs_of_pos h2j, zpow_add₀ (by norm_num)]
    apply mul_lt_mul_of_pos_right _ h2j
    have : ((|m| : ℤ) : ℚ) < ((2 ^ p : ℤ) : ℚ) := by exact_mod_cast hm
    simpa using this
  have he : Int.log 2 |(m : ℚ) * (2 : ℚ) ^ j| < (p : ℤ) + j := by
    have := lt_of_le_of_lt hlo habs
    exact (zpow_lt_zpow_iff_right₀ (by norm_num : (1 : ℚ) < 2)).mp this
  unfold roundBinary
  rw [if_neg hx]
  generalize Int.log 2 |(m : ℚ) * (2 : ℚ) ^ j| = e at he
  obtain ⟨t, ht⟩ : ∃ t : ℕ, (t : ℤ) = j - (e - ((p : ℤ) - 1)) :=
    ⟨(j - (e - ((p : ℤ) - 1))).toNat, Int.toNat_of_nonneg (by omega)⟩
  have hdiv : (m : ℚ) * (2 : ℚ) ^ j / (2 : ℚ) ^ (e - ((p : ℤ) - 1))
      = ((m * 2 ^ t : ℤ) : ℚ) := by
    rw [mul_div_assoc, ← zpow_sub₀ (by norm_num), ← ht]
    push_cast
    rw [zpow_natCast]
  rw [hdiv, roundHalfEven_intCast]
  push_cast
  rw [mul_assoc, ← zpow_natCast, ← zpow_add₀ (by norm_num), ht]
  congr 2
  omega

/-- A tie goes to the even neighbour. -/
theorem roundHalfEven_tie (n : ℤ) (hn : n % 2 = 0) :
    roundHalfEven ((n : ℚ) + 1 / 2) = n := by
  have hf : ⌊(n : ℚ) + 1 / 2⌋ = n := by
    rw [Int.floor_eq_iff]
    constructor <;> linarith
  unfold roundHalfEven
  rw [hf]
  have h1 : ¬ ((n : ℚ) + 1 / 2 - (n : ℚ) < 1 / 2) := by
    rw [not_lt]; linarith
  have h2 : ¬ ((1 / 2 : ℚ) < (n : ℚ) + 1 / 2 - (n : ℚ)) := by
    rw [not_lt]; linarith
  rw [if_neg h1, if_neg h2, if_pos hn]

theorem toFloat_16777217 : toFloat 16777217 = 16777216 := by
  unfold toFloat
  rw [roundBinary_of_bounds 24 16777217 24 (by norm_num [abs_of_pos])
    (by norm_num [abs_of_pos])]
  have h : (16777217 : ℚ) / (2 : ℚ) ^ ((24 : ℤ) - (((24 : ℕ) : ℤ) - 1))
      = ((8388608 : ℤ) : ℚ) + 1 / 2 := by
    norm_num
  rw [h, roundHalfEven_tie 8388608 (by decide)]
  norm_num

theorem toFloat_natCast (n : ℕ) (hn : n < 2 ^ 24) : toFloat (n : ℚ) = n := by
  have := roundBinary_exact 24 (n : ℤ) 0 (by
    rw [abs_of_nonneg (by positivity)]
    exact_mod_cast hn)
  simpa [toFloat] using this

/-- The elapsed time of the power decode is zero as a `float` exactly when the two clock
readings are equal. -/
theorem deltaTime_eq_zero_iff (x : ℚ) : toFloat (toDouble x) = 0 ↔ x = 0 := by
  unfold toFloat toDouble
  rw [roundBinary_eq_zero_iff 24 (by norm_num), roundBinary_eq_zero_iff 53 (by norm_num)]

theorem toDouble_exact (m j : ℤ) (hm : |m| < 2 ^ 53) :
    toDouble ((m : ℚ) * (2 : ℚ) ^ j) = (m : ℚ) * (2 : ℚ) ^ j :=
  roundBinary_exact 53 m j hm

theorem toFloat_exact (m j : ℤ) (hm : |m| < 2 ^ 24) :
    toFloat ((m : ℚ) * (2 : ℚ) ^ j) = (m : ℚ) * (2 : ℚ) ^ j :=
  roundBinary_exact 24 m j hm

/-- The 64-bit unsigned subtraction of the power decode is the integer difference reduced
modulo `2 ^ 64`. -/
theorem wrapping_sub_eq_emod (energy last : Nat) :
    (((energy + 2 ^ 64 - last % 2 ^ 64) % 2 ^ 64 : ℕ) : ℤ)
      = ((energy : ℤ) - (last : ℤ)) % 2 ^ 64 := by
  omega

/-- C7 (counterexample): unit 1, counters 0 then 16777217 sampled 1 s apart.  The claimed
value `1 * 16777217 / 1` is 16777217; `getSensorValue` returns 16777216, because the delta
is converted to `float`, which has no 16777217. -/
theorem C7_counterexample :
    rdmsr64 (sampleWorld 16777217 0 0).m (sampleWorld 16777217 0 0).m.current
      (.cpu_energy_msrs 0) = 16777217 ∧
    (sampleWorld 16777217 0 0).self.lastEnergyValue 0 = 0 ∧
    (sampleWorld 16777217 0 0).self.energyUnitValue = 1 ∧
    (11 : ℚ) - (sampleWorld 16777217 0 0).self.lastEnergyTime 0 = 1 ∧
    (CPUSensors.getSensorValue sampleConstants (sampleInfo 6 0x2A 7 2) 11
        { group := .kCPUSensorsPowerSensor, index := 0 } (sampleWorld 16777217 0 0)).1
      = 16777216 ∧
    (1 : ℚ) * ((((16777217 : ℤ) - 0) % 2 ^ 64 : ℤ) : ℚ) / 1 = 16777217 := by
  have h1 : toFloat (toDouble ((11 : ℚ) - 10)) = 1 := by
    have hd := toDouble_exact 1 0 (by norm_num)
    have hf := toFloat_exact 1 0 (by norm_num)
    norm_num at hd hf ⊢
    rw [hd, hf]
  have h2 : toFloat (16777216 : ℚ) = 16777216 := by
    have hf := toFloat_exact 1 24 (by norm_num)
    norm_num at hf
    exact hf
  refine ⟨by decide, rfl, rfl, by show (11 : ℚ) - 10 = 1; norm_num, ?_, by norm_num⟩
  have henergy : ¬ rdmsr64 (sampleWorld 16777217 0 0).m (sampleWorld 16777217 0 0).m.current
      (.cpu_energy_msrs 0) = 0 := by decide
  have hdt : ¬ toFloat (toDouble ((11 : ℚ) - (sampleWorld 16777217 0 0).self.lastEnergyTime 0))
      = 0 := by
    show ¬ toFloat (toDouble ((11 : ℚ) - 10)) = 0
    rw [h1]; norm_num
  simp only [CPUSensors.getSensorValue, if_neg henergy, if_neg hdt]
  show toFloat (toFloat ((1 : ℚ) * toFloat (((16777217 % 2 ^ 64 + 2 ^ 64 - 0 % 2 ^ 64)
    % 2 ^ 64 : ℕ) : ℚ)) / toFloat (toDouble ((11 : ℚ) - 10))) = 16777216
  rw [h1]
  norm_num
  rw [toFloat_16777217, h2, h2]

/-- C7 (amended claim): for a power rail whose energy counter reads non-zero and whose
previous sample was taken at another time, `getSensorValue` returns the `float` evaluation
of `energyUnit * delta / elapsed`: the delta `(currentCounter - lastCounter) mod 2^64`,
non-negative also when the counter has wrapped, is converted to `float`, the elapsed time is
the `double` difference converted to `float`, and the product and the quotient are each
rounded to `float`.  When none of these roundings changes its argument, the value is
`energyUnit * delta / elapsed` itself. -/
theorem C7_power_decode_wrapping_delta (k : Constants) (info : CpuidInfo) (time : ℚ)
    (w : World) (n : Nat)
    (henergy : rdmsr64 w.m w.m.current (.cpu_energy_msrs n) ≠ 0)
    (helapsed : time - w.self.lastEnergyTime n ≠ 0) :
    (CPUSensors.getSensorValue k info time { group := .kCPUSensorsPowerSensor, index := n } w).1
      = toFloat (toFloat (w.self.energyUnitValue
          * toFloat (((((rdmsr64 w.m w.m.current (.cpu_energy_msrs n) : ℕ) : ℤ)
              - (w.self.lastEnergyValue n : ℤ)) % 2 ^ 64 : ℤ) : ℚ))
          / toFloat (toDouble (time - w.self.lastEnergyTime n))) ∧
    0 ≤ (((rdmsr64 w.m w.m.current (.cpu_energy_msrs n) : ℕ) : ℤ)
          - (w.self.lastEnergyValue n : ℤ)) % 2 ^ 64 ∧
    (toFloat (((((rdmsr64 w.m w.m.current (.cpu_energy_msrs n) : ℕ) : ℤ)
          - (w.self.lastEnergyValue n : ℤ)) % 2 ^ 64 : ℤ) : ℚ)
        = (((((rdmsr64 w.m w.m.current (.cpu_energy_msrs n) : ℕ) : ℤ)
          - (w.self.lastEnergyValue n : ℤ)) % 2 ^ 64 : ℤ) : ℚ) →
      toFloat (toDouble (time - w.self.lastEnergyTime n)) = time - w.self.lastEnergyTime n →
      toFloat (w.self.energyUnitValue
          * (((((rdmsr64 w.m w.m.current (.cpu_energy_msrs n) : ℕ) : ℤ)
              - (w.self.lastEnergyValue n : ℤ)) % 2 ^ 64 : ℤ) : ℚ))
        = w.self.energyUnitValue
          * (((((rdmsr64 w.m w.m.current (.cpu_energy_msrs n) : ℕ) : ℤ)
              - (w.self.lastEnergyValue n : ℤ)) % 2 ^ 64 : ℤ) : ℚ) →
      toFloat (w.self.energyUnitValue
          * (((((rdmsr64 w.m w.m.current (.cpu_energy_msrs n) : ℕ) : ℤ)
              - (w.self.lastEnergyValue n : ℤ)) % 2 ^ 64 : ℤ) : ℚ)
          / (time - w.self.lastEnergyTime n))
        = w.self.energyUnitValue
          * (((((rdmsr64 w.m w.m.current (.cpu_energy_msrs n) : ℕ) : ℤ)
              - (w.self.lastEnergyValue n : ℤ)) % 2 ^ 64 : ℤ) : ℚ)
          / (time - w.self.lastEnergyTime n) →
      (CPUSensors.getSensorValue k info time
          { group := .kCPUSensorsPowerSensor, index := n } w).1
        = w.self.energyUnitValue
          * (((((rdmsr64 w.m w.m.current (.cpu_energy_msrs n) : ℕ) : ℤ)
              - (w.self.lastEnergyValue n : ℤ)) % 2 ^ 64 : ℤ) : ℚ)
          / (time - w.self.lastEnergyTime n)) := by
  have hdt : ¬ toFloat (toDouble (time - w.self.lastEnergyTime n)) = 0 :=
    fun h => helapsed ((deltaTime_eq_zero_iff _).mp h)
  have hval : (CPUSensors.getSensorValue k info time
      { group := .kCPUSensorsPowerSensor, index := n } w).1
      = toFloat (toFloat (w.self.energyUnitValue
          * toFloat (((((rdmsr64 w.m w.m.current (.cpu_energy_msrs n) : ℕ) : ℤ)
              - (w.self.lastEnergyValue n : ℤ)) % 2 ^ 64 : ℤ) : ℚ))
          / toFloat (toDouble (time - w.self.lastEnergyTime n))) := by
    simp only [CPUSensors.getSensorValue, if_neg henergy, if_neg hdt]
    rw [← wrapping_sub_eq_emod]
    norm_cast
  refine ⟨hval, Int.emod_nonneg _ (by norm_num), ?_⟩
  intro h1 h2 h3 h4
  rw [hval, h1, h2, h3, h4]

/-- C7 at concrete samples: with unit 1, counters 1000 then 1500 sampled 0.5 s apart give
1000; counters 0xFFFFFFFFFFFFFFF0 then 0x10 give the delta 0x20 (here 64 per second). -/
theorem C7_witness :
    (CPUSensors.getSensorValue sampleConstants (sampleInfo 6 0x2A 7 2) (21 / 2)
        { group := .kCPUSensorsPowerSensor, index := 0 } (sampleWorld 1500 0 1000)).1 = 1000 ∧
    ((0x10 : ℤ) - (0xFFFFFFFFFFFFFFF0 : ℤ)) % 2 ^ 64 = 0x20 ∧
    (CPUSensors.getSensorValue sampleConstants (sampleInfo 6 0x2A 7 2) (21 / 2)
        { group := .kCPUSensorsPowerSensor, index := 0 }
        (sampleWorld 0x10 0 0xFFFFFFFFFFFFFFF0)).1 = 64 := by
  have hhalf : toFloat (toDouble ((21 / 2 : ℚ) - 10)) = 1 / 2 := by
    have hd := toDouble_exact 1 (-1) (by norm_num)
    have hf := toFloat_exact 1 (-1) (by norm_num)
    norm_num at hd hf ⊢
    rw [hd, hf]
  have h500 : toFloat (500 : ℚ) = 500 := by
    have hf := toFloat_exact 500 0 (by norm_num)
    norm_num at hf
    exact hf
  have h1000 : toFloat (1000 : ℚ) = 1000 := by
    have hf := toFloat_exact 1000 0 (by norm_num)
    norm_num at hf
    exact hf
  have h32 : toFloat (32 : ℚ) = 32 := by
    have hf := toFloat_exact 32 0 (by norm_num)
    norm_num at hf
    exact hf
  have h64 : toFloat (64 : ℚ) = 64 := by
    have hf := toFloat_exact 64 0 (by norm_num)
    norm_num at hf
    exact hf
  refine ⟨?_, by norm_num, ?_⟩
  · rw [(C7_power_decode_wrapping_delta sampleConstants (sampleInfo 6 0x2A 7 2) (21 / 2)
      (sampleWorld 1500 0 1000) 0 (by decide)
      (by show (21 / 2 : ℚ) - 10 ≠ 0; norm_num)).1]
    show toFloat (toFloat ((1 : ℚ)
      * toFloat ((((1500 % 2 ^ 64 : ℕ) : ℤ) - ((1000 : ℕ) : ℤ)) % 2 ^ 64 : ℤ))
      / toFloat (toDouble ((21 / 2 : ℚ) - 10))) = 1000
    rw [hhalf]
    norm_num
    simp only [h500]
    norm_num
    exact h1000
  · rw [(C7_power_decode_wrapping_delta sampleConstants (sampleInfo 6 0x2A 7 2) (21 / 2)
      (sampleWorld 0x10 0 0xFFFFFFFFFFFFFFF0) 0 (by decide)
      (by show (21 / 2 : ℚ) - 10 ≠ 0; norm_num)).1]
    show toFloat (toFloat ((1 : ℚ)
      * toFloat ((((0x10 % 2 ^ 64 : ℕ) : ℤ) - ((0xFFFFFFFFFFFFFFF0 : ℕ) : ℤ)) % 2 ^ 64 : ℤ))
      / toFloat (toDouble ((21 / 2 : ℚ) - 10))) = 64
    rw [hhalf]
    norm_num
    simp only [h32]
    norm_num
    exact h64

/-! ## Lemmas on `CPUSensors::start` -/

theorem foldl_setAt_zero (l : List Nat) (hl : ∀ i ∈ l, i ≠ 0) (t : Nat → Nat) (j : Nat) :
    (l.foldl (fun t i => setAt t i (t 0)) t) j = if j ∈ l then t 0 else t j := by
  induction l generalizing t with
  | nil => simp
  | cons a rest ih =>
    have ha : a ≠ 0 := hl a (List.mem_cons_self _ _)
    have hrest : ∀ i ∈ rest, i ≠ 0 := fun i hi => hl i (List.mem_cons_of_mem _ hi)
    rw [List.foldl_cons, ih hrest]
    have h0 : setAt t a (t 0) 0 = t 0 := by simp [setAt, Ne.symm ha]
    rw [h0]
    by_cases hj : j ∈ rest
    · simp [hj]
    · by_cases hja : j = a
      · subst hja; simp [setAt]
      · simp [hj, hja, setAt]

/-- The fill loop copies `tjmax[0]` into the entries `1 .. core_count - 1` and leaves every
other entry as it was. -/
theorem fillTjmax_apply (n : Nat) (t : Nat → Nat) (j : Nat) :
    fillTjmax n t j = if 1 ≤ j ∧ j < n then t 0 else t j := by
  unfold fillTjmax
  rw [foldl_setAt_zero _ (fun i hi => by
    have := (List.mem_range'_1.mp hi).1
    omega)]
  by_cases h : 1 ≤ j ∧ j < n
  · have : j ∈ List.range' 1 (n - 1) := List.mem_range'_1.mpr ⟨h.1, by omega⟩
    simp [this, h]
  · have : j ∉ List.range' 1 (n - 1) := fun hm => h (by
      have := List.mem_range'_1.mp hm
      omega)
    simp [this, h]

theorem addSensor_tjmax (group : SensorGroup) (index : Nat) (self : CPUSensors) :
    (CPUSensors.addSensor group index self).tjmax = self.tjmax := rfl

theorem foldl_tjmax {α : Type} (f : CPUSensors → α → CPUSensors)
    (hf : ∀ s a, (f s a).tjmax = s.tjmax) (l : List α) (self : CPUSensors) :
    (l.foldl f self).tjmax = self.tjmax := by
  induction l generalizing self with
  | nil => rfl
  | cons a rest ih => rw [List.foldl_cons, ih, hf]

theorem addCoreThermalSensors_tjmax (k : Constants) (info : CpuidInfo) (self : CPUSensors) :
    (CPUSensors.addCoreThermalSensors k info self).tjmax = self.tjmax := by
  unfold CPUSensors.addCoreThermalSensors
  apply foldl_tjmax
  intro s a
  rfl

theorem addPackageThermalSensor_tjmax (env : CpuStartEnv) (info : CpuidInfo)
    (self : CPUSensors) :
    (CPUSensors.addPackageThermalSensor env info self).tjmax = self.tjmax := by
  unfold CPUSensors.addPackageThermalSensor
  cases info.cpuid_cpufamily <;> simp only [] <;> (try split) <;> rfl

theorem addMultiplierSensors_tjmax (info : CpuidInfo) (m : Machine) (self : CPUSensors) :
    (CPUSensors.addMultiplierSensors info m self).tjmax = self.tjmax := by
  unfold CPUSensors.addMultiplierSensors
  cases info.cpuid_cpufamily <;> simp only [] <;> (try split) <;> (try rfl)
  apply foldl_tjmax
  intro s a
  rfl

theorem addEnergySensors_tjmax (k : Constants) (info : CpuidInfo) (m : Machine)
    (self : CPUSensors) :
    (CPUSensors.addEnergySensors k info m self).tjmax = self.tjmax := by
  unfold CPUSensors.addEnergySensors
  cases info.cpuid_cpufamily <;> simp only [] <;> (try split) <;> (try split) <;>
    (try split) <;> rfl

theorem setupBusClock_tjmax (env : CpuStartEnv) (self : CPUSensors) :
    (CPUSensors.setupBusClock env self).tjmax = self.tjmax := by
  unfold CPUSensors.setupBusClock
  simp only []
  split <;> rfl

theorem setupPlatformKeys_tjmax (self : CPUSensors) :
    (CPUSensors.setupPlatformKeys self).tjmax = self.tjmax := by
  unfold CPUSensors.setupPlatformKeys
  split <;> rfl

/-- When the head checks pass, `start` fails exactly when the `Tjmax` calculation returns. -/
theorem start_of_checks (k : Constants) (env : CpuStartEnv) (info : CpuidInfo) (m : Machine)
    (self : CPUSensors) (hchk : startChecksPass k env info) :
    (CPUSensors.calculateTjmax k info m (CPUSensors.readConfiguration env info self) = none →
      (CPUSensors.start k env info m self).1 = false) ∧
    (∀ s2, CPUSensors.calculateTjmax k info m (CPUSensors.readConfiguration env info self)
        = some s2 →
      (CPUSensors.start k env info m self).1 = true ∧
      (CPUSensors.start k env info m self).2.tjmax = (CPUSensors.setupTjmax info s2).tjmax) := by
  obtain ⟨h1, h2, h3, h4⟩ := hchk
  constructor
  · intro hnone
    simp [CPUSensors.start, h1, h2, h3, h4, hnone]
  · intro s2 hsome
    simp only [CPUSensors.start, h1, h2, h3, h4, hsome, not_true_eq_false, if_false, ne_eq,
      not_false_eq_true, true_and]
    rw [addEnergySensors_tjmax, addMultiplierSensors_tjmax, addPackageThermalSensor_tjmax,
      addCoreThermalSensors_tjmax, setupPlatformKeys_tjmax, setupBusClock_tjmax]

theorem defaultPlatform_tjmax (text : String) (self : CPUSensors) :
    (CPUSensors.defaultPlatform text self).tjmax = self.tjmax := by
  unfold CPUSensors.defaultPlatform
  split <;> rfl

theorem setTjmax0_tjmax_zero (v : Nat) (self : CPUSensors) :
    (CPUSensors.setTjmax0 v self).tjmax 0 = v % 256 := by
  simp [CPUSensors.setTjmax0, setAt]

/-- A non-zero override ends up in every entry of `tjmax` below the core count. -/
theorem readConfiguration_forced (env : CpuStartEnv) (info : CpuidInfo) (self : CPUSensors)
    (c : CpuConfiguration) (v : Nat) (hc : env.configuration = some c) (hv : c.Tjmax = some v)
    (hnz : v % 256 ≠ 0) (i : Nat) (hi : i < info.core_count) :
    (CPUSensors.readConfiguration env info self).tjmax i = v % 256 := by
  have h32 : unsigned32BitValue v % 256 = v % 256 := by
    unfold unsigned32BitValue; omega
  have key : (CPUSensors.readConfiguration env info self).tjmax
      = fillTjmax info.core_count (setAt self.tjmax 0 (v % 256)) := by
    unfold CPUSensors.readConfiguration
    rw [hc]
    simp only [hv, CPUSensors.setTjmax0, h32]
    have hpos : setAt self.tjmax 0 (v % 256) 0 > 0 := by
      simp only [setAt, if_true]; omega
    rw [if_pos hpos]
    cases c.PlatformString with
    | none => rfl
    | some str => simp only []; split <;> rfl
  rw [key, fillTjmax_apply]
  by_cases h0 : i = 0
  · subst h0; simp [setAt]
  · have : 1 ≤ i ∧ i < info.core_count := ⟨by omega, hi⟩
    simp [this, setAt]

/-- Without an override in effect, reading the configuration leaves a zero `tjmax[0]` zero
and every entry of `tjmax` as it was. -/
theorem readConfiguration_unforced (env : CpuStartEnv) (info : CpuidInfo) (self : CPUSensors)
    (hu : env.userTjmax = 0) (h0 : self.tjmax 0 = 0) (i : Nat) :
    (CPUSensors.readConfiguration env info self).tjmax i = self.tjmax i := by
  unfold CPUSensors.readConfiguration
  unfold CpuStartEnv.userTjmax at hu
  cases hc : env.configuration with
  | none => rfl
  | some c =>
    rw [hc] at hu
    have key : (match c.Tjmax with
        | some number =>
          if (CPUSensors.setTjmax0 (unsigned32BitValue number) self).tjmax 0 > 0 then
            { CPUSensors.setTjmax0 (unsigned32BitValue number) self with
              tjmax := fillTjmax info.core_count
                (CPUSensors.setTjmax0 (unsigned32BitValue number) self).tjmax }
          else CPUSensors.setTjmax0 (unsigned32BitValue number) self
        | none => self).tjmax i = self.tjmax i := by
      cases hv : c.Tjmax with
      | none => rfl
      | some number =>
        simp only [hv] at hu
        simp only [setTjmax0_tjmax_zero, hu, gt_iff_lt, lt_self_iff_false, if_false]
        by_cases hi : i = 0
        · subst hi; rw [setTjmax0_tjmax_zero, hu, h0]
        · simp [CPUSensors.setTjmax0, setAt, hi]
    simp only []
    cases c.PlatformString with
    | none => exact key
    | some str => simp only []; split <;> exact key

/-- With `tjmax[0]` non-zero the `Tjmax` calculation is skipped. -/
theorem calculateTjmax_skipped (k : Constants) (info : CpuidInfo) (m : Machine)
    (self : CPUSensors) (h : self.tjmax 0 ≠ 0) :
    CPUSensors.calculateTjmax k info m self = some self := by
  simp [CPUSensors.calculateTjmax, h]

theorem setupTjmax_apply (info : CpuidInfo) (self : CPUSensors) (v : Nat) (i : Nat)
    (hi : i < info.core_count) (hall : ∀ j, j < info.core_count → self.tjmax j = v) :
    (CPUSensors.setupTjmax info self).tjmax i = v := by
  unfold CPUSensors.setupTjmax
  cases info.cpuid_cpufamily <;> simp only []
  all_goals first
    | exact hall i hi
    | (rw [fillTjmax_apply]
       split
       · exact hall 0 (by omega)
       · exact hall i hi)

/-- C8 (counterexample): the override 4294967296 is not zero and the processor passes the
vendor, MSR-feature and core-count checks, yet `unsigned32BitValue` reads it as 0, the
calculation runs, and for family 0x07 `start` fails. -/
theorem C8_counterexample :
    (4294967296 : Nat) ≠ 0 ∧
    startChecksPass sampleConstants (sampleStartEnv (some 4294967296)) (sampleInfo 0x07 0 0 2) ∧
    (CPUSensors.start sampleConstants (sampleStartEnv (some 4294967296))
        (sampleInfo 0x07 0 0 2) (sampleMachine 0) CPUSensors.fresh).1 = false := by
  refine ⟨by decide, ?_, ?_⟩
  · unfold startChecksPass; decide
  · decide

/-- C8 (as amended): for every processor identity that passes the vendor, MSR-feature and
core-count checks (the base class having started), and every override `v` whose low 8 bits
are not all zero, `start` succeeds and afterwards the critical temperature of every core
`i < coreCount` is `v mod 256` (`v` itself below 256), whatever family, model, stepping and
prior object state are. -/
theorem C8_override_wins (k : Constants) (env : CpuStartEnv) (info : CpuidInfo) (m : Machine)
    (self : CPUSensors) (c : CpuConfiguration) (v : Nat)
    (hchk : startChecksPass k env info) (hc : env.configuration = some c)
    (hv : c.Tjmax = some v) (hnz : v % 256 ≠ 0) :
    (CPUSensors.start k env info m self).1 = true ∧
    ∀ i, i < info.core_count → (CPUSensors.start k env info m self).2.tjmax i = v % 256 := by
  have hall := readConfiguration_forced env info self c v hc hv hnz
  have h0 : (CPUSensors.readConfiguration env info self).tjmax 0 ≠ 0 := by
    rw [hall 0 (Nat.pos_of_ne_zero hchk.2.2.2)]; exact hnz
  have hcalc := calculateTjmax_skipped k info m _ h0
  obtain ⟨hok, htj⟩ := (start_of_checks k env info m self hchk).2 _ hcalc
  refine ⟨hok, fun i hi => ?_⟩
  rw [htj]
  exact setupTjmax_apply info _ (v % 256) i hi hall

/-- C8 (as amended) at a concrete start: override 95 on a two-core processor of the unknown
family 0x07. -/
theorem C8_witness :
    (CPUSensors.start sampleConstants (sampleStartEnv (some 95)) (sampleInfo 0x07 0 0 2)
        (sampleMachine 0) CPUSensors.fresh).1 = true ∧
    (CPUSensors.start sampleConstants (sampleStartEnv (some 95)) (sampleInfo 0x07 0 0 2)
        (sampleMachine 0) CPUSensors.fresh).2.tjmax 1 = 95 :=
  ⟨(C8_override_wins sampleConstants (sampleStartEnv (some 95)) (sampleInfo 0x07 0 0 2)
      (sampleMachine 0) CPUSensors.fresh { Tjmax := some 95, PlatformString := none } 95
      (by unfold startChecksPass; decide) rfl rfl (by decide)).1,
    (C8_override_wins sampleConstants (sampleStartEnv (some 95)) (sampleInfo 0x07 0 0 2)
      (sampleMachine 0) CPUSensors.fresh { Tjmax := some 95, PlatformString := none } 95
      (by unfold startChecksPass; decide) rfl rfl (by decide)).2 1 (by decide)⟩

theorem setupTjmax_const (info : CpuidInfo) (self : CPUSensors) (v : Nat)
    (hall : ∀ j, self.tjmax j = v) (i : Nat) : (CPUSensors.setupTjmax info self).tjmax i = v := by
  unfold CPUSensors.setupTjmax
  cases info.cpuid_cpufamily <;> simp only []
  all_goals first
    | exact hall i
    | (rw [fillTjmax_apply]
       split
       · exact hall 0
       · exact hall i)

/-- After the configuration is read into a fresh object, `tjmax[0]` is the override in
effect. -/
theorem readConfiguration_fresh_zero (env : CpuStartEnv) (info : CpuidInfo) :
    (CPUSensors.readConfiguration env info CPUSensors.fresh).tjmax 0 = env.userTjmax := by
  by_cases hu : env.userTjmax = 0
  · rw [readConfiguration_unforced env info _ hu rfl, hu]; rfl
  · unfold CpuStartEnv.userTjmax at hu ⊢
    cases hc : env.configuration with
    | none => simp only [hc] at hu; exact absurd trivial hu
    | some c =>
      simp only [hc] at hu ⊢
      cases hv : c.Tjmax with
      | none => simp only [hv] at hu; exact absurd trivial hu
      | some v =>
        simp only [hv] at hu ⊢
        by_cases hcc : 0 < info.core_count
        · have h32 : unsigned32BitValue v % 256 = v % 256 := by
            unfold unsigned32BitValue; omega
          rw [h32] at hu ⊢
          exact readConfiguration_forced env info _ c v hc hv hu 0 hcc
        · unfold CPUSensors.readConfiguration
          rw [hc]
          have hfill : ∀ t : Nat → Nat, fillTjmax info.core_count t 0 = t 0 := by
            intro t; rw [fillTjmax_apply]; simp
          simp only [hv, setTjmax0_tjmax_zero]
          have hpos : unsigned32BitValue v % 256 > 0 := Nat.pos_of_ne_zero hu
          rw [if_pos hpos]
          cases c.PlatformString with
          | none => simp only [hfill, setTjmax0_tjmax_zero]
          | some str =>
            simp only []
            split <;> simp only [hfill, setTjmax0_tjmax_zero]

/-- A family-0x06 model that is none of the case labels falls through the switch. -/
theorem calculateTjmax06_unlisted (k : Constants) (info : CpuidInfo) (m : Machine)
    (self : CPUSensors) (h : info.cpuid_model ∉ k.caseLabels) :
    CPUSensors.calculateTjmax06 k info m self = self := by
  simp only [CpuidModels.caseLabels, List.mem_cons, List.mem_singleton, not_or,
    List.mem_nil_iff, or_false] at h
  obtain ⟨h1, h2, h3, h4, h5, h6, h7, h8, h9, h10, h11, h12, h13, h14, h15, h16, h17, h18,
    h19⟩ := h
  simp [CPUSensors.calculateTjmax06, h1, h2, h3, h4, h5, h6, h7, h8, h9, h10, h11, h12, h13,
    h14, h15, h16, h17, h18, h19]

/-- For family 0x06 and family 0x0F the `Tjmax` calculation does not return from `start`. -/
theorem calculateTjmax_known_family (k : Constants) (info : CpuidInfo) (m : Machine)
    (self : CPUSensors) (h : info.cpuid_family = 0x06 ∨ info.cpuid_family = 0x0F) :
    ∃ s2, CPUSensors.calculateTjmax k info m self = some s2 := by
  unfold CPUSensors.calculateTjmax
  split
  · split
    · exact ⟨_, rfl⟩
    · split
      · split <;> exact ⟨_, rfl⟩
      · rcases h with h | h <;> contradiction
  · exact ⟨_, rfl⟩

/-- C9 (counterexample): an Intel processor with the MSR feature and two cores, of family
0x07, with no override: all three checks pass and `start` fails all the same. -/
theorem C9_counterexample :
    startChecksPass sampleConstants (sampleStartEnv none) (sampleInfo 0x07 0 0 2) ∧
    (CPUSensors.start sampleConstants (sampleStartEnv none) (sampleInfo 0x07 0 0 2)
        (sampleMachine 0) CPUSensors.fresh).1 = false := by
  refine ⟨?_, ?_⟩
  · unfold startChecksPass; decide
  · decide

/-- C9 (as amended): `start` on a fresh object fails if and only if the base class did not
start, the vendor is not Intel, the MSR feature flag is absent, the core count is zero, or
no override is in effect and the family is neither 0x06 nor 0x0F; in particular, for an
unrecognised model of family 0x06 or 0x0F with no override it succeeds and continues with a
critical temperature of 0 in every entry. -/
theorem C9_start_failure_conditions (k : Constants) (env : CpuStartEnv) (info : CpuidInfo)
    (m : Machine) :
    ((CPUSensors.start k env info m CPUSensors.fresh).1 = false ↔
      env.superStart = false ∨ info.cpuid_vendor ≠ k.CPUID_VID_INTEL
        ∨ info.cpuid_features &&& k.CPUID_FEATURE_MSR = 0 ∨ info.core_count = 0
        ∨ (env.userTjmax = 0 ∧ info.cpuid_family ≠ 0x06 ∧ info.cpuid_family ≠ 0x0F)) ∧
    (startChecksPass k env info → env.userTjmax = 0 →
      (info.cpuid_family = 0x06 ∧ info.cpuid_model ∉ k.caseLabels)
        ∨ (info.cpuid_family = 0x0F ∧ info.cpuid_model ∉ [0x00, 0x01, 0x02, 0x03, 0x04, 0x06]) →
      (CPUSensors.start k env info m CPUSensors.fresh).1 = true ∧
      ∀ i, (CPUSensors.start k env info m CPUSensors.fresh).2.tjmax i = 0) := by
  have hz := readConfiguration_fresh_zero env info
  constructor
  · by_cases h1 : env.superStart = true
    swap
    · simp [CPUSensors.start, h1]
    by_cases h2 : info.cpuid_vendor = k.CPUID_VID_INTEL
    swap
    · simp [CPUSensors.start, h1, h2]
    by_cases h3 : info.cpuid_features &&& k.CPUID_FEATURE_MSR = 0
    · simp [CPUSensors.start, h1, h2, h3]
    by_cases h4 : info.core_count = 0
    · simp [CPUSensors.start, h1, h2, h3, h4]
    have hchk : startChecksPass k env info := ⟨h1, h2, h3, h4⟩
    obtain ⟨hfail, hok⟩ := start_of_checks k env info m CPUSensors.fresh hchk
    by_cases hu : env.userTjmax = 0
    · by_cases h6 : info.cpuid_family = 0x06
      · obtain ⟨s2, hs2⟩ := calculateTjmax_known_family k info m
          (CPUSensors.readConfiguration env info CPUSensors.fresh) (Or.inl h6)
        simp [(hok s2 hs2).1, h1, h2, h3, h4, h6]
      · by_cases hf : info.cpuid_family = 0x0F
        · obtain ⟨s2, hs2⟩ := calculateTjmax_known_family k info m
            (CPUSensors.readConfiguration env info CPUSensors.fresh) (Or.inr hf)
          simp [(hok s2 hs2).1, h1, h2, h3, h4, hf]
        · have hcalc : CPUSensors.calculateTjmax k info m
              (CPUSensors.readConfiguration env info CPUSensors.fresh) = none := by
            simp [CPUSensors.calculateTjmax, hz, hu, h6, hf]
          simp [hfail hcalc, hu, h6, hf]
    · have hcalc := calculateTjmax_skipped k info m
        (CPUSensors.readConfiguration env info CPUSensors.fresh) (by rw [hz]; exact hu)
      simp [(hok _ hcalc).1, h1, h2, h3, h4, hu]
  · intro hchk hu hmodel
    obtain ⟨_, hok⟩ := start_of_checks k env info m CPUSensors.fresh hchk
    have hall : ∀ j, (CPUSensors.readConfiguration env info CPUSensors.fresh).tjmax j = 0 :=
      fun j => readConfiguration_unforced env info _ hu rfl j
    have hcalc : CPUSensors.calculateTjmax k info m
        (CPUSensors.readConfiguration env info CPUSensors.fresh)
        = some (CPUSensors.readConfiguration env info CPUSensors.fresh) := by
      rcases hmodel with ⟨h6, hm⟩ | ⟨hf, hm⟩
      · simp [CPUSensors.calculateTjmax, h6, calculateTjmax06_unlisted k info m _ hm]
      · simp only [List.mem_cons, List.mem_singleton, not_or, List.mem_nil_iff,
          or_false] at hm
        obtain ⟨m0, m1, m2, m3, m4, m6⟩ := hm
        simp [CPUSensors.calculateTjmax, hf, m0, m1, m2, m3, m4, m6]
    obtain ⟨hret, htj⟩ := hok _ hcalc
    refine ⟨hret, fun i => ?_⟩
    rw [htj]
    exact setupTjmax_const info _ 0 hall i

/-- The first five case labels of the family-0x06 switch are pairwise different. -/
theorem pre_nehalem_labels_distinct (k : Constants) :
    k.CPUID_MODEL_PENTIUM_M ≠ k.CPUID_MODEL_YONAH ∧
    k.CPUID_MODEL_PENTIUM_M ≠ k.CPUID_MODEL_MEROM ∧
    k.CPUID_MODEL_PENTIUM_M ≠ k.CPUID_MODEL_PENRYN ∧
    k.CPUID_MODEL_PENTIUM_M ≠ k.CPUID_MODEL_ATOM ∧
    k.CPUID_MODEL_YONAH ≠ k.CPUID_MODEL_MEROM ∧
    k.CPUID_MODEL_YONAH ≠ k.CPUID_MODEL_PENRYN ∧
    k.CPUID_MODEL_YONAH ≠ k.CPUID_MODEL_ATOM ∧
    k.CPUID_MODEL_MEROM ≠ k.CPUID_MODEL_PENRYN ∧
    k.CPUID_MODEL_MEROM ≠ k.CPUID_MODEL_ATOM ∧
    k.CPUID_MODEL_PENRYN ≠ k.CPUID_MODEL_ATOM := by
  have hd := k.labelsDistinct
  simp only [CpuidModels.caseLabels, List.pairwise_cons, List.mem_cons, List.mem_singleton,
    forall_eq_or_imp, forall_eq, ne_eq, List.not_mem_nil, IsEmpty.forall_iff, implies_true,
    List.Pairwise.nil, and_true] at hd
  obtain ⟨⟨p1, p2, p3, p4, -⟩, ⟨y1, y2, y3, -⟩, ⟨m1, m2, -⟩, ⟨n1, -⟩, -⟩ := hd
  exact ⟨p1, p2, p3, p4, y1, y2, y3, m1, m2, n1⟩

theorem calculateTjmax06_pentium_m (k : Constants) (info : CpuidInfo) (m : Machine)
    (self : CPUSensors) (hm : info.cpuid_model = k.CPUID_MODEL_PENTIUM_M) :
    (CPUSensors.calculateTjmax06 k info m self).tjmax 0 = 100 := by
  unfold CPUSensors.calculateTjmax06
  simp only [hm, if_true]
  rw [defaultPlatform_tjmax, setTjmax0_tjmax_zero]

theorem calculateTjmax06_yonah (k : Constants) (info : CpuidInfo) (m : Machine)
    (self : CPUSensors) (hm : info.cpuid_model = k.CPUID_MODEL_YONAH) :
    (CPUSensors.calculateTjmax06 k info m self).tjmax 0 = 85 := by
  obtain ⟨p1, -⟩ := pre_nehalem_labels_distinct k
  unfold CPUSensors.calculateTjmax06
  simp only [hm, Ne.symm p1, if_false, if_true]
  rw [setTjmax0_tjmax_zero]

theorem calculateTjmax06_merom (k : Constants) (info : CpuidInfo) (m : Machine)
    (self : CPUSensors) (hm : info.cpuid_model = k.CPUID_MODEL_MEROM) :
    (CPUSensors.calculateTjmax06 k info m self).tjmax 0 =
      (if info.cpuid_stepping = 0x02 then 100
       else if info.cpuid_stepping = 0x06 then
         (if info.core_count = 2 then 80 else if info.core_count = 4 then 90 else 85)
       else if info.cpuid_stepping = 0x0B then 90 else 85) := by
  obtain ⟨-, p2, -, -, y1, -⟩ := pre_nehalem_labels_distinct k
  unfold CPUSensors.calculateTjmax06
  simp only [hm, Ne.symm p2, Ne.symm y1, if_false, if_true]
  repeat' split
  all_goals rw [setTjmax0_tjmax_zero]

theorem calculateTjmax06_penryn (k : Constants) (info : CpuidInfo) (m : Machine)
    (self : CPUSensors) (hm : info.cpuid_model = k.CPUID_MODEL_PENRYN) :
    (CPUSensors.calculateTjmax06 k info m self).tjmax 0 =
      (if (rdmsr64 m m.current (.addr 0x17)).testBit 28 = true then 105 else 100) := by
  obtain ⟨-, -, p3, -, -, y2, -, m1, -⟩ := pre_nehalem_labels_distinct k
  have hbit : (rdmsr64 m m.current (.addr 0x17) &&& (1 <<< 28) ≠ 0)
      ↔ (rdmsr64 m m.current (.addr 0x17)).testBit 28 = true := by
    have h : (1 <<< 28 : Nat) = 2 ^ 28 := by decide
    rw [h, Nat.and_two_pow]
    cases (rdmsr64 m m.current (.addr 0x17)).testBit 28 <;> simp
  unfold CPUSensors.calculateTjmax06
  simp only [hm, Ne.symm p3, Ne.symm y2, Ne.symm m1, if_false, if_true]
  by_cases hb : (rdmsr64 m m.current (.addr 0x17)).testBit 28 = true
  · rw [if_pos (hbit.mpr hb), if_pos hb, setTjmax0_tjmax_zero]
  · rw [if_neg (fun h => hb (hbit.mp h)), if_neg hb, setTjmax0_tjmax_zero]

theorem calculateTjmax06_atom (k : Constants) (info : CpuidInfo) (m : Machine)
    (self : CPUSensors) (hm : info.cpuid_model = k.CPUID_MODEL_ATOM) :
    (CPUSensors.calculateTjmax06 k info m self).tjmax 0 =
      (if info.cpuid_stepping = 0x0A then 100 else 90) := by
  obtain ⟨-, -, -, p4, -, -, y3, -, m2, n1⟩ := pre_nehalem_labels_distinct k
  unfold CPUSensors.calculateTjmax06
  simp only [hm, Ne.symm p4, Ne.symm y3, Ne.symm m2, Ne.symm n1, if_false, if_true]
  by_cases h2 : info.cpuid_stepping = 0x02
  · have : ¬ info.cpuid_stepping = 0x0A := by omega
    rw [if_pos h2, if_neg this, setTjmax0_tjmax_zero]
  · rw [if_neg h2]
    split <;> rw [setTjmax0_tjmax_zero]

/-- On a processor the kernel does not class as Nehalem or newer, with no override in
effect, `start` for family 0x06 succeeds and gives every core below the core count the value
the family-0x06 switch put into `tjmax[0]`. -/
theorem start_family06_pre_nehalem (k : Constants) (env : CpuStartEnv) (info : CpuidInfo)
    (m : Machine) (hchk : startChecksPass k env info) (hu : env.userTjmax = 0)
    (h6 : info.cpuid_family = 0x06) (hpre : ∃ id, info.cpuid_cpufamily = .other id) :
    (CPUSensors.start k env info m CPUSensors.fresh).1 = true ∧
    allCoresHave info (CPUSensors.start k env info m CPUSensors.fresh).2
      ((CPUSensors.calculateTjmax06 k info m
        (CPUSensors.readConfiguration env info CPUSensors.fresh)).tjmax 0) := by
  have hz := readConfiguration_fresh_zero env info
  rw [hu] at hz
  have hcalc : CPUSensors.calculateTjmax k info m
      (CPUSensors.readConfiguration env info CPUSensors.fresh)
      = some (CPUSensors.calculateTjmax06 k info m
          (CPUSensors.readConfiguration env info CPUSensors.fresh)) := by
    simp [CPUSensors.calculateTjmax, hz, h6]
  obtain ⟨hret, htj⟩ := (start_of_checks k env info m CPUSensors.fresh hchk).2 _ hcalc
  refine ⟨hret, fun i hi => ?_⟩
  obtain ⟨id, hid⟩ := hpre
  rw [htj]
  unfold CPUSensors.setupTjmax
  rw [hid]
  simp only []
  rw [fillTjmax_apply]
  split
  · rfl
  · have : i = 0 := by omega
    rw [this]

/-- C10: with no critical-temperature override in effect, for family 0x06 on a processor the
kernel does not class as Nehalem or newer, `start` succeeds and every core `i < coreCount`
gets the table's constant: Pentium-M 100; Yonah 85; Merom 100 for stepping 0x02, 90 for
stepping 0x0B, for stepping 0x06 it is 80 with 2 cores, 90 with 4 cores and 85 with any
other core count, and 85 for every other stepping; Atom 100 for stepping 0x0A and 90 for
every other stepping; Penryn 105 when bit 28 of MSR 0x17 is set and 100 otherwise. -/
theorem C10_family06_table (k : Constants) (env : CpuStartEnv) (info : CpuidInfo)
    (m : Machine) (hchk : startChecksPass k env info) (hu : env.userTjmax = 0)
    (h6 : info.cpuid_family = 0x06) (hpre : ∃ id, info.cpuid_cpufamily = .other id) :
    (CPUSensors.start k env info m CPUSensors.fresh).1 = true ∧
    (info.cpuid_model = k.CPUID_MODEL_PENTIUM_M →
      allCoresHave info (CPUSensors.start k env info m CPUSensors.fresh).2 100) ∧
    (info.cpuid_model = k.CPUID_MODEL_YONAH →
      allCoresHave info (CPUSensors.start k env info m CPUSensors.fresh).2 85) ∧
    (info.cpuid_model = k.CPUID_MODEL_MEROM →
      (info.cpuid_stepping = 0x02 →
        allCoresHave info (CPUSensors.start k env info m CPUSensors.fresh).2 100) ∧
      (info.cpuid_stepping = 0x0B →
        allCoresHave info (CPUSensors.start k env info m CPUSensors.fresh).2 90) ∧
      (info.cpuid_stepping = 0x06 →
        (info.core_count = 2 →
          allCoresHave info (CPUSensors.start k env info m CPUSensors.fresh).2 80) ∧
        (info.core_count = 4 →
          allCoresHave info (CPUSensors.start k env info m CPUSensors.fresh).2 90) ∧
        (info.core_count ≠ 2 → info.core_count ≠ 4 →
          allCoresHave info (CPUSensors.start k env info m CPUSensors.fresh).2 85)) ∧
      (info.cpuid_stepping ≠ 0x02 → info.cpuid_stepping ≠ 0x0B → info.cpuid_stepping ≠ 0x06 →
        allCoresHave info (CPUSensors.start k env info m CPUSensors.fresh).2 85)) ∧
    (info.cpuid_model = k.CPUID_MODEL_ATOM →
      (info.cpuid_stepping = 0x0A →
        allCoresHave info (CPUSensors.start k env info m CPUSensors.fresh).2 100) ∧
      (info.cpuid_stepping ≠ 0x0A →
        allCoresHave info (CPUSensors.start k env info m CPUSensors.fresh).2 90)) ∧
    (info.cpuid_model = k.CPUID_MODEL_PENRYN →
      ((rdmsr64 m m.current (.addr 0x17)).testBit 28 = true →
        allCoresHave info (CPUSensors.start k env info m CPUSensors.fresh).2 105) ∧
      ((rdmsr64 m m.current (.addr 0x17)).testBit 28 = false →
        allCoresHave info (CPUSensors.start k env info m CPUSensors.fresh).2 100)) := by
  obtain ⟨hret, hall⟩ := start_family06_pre_nehalem k env info m hchk hu h6 hpre
  refine ⟨hret, ?_, ?_, ?_, ?_, ?_⟩
  · intro hm
    rw [calculateTjmax06_pentium_m k info m _ hm] at hall
    exact hall
  · intro hm
    rw [calculateTjmax06_yonah k info m _ hm] at hall
    exact hall
  · intro hm
    rw [calculateTjmax06_merom k info m _ hm] at hall
    refine ⟨?_, ?_, ?_, ?_⟩
    · intro hs
      simpa [hs] using hall
    · intro hs
      simpa [hs] using hall
    · intro hs
      refine ⟨?_, ?_, ?_⟩
      · intro hc
        simpa [hs, hc] using hall
      · intro hc
        simpa [hs, hc] using hall
      · intro hc2 hc4
        simpa [hs, hc2, hc4] using hall
    · intro h2 hb h06
      simpa [h2, hb, h06] using hall
  · intro hm
    rw [calculateTjmax06_atom k info m _ hm] at hall
    refine ⟨?_, ?_⟩
    · intro hs
      simpa [hs] using hall
    · intro hs
      simpa [hs] using hall
  · intro hm
    rw [calculateTjmax06_penryn k info m _ hm] at hall
    refine ⟨?_, ?_⟩
    · intro hb
      simpa [hb] using hall
    · intro hb
      simpa [hb] using hall

/-- C10 at a concrete processor: a two-core Merom of stepping 0x06 gets 80 on both cores. -/
theorem C10_witness :
    (CPUSensors.start sampleConstants (sampleStartEnv none) (sampleInfo 0x06 0x0F 0x06 2)
        (sampleMachine 0) CPUSensors.fresh).1 = true ∧
    allCoresHave (sampleInfo 0x06 0x0F 0x06 2)
      (CPUSensors.start sampleConstants (sampleStartEnv none) (sampleInfo 0x06 0x0F 0x06 2)
        (sampleMachine 0) CPUSensors.fresh).2 80 :=
  ⟨(C10_family06_table sampleConstants (sampleStartEnv none) (sampleInfo 0x06 0x0F 0x06 2)
      (sampleMachine 0) (by unfold startChecksPass; decide) rfl rfl ⟨0, rfl⟩).1,
    ((C10_family06_table sampleConstants (sampleStartEnv none) (sampleInfo 0x06 0x0F 0x06 2)
      (sampleMachine 0) (by unfold startChecksPass; decide) rfl rfl ⟨0, rfl⟩).2.2.2.1
        rfl).2.2.1 rfl |>.1 rfl⟩

/-- C9 (as amended) at a concrete processor: family 0x06 with the unlisted model 0x01 and no
override starts, with a critical temperature of 0. -/
theorem C9_witness :
    (CPUSensors.start sampleConstants (sampleStartEnv none) (sampleInfo 0x06 0x01 0 2)
        (sampleMachine 0) CPUSensors.fresh).1 = true ∧
    (CPUSensors.start sampleConstants (sampleStartEnv none) (sampleInfo 0x06 0x01 0 2)
        (sampleMachine 0) CPUSensors.fresh).2.tjmax 0 = 0 :=
  ⟨((C9_start_failure_conditions sampleConstants (sampleStartEnv none)
      (sampleInfo 0x06 0x01 0 2) (sampleMachine 0)).2 (by unfold startChecksPass; decide) rfl
      (Or.inl ⟨rfl, by decide⟩)).1,
    ((C9_start_failure_conditions sampleConstants (sampleStartEnv none)
      (sampleInfo 0x06 0x01 0 2) (sampleMachine 0)).2 (by unfold startChecksPass; decide) rfl
      (Or.inl ⟨rfl, by decide⟩)).2 0⟩

/-! ## The probe scheduler: further claims -/

theorem sampleStarted_gate :
    ACPIProbe.gateOpen (sampleStarted.heap 0) (3 / 2) := by
  right
  show (3 / 2 : ℚ) - 0 < ((1000 * 1000 % 2 ^ 64 : ℕ) : ℚ)
  norm_num

theorem sample_start :
    ACPIProbe.start sampleEvaluator sampleAcpiEnv ACPIProbe.fresh ()
      = .ok (true, sampleStarted, ()) := by
  rfl

/-- C12 (counterexample): the active profile has polling interval 2 and the tick evaluates
its probes; the timer is re-armed for 2000 ms, not for 2 ms. -/
theorem C12_counterexample :
    (sampleStarted.heap 0).interval = 2 ∧
    (ACPIProbe.woorkloopTimerEvent sampleEvaluator sampleStarted (3 / 2) ()).calls.map
        Call.method = ["A", "B", "C"] ∧
    (ACPIProbe.woorkloopTimerEvent sampleEvaluator sampleStarted (3 / 2) ()).armedMS = 2000 ∧
    (ACPIProbe.woorkloopTimerEvent sampleEvaluator sampleStarted (3 / 2) ()).armedMS ≠ 2 := by
  refine ⟨rfl, ?_, ?_, ?_⟩ <;>
    rw [tick_gate_open _ _ _ _ 0 rfl sampleStarted_gate]
  · rfl
  · rfl
  · decide

/-- C12 (as amended): for every active profile with polling interval `n`, taken in seconds,
with `1000 * n` below `2 ^ 32`, a tick that evaluates probes re-arms the timer for exactly
`1000 * n` milliseconds. -/
theorem C12_tick_rearms_interval_times_1000 {σ : Type} (ev : Evaluator σ) (self : ACPIProbe)
    (now : ℚ) (fw : σ) (p : Nat) (hp : self.activeProfile = some p)
    (hg : ACPIProbe.gateOpen (self.heap p) now)
    (hfit : 1000 * (self.heap p).interval < 2 ^ 32) :
    (ACPIProbe.woorkloopTimerEvent ev self now fw).armedMS = 1000 * (self.heap p).interval ∧
    (ACPIProbe.woorkloopTimerEvent ev self now fw).self.timeoutMS
      = some (1000 * (self.heap p).interval) := by
  rw [tick_gate_open ev self now fw p hp hg]
  have h : toUInt32 ((self.heap p).interval * 1000) = 1000 * (self.heap p).interval := by
    unfold toUInt32
    rw [Nat.mul_comm]
    exact Nat.mod_eq_of_lt hfit
  simp only [h, and_self]

/-- C12 (as amended) at a concrete tick: interval 2 re-arms for 2000 ms. -/
theorem C12_witness :
    (ACPIProbe.woorkloopTimerEvent sampleEvaluator sampleStarted (3 / 2) ()).armedMS
      = 1000 * 2 :=
  (C12_tick_rearms_interval_times_1000 sampleEvaluator sampleStarted (3 / 2) () 0 rfl
    sampleStarted_gate (by decide)).1

/-- C13 (evaluation of the code at the failing input): for a zero-length name and for a
missing name, with a non-empty probe list and a non-zero interval, `init` fails and
`withParameters` hands back the object it has just released; `addProfile` does not drop the
request but goes on to store that pointer. -/
theorem C13_unnamed_profile_not_dropped :
    ACPIProbeProfile.withParameters (some "") (some ["A"]) (some 2) none none = .released ∧
    ACPIProbeProfile.withParameters none (some ["A"]) (some 2) none none = .released ∧
    sampleStarted.addProfile (some "") (some ["A"]) (some 2) none none
      = .error .releasedProfile ∧
    sampleStarted.addProfile none (some ["A"]) (some 2) none none
      = .error .releasedProfile := by
  refine ⟨rfl, rfl, rfl, rfl⟩

/-- A tick on a scheduler with no active profile evaluates no probe, publishes no batch,
leaves the firmware state as it was, and calls `setTimeoutMS(5000)` on the timer event
source: the call faults when there is none, and re-arms the timer for 5000 ms otherwise. -/
theorem tick_without_active_profile {σ : Type} (ev : Evaluator σ) (self : ACPIProbe)
    (now : ℚ) (fw : σ) (h : self.activeProfile = none) :
    (ACPIProbe.woorkloopTimerEvent ev self now fw).calls = [] ∧
    (ACPIProbe.woorkloopTimerEvent ev self now fw).published = none ∧
    (ACPIProbe.woorkloopTimerEvent ev self now fw).fw = fw ∧
    (ACPIProbe.woorkloopTimerEvent ev self now fw).armedMS = 5000 ∧
    (ACPIProbe.woorkloopTimerEvent ev self now fw).self = { self with timeoutMS := some 5000 } ∧
    (ACPIProbe.woorkloopTimerEvent ev self now fw).fault
      = if self.timerEventSource then none else some .nullPointer := by
  simp [ACPIProbe.woorkloopTimerEvent, h]

/-- The fault of a tick: the `setTimeoutMS` call at its end goes through exactly when the
timer event source exists. -/
theorem tick_fault {σ : Type} (ev : Evaluator σ) (self : ACPIProbe) (now : ℚ) (fw : σ) :
    (ACPIProbe.woorkloopTimerEvent ev self now fw).fault
      = if self.timerEventSource then none else some .nullPointer := by
  unfold ACPIProbe.woorkloopTimerEvent
  simp only []
  split
  · split <;> rfl
  · rfl

/-! ## The invariant of the loaded scheduler -/

theorem OSDictionary.setObject_count_ne_zero {α : Type} (d : OSDictionary α) (k : String)
    (v : α) : (d.setObject k v).getCount ≠ 0 := by
  cases d with
  | nil => simp [OSDictionary.setObject, OSDictionary.getCount]
  | cons e rest =>
    obtain ⟨k0, v0⟩ := e
    by_cases h : k0 = k <;> simp [OSDictionary.setObject, OSDictionary.getCount, h]

theorem addProfile_loading (self self1 : ACPIProbe) (name : Option String)
    (methods : Option (List String)) (interval timeout : Option Nat) (verbose : Option Bool)
    (hl : self.Loading) (h : self.addProfile name methods interval timeout verbose = .ok self1) :
    self1.Loading := by
  unfold ACPIProbe.addProfile at h
  cases hw : ACPIProbeProfile.withParameters name methods interval timeout verbose with
  | null =>
    rw [hw] at h
    cases h
    exact hl
  | released =>
    rw [hw] at h
    cases h
  | valid profile =>
    rw [hw] at h
    obtain ⟨d, l, hd, hlist, hcount, hmem, hact, htim⟩ := hl
    cases name with
    | none => simp at h
    | some nm =>
      simp only [hd, hlist] at h
      cases h
      refine ⟨d.setObject nm self.heapNext, l ++ [self.heapNext], rfl, rfl, ?_, ?_, hact, htim⟩
      · constructor
        · intro h0; exact absurd h0 (OSDictionary.setObject_count_ne_zero d nm _)
        · intro h0; simp at h0
      · intro key p hp
        rw [OSDictionary.getObject_setObject] at hp
        by_cases hk : nm = key
        · rw [if_pos hk] at hp
          cases hp
          simp
        · rw [if_neg hk] at hp
          exact List.mem_append_left _ (hmem key p hp)

theorem loadListEntry_loading {σ : Type} (ev : Evaluator σ) (acc acc1 : ACPIProbe × σ)
    (item : OSObject) (hl : acc.1.Loading)
    (h : ACPIProbe.loadListEntry ev acc item = .ok acc1) : acc1.1.Loading := by
  unfold ACPIProbe.loadListEntry at h
  split at h
  · split at h
    · split at h
      · split at h
        · rename_i self1 hadd
          cases h
          exact addProfile_loading _ _ _ _ _ _ _ hl hadd
        · cases h
      · cases h; exact hl
    · cases h; exact hl
  · cases h; exact hl

theorem loadList_loading {σ : Type} (ev : Evaluator σ) (items : List OSObject)
    (acc acc1 : ACPIProbe × σ) (hl : acc.1.Loading)
    (h : ACPIProbe.loadList ev items acc = .ok acc1) : acc1.1.Loading := by
  induction items generalizing acc with
  | nil =>
    simp only [ACPIProbe.loadList] at h
    cases h
    exact hl
  | cons item rest ih =>
    simp only [ACPIProbe.loadList] at h
    cases he : ACPIProbe.loadListEntry ev acc item with
    | error f => rw [he] at h; cases h
    | ok acc2 =>
      rw [he] at h
      exact ih acc2 (loadListEntry_loading ev acc acc2 item hl he) h

theorem loadFromDevice_loading {σ : Type} (ev : Evaluator σ) (self : ACPIProbe) (fw : σ)
    (acc1 : ACPIProbe × σ) (hl : self.Loading)
    (h : ACPIProbe.loadFromDevice ev self fw = .ok acc1) : acc1.1.Loading := by
  unfold ACPIProbe.loadFromDevice at h
  split at h
  · split at h
    · split at h
      · exact loadList_loading ev _ _ _ hl h
      · cases h; exact hl
    · cases h; exact hl
  · cases h; exact hl

theorem loadFromConfiguration_loading (env : StartEnv) (self self1 : ACPIProbe)
    (hl : self.Loading) (h : ACPIProbe.loadFromConfiguration env self = .ok self1) :
    self1.Loading := by
  unfold ACPIProbe.loadFromConfiguration at h
  split at h
  · split at h
    · split at h
      · exact addProfile_loading _ _ _ _ _ _ _ hl h
      · cases h; exact hl
    · cases h; exact hl
  · cases h

/-- What a successful `start` on a fresh object went through: the two loading steps kept the
containers consistent and `activateFirst` returned `true`. -/
theorem start_ok_loaded {σ : Type} (ev : Evaluator σ) (env : StartEnv) (fw fw1 : σ)
    (s : ACPIProbe) (h : ACPIProbe.start ev env ACPIProbe.fresh fw = .ok (true, s, fw1)) :
    ∃ s2 : ACPIProbe, s2.Loading ∧ ACPIProbe.activateFirst env s2 = .ok (true, s) := by
  unfold ACPIProbe.start at h
  split at h
  · cases h
  · split at h
    · cases h
    · have h0 : ({ ACPIProbe.fresh with profiles := some [], profileList := some [] }
          : ACPIProbe).Loading :=
        ⟨[], [], rfl, rfl, by simp [OSDictionary.getCount], by
          intro name p hp; simp [OSDictionary.getObject] at hp, rfl, rfl⟩
      simp only [] at h
      cases hdev : ACPIProbe.loadFromDevice ev
          { ACPIProbe.fresh with profiles := some [], profileList := some [] } fw with
      | error f => rw [hdev] at h; cases h
      | ok acc1 =>
        obtain ⟨s1, fwa⟩ := acc1
        rw [hdev] at h
        simp only [] at h
        have h1 : s1.Loading := loadFromDevice_loading ev _ fw _ h0 hdev
        cases hcfg : ACPIProbe.loadFromConfiguration env s1 with
        | error f => rw [hcfg] at h; cases h
        | ok s2 =>
          rw [hcfg] at h
          simp only [] at h
          have h2 : s2.Loading := loadFromConfiguration_loading env s1 s2 h1 hcfg
          cases hact : ACPIProbe.activateFirst env s2 with
          | error f => rw [hact] at h; cases h
          | ok r =>
            obtain ⟨ret, s3⟩ := r
            rw [hact] at h
            simp only [Except.ok.injEq, Prod.mk.injEq] at h
            obtain ⟨hret, hs, -⟩ := h
            rw [hret, hs] at hact
            exact ⟨s2, h2, hact⟩

/-- The outcome of a successful `activateFirst` on consistent containers. -/
theorem activateFirst_ok (env : StartEnv) (s2 s : ACPIProbe) (hl : s2.Loading)
    (h : ACPIProbe.activateFirst env s2 = .ok (true, s)) :
    ∃ l, s.profileList = some l ∧ s.profiles = s2.profiles ∧ s.activeProfile = l.get? 0 ∧
      (s.timeoutMS.isSome = true ↔ l ≠ []) ∧
      (∀ name p, s.getProfileByName name = some p → p ∈ l) := by
  obtain ⟨d, l, hd, hlist, hcount, hmem, hact, htim⟩ := hl
  have hmem2 : ∀ (t : ACPIProbe), t.profiles = some d →
      ∀ name p, t.getProfileByName name = some p → p ∈ l := by
    intro t ht name p hp
    simp only [ACPIProbe.getProfileByName, ht] at hp
    exact hmem name p hp
  unfold ACPIProbe.activateFirst at h
  simp only [hd, hlist] at h
  by_cases hc : d.getCount = 0
  · have hnil : l = [] := hcount.mp hc
    simp only [hc, ne_eq, not_true_eq_false, if_false, Except.ok.injEq, Prod.mk.injEq,
      true_and] at h
    subst h
    refine ⟨l, hlist, rfl, ?_, ?_, hmem2 s2 hd⟩
    · rw [hact, hnil]; rfl
    · rw [htim, hnil]; simp
  · have hne : l ≠ [] := fun e => hc (hcount.mpr e)
    simp only [hc, ne_eq, not_false_eq_true, if_true] at h
    split at h
    · simp at h
    · split at h
      · simp at h
      · split at h
        · simp at h
        · simp only [Except.ok.injEq, Prod.mk.injEq, true_and] at h
          subst h
          exact ⟨l, rfl, hd.symm, rfl, by simp [hne], hmem2 _ rfl⟩

theorem activateProfile_running (self : ACPIProbe) (l : List Nat) (name : String) (now : ℚ)
    (hr : self.Running l) : (self.activateProfile name now).2.Running l := by
  obtain ⟨hlist, hmem, p, hp, hpl⟩ := hr
  unfold ACPIProbe.activateProfile
  cases hd : self.profiles with
  | none => exact ⟨hlist, hmem, p, hp, hpl⟩
  | some d =>
    simp only []
    by_cases hc : d.getCount = 0
    · simp only [hc, ne_eq, not_true_eq_false, if_false]
      exact ⟨hlist, hmem, p, hp, hpl⟩
    · simp only [hc, ne_eq, not_false_eq_true, if_true]
      cases hq : d.getObject name with
      | none => exact ⟨hlist, hmem, p, hp, hpl⟩
      | some q =>
        have hql : q ∈ l := hmem name q (by simp [ACPIProbe.getProfileByName, hd, hq])
        refine ⟨hlist, ?_, q, rfl, hql⟩
        intro key r hr
        apply hmem key r
        simp only [ACPIProbe.getProfileByName, hd] at hr ⊢
        exact hr

theorem tick_running {σ : Type} (ev : Evaluator σ) (self : ACPIProbe) (l : List Nat) (now : ℚ)
    (fw : σ) (hr : self.Running l) :
    (ACPIProbe.woorkloopTimerEvent ev self now fw).self.Running l := by
  obtain ⟨hlist, hmem, p, hp, hpl⟩ := hr
  by_cases hg : ACPIProbe.gateOpen (self.heap p) now
  · rw [tick_gate_open ev self now fw p hp hg]
    exact ⟨hlist, hmem, p, hp, hpl⟩
  · rw [tick_gate_closed ev self now fw p hp hg]
    exact ⟨hlist, hmem, p, hp, hpl⟩

theorem applyOps_running {σ : Type} (ev : Evaluator σ) (ops : List SchedulerOp)
    (st : ACPIProbe × σ) (l : List Nat) (hr : st.1.Running l) :
    (applyOps ev ops st).1.Running l := by
  induction ops generalizing st with
  | nil => exact hr
  | cons op rest ih =>
    unfold applyOps at ih ⊢
    rw [List.foldl_cons]
    apply ih
    cases op with
    | activate name now => exact activateProfile_running st.1 l name now hr
    | tick now => exact tick_running ev st.1 l now st.2 hr

/-- C14: after a successful `start` on a fresh scheduler, an active profile exists if and only
if at least one profile was accepted, it is the first accepted profile (the first entry of
the ordered list), and the timer is armed if and only if at least one profile was accepted;
when one was accepted, after every sequence of later `activateProfile` calls and ticks there
is still an active profile, it is an entry of the ordered list, and the list is as `start`
left it. -/
theorem C14_active_profile_invariant {σ : Type} (ev : Evaluator σ) (env : StartEnv)
    (fw fw1 : σ) (s : ACPIProbe)
    (h : ACPIProbe.start ev env ACPIProbe.fresh fw = .ok (true, s, fw1)) :
    (s.activeProfile.isSome = true ↔ s.getProfileCount ≠ 0) ∧
    s.activeProfile = s.getProfile 0 ∧
    (s.timeoutMS.isSome = true ↔ s.getProfileCount ≠ 0) ∧
    (s.getProfileCount ≠ 0 → ∀ ops : List SchedulerOp,
      (applyOps ev ops (s, fw1)).1.profileList = s.profileList ∧
      ∃ p, (applyOps ev ops (s, fw1)).1.activeProfile = some p ∧
        ∃ i, (applyOps ev ops (s, fw1)).1.getProfile i = some p) := by
  obtain ⟨s2, hl, hact⟩ := start_ok_loaded ev env fw fw1 s h
  obtain ⟨l, hlist, -, hactive, htimer, hmem⟩ := activateFirst_ok env s2 s hl hact
  have hcount : s.getProfileCount = l.length := by simp [ACPIProbe.getProfileCount, hlist]
  have hget : ∀ i, s.getProfile i = l.get? i := by
    intro i; simp [ACPIProbe.getProfile, hlist]
  have hne : l ≠ [] ↔ l.length ≠ 0 := by
    cases l <;> simp
  refine ⟨?_, ?_, ?_, ?_⟩
  · rw [hactive, hcount, ← hne]
    cases l <;> simp
  · rw [hactive, hget]
  · rw [htimer, hcount, hne]
  · intro hpos ops
    rw [hcount, ← hne] at hpos
    obtain ⟨p0, rest, hcons⟩ := List.exists_cons_of_ne_nil hpos
    have hrun : s.Running l :=
      ⟨hlist, hmem, p0, by rw [hactive, hcons]; rfl, by rw [hcons]; simp⟩
    obtain ⟨hlist2, -, p, hp, hpl⟩ := applyOps_running ev ops (s, fw1) l hrun
    refine ⟨by rw [hlist2, hlist], p, hp, ?_⟩
    obtain ⟨i, hi⟩ := List.mem_iff_get?.mp hpl
    exact ⟨i, by simp only [ACPIProbe.getProfile, hlist2]; exact hi⟩

/-- C14 at a concrete start: the configuration node defines profile `P`; after `start`, an
`activateProfile` of an unknown name and a tick, `P` is still the active profile. -/
theorem C14_witness :
    sampleStarted.activeProfile = sampleStarted.getProfile 0 ∧
    ∃ p, (applyOps sampleEvaluator [.activate "Q" 1, .tick 2] (sampleStarted, ())).1.activeProfile
        = some p ∧
      ∃ i, (applyOps sampleEvaluator [.activate "Q" 1, .tick 2] (sampleStarted, ())).1.getProfile i
        = some p :=
  ⟨(C14_active_profile_invariant sampleEvaluator sampleAcpiEnv () () sampleStarted
      sample_start).2.1,
    ((C14_active_profile_invariant sampleEvaluator sampleAcpiEnv () () sampleStarted
      sample_start).2.2.2 (by decide) [.activate "Q" 1, .tick 2]).2⟩

/-! ## The CPU sensors: further claims -/

/-- When the `Tjmax` calculation yields `s2`, `start` succeeds and leaves in `tjmax[0]` what
`s2` holds there; on a processor the kernel does not class as Nehalem or newer every core
below the core count gets the same value. -/
theorem start_tjmax_of_calculated (k : Constants) (env : CpuStartEnv) (info : CpuidInfo)
    (m : Machine) (hchk : startChecksPass k env info) (s2 : CPUSensors)
    (hcalc : CPUSensors.calculateTjmax k info m
      (CPUSensors.readConfiguration env info CPUSensors.fresh) = some s2) :
    (CPUSensors.start k env info m CPUSensors.fresh).1 = true ∧
    (CPUSensors.start k env info m CPUSensors.fresh).2.tjmax 0 = s2.tjmax 0 ∧
    ((∃ id, info.cpuid_cpufamily = .other id) →
      allCoresHave info (CPUSensors.start k env info m CPUSensors.fresh).2 (s2.tjmax 0)) := by
  obtain ⟨hret, htj⟩ := (start_of_checks k env info m CPUSensors.fresh hchk).2 _ hcalc
  refine ⟨hret, ?_, ?_⟩
  · rw [htj]
    unfold CPUSensors.setupTjmax
    cases info.cpuid_cpufamily <;> simp only []
    rw [fillTjmax_apply]
    simp
  · rintro ⟨id, hid⟩ i hi
    rw [htj]
    unfold CPUSensors.setupTjmax
    rw [hid]
    simp only []
    rw [fillTjmax_apply]
    split
    · rfl
    · have : i = 0 := by omega
      rw [this]

/-- C11 (counterexample): family 0x0F, model 0x05, no override: `start` succeeds and the
critical temperature is 0, not 100. -/
theorem C11_counterexample :
    (sampleStartEnv none).userTjmax = 0 ∧
    (CPUSensors.start sampleConstants (sampleStartEnv none) (sampleInfo 0x0F 0x05 0 2)
        (sampleMachine 0) CPUSensors.fresh).1 = true ∧
    (CPUSensors.start sampleConstants (sampleStartEnv none) (sampleInfo 0x0F 0x05 0 2)
        (sampleMachine 0) CPUSensors.fresh).2.tjmax 0 = 0 ∧
    (CPUSensors.start sampleConstants (sampleStartEnv none) (sampleInfo 0x0F 0x05 0 2)
        (sampleMachine 0) CPUSensors.fresh).2.tjmax 0 ≠ 100 := by
  have hcalc : CPUSensors.calculateTjmax sampleConstants (sampleInfo 0x0F 0x05 0 2)
      (sampleMachine 0)
      (CPUSensors.readConfiguration (sampleStartEnv none) (sampleInfo 0x0F 0x05 0 2)
        CPUSensors.fresh)
      = some (CPUSensors.readConfiguration (sampleStartEnv none) (sampleInfo 0x0F 0x05 0 2)
        CPUSensors.fresh) := by
    rfl
  obtain ⟨h1, h2, -⟩ := start_tjmax_of_calculated sampleConstants (sampleStartEnv none)
    (sampleInfo 0x0F 0x05 0 2) (sampleMachine 0) (by unfold startChecksPass; decide) _ hcalc
  have h3 : (CPUSensors.readConfiguration (sampleStartEnv none) (sampleInfo 0x0F 0x05 0 2)
      CPUSensors.fresh).tjmax 0 = 0 := rfl
  rw [h3] at h2
  refine ⟨rfl, h1, h2, ?_⟩
  rw [h2]; decide

/-- C11 (as amended): with no critical-temperature override in effect, for family 0x0F and
each of the models 0x00, 0x01, 0x02, 0x03, 0x04 and 0x06 (every model from 0x00 to 0x06 but
0x05), `start` succeeds and the derived critical temperature is 100: in `tjmax[0]`, and in
the entry of every core below the core count on a processor the kernel does not class as
Nehalem or newer. -/
theorem C11_family0F_table (k : Constants) (env : CpuStartEnv) (info : CpuidInfo)
    (m : Machine) (hchk : startChecksPass k env info) (hu : env.userTjmax = 0)
    (hf : info.cpuid_family = 0x0F)
    (hmodel : info.cpuid_model ≤ 0x06 ∧ info.cpuid_model ≠ 0x05) :
    (CPUSensors.start k env info m CPUSensors.fresh).1 = true ∧
    (CPUSensors.start k env info m CPUSensors.fresh).2.tjmax 0 = 100 ∧
    ((∃ id, info.cpuid_cpufamily = .other id) →
      allCoresHave info (CPUSensors.start k env info m CPUSensors.fresh).2 100) := by
  have hz := readConfiguration_fresh_zero env info
  rw [hu] at hz
  have hlist : info.cpuid_model = 0x00 ∨ info.cpuid_model = 0x01 ∨ info.cpuid_model = 0x02
      ∨ info.cpuid_model = 0x03 ∨ info.cpuid_model = 0x04 ∨ info.cpuid_model = 0x06 := by
    omega
  have hcalc : CPUSensors.calculateTjmax k info m
      (CPUSensors.readConfiguration env info CPUSensors.fresh)
      = some (CPUSensors.setTjmax0 100
          (CPUSensors.readConfiguration env info CPUSensors.fresh)) := by
    unfold CPUSensors.calculateTjmax
    rw [if_pos hz, if_neg (by rw [hf]; decide), if_pos hf, if_pos hlist]
  have h := start_tjmax_of_calculated k env info m hchk _ hcalc
  rw [setTjmax0_tjmax_zero] at h
  exact h

/-- C11 (as amended) at a concrete processor: family 0x0F, model 0x06, two cores. -/
theorem C11_witness :
    (CPUSensors.start sampleConstants (sampleStartEnv none) (sampleInfo 0x0F 0x06 0 2)
        (sampleMachine 0) CPUSensors.fresh).2.tjmax 0 = 100 :=
  (C11_family0F_table sampleConstants (sampleStartEnv none) (sampleInfo 0x0F 0x06 0 2)
    (sampleMachine 0) (by unfold startChecksPass; decide) rfl rfl (by decide)).2.1

/-- C16 (evaluation of the code at the failing input): critical temperature 100 and a
package-thermal-status value with the valid bit set and the reading 110 in bits 16..22.  The
core-sensor arithmetic gives 100 - 110 = -10; the package decode returns 118, because it
masks the difference instead of the reading. -/
theorem C16_package_decode_masks_difference :
    (0x80000000 + 110 * 2 ^ 16 : Nat).testBit 31 = true ∧
    (0x80000000 + 110 * 2 ^ 16 : Nat) / 2 ^ 16 % 2 ^ 7 = 110 ∧
    (sampleWorld (0x80000000 + 110 * 2 ^ 16) 0 0).self.tjmax 0 = 100 ∧
    (CPUSensors.getSensorValue sampleConstants sampleSandyBridge 11
        { group := .kCPUSensorsPackageThermalSensor, index := 0 }
        (sampleWorld (0x80000000 + 110 * 2 ^ 16) 0 0)).1 = 118 := by
  refine ⟨by decide, by decide, rfl, ?_⟩
  have h : ((sampleWorld (0x80000000 + 110 * 2 ^ 16) 0 0).self.tjmax 0 + 2 ^ 64
      - (rdmsr64 (sampleWorld (0x80000000 + 110 * 2 ^ 16) 0 0).m
          (sampleWorld (0x80000000 + 110 * 2 ^ 16) 0 0).m.current
          .MSR_IA32_PACKAGE_THERM_STATUS >>> 16)) % 2 ^ 64 &&& 0x7F = 118 := by
    decide
  simp only [CPUSensors.getSensorValue]
  rw [h]
  norm_num

/-- C18 (evaluation of the code at the failing input): previous counter value 1000, new
value 1500, no wrap.  The delta of `read_cpu_turbo` is 499, not 500: the wraparound branch
is taken when the previous value is the smaller one, and it adds `2 ^ 64 - 1`.  With both
counters at 1000 before and the core-cycle counter at 1500 and the reference-cycle counter
at 2000 after, the stored ratio is 499 / 999. -/
theorem C18_counter_delta_off_by_one :
    counterDelta 1000 1500 = 499 ∧
    (1500 - 1000 : Nat) % 2 ^ 64 = 500 ∧
    (read_cpu_turbo sampleConstants (sampleInfo 0x06 0x0F 6 2)
        { sampleMachine 0 with
          pmc := fun _ counter => if counter = 0x40000001 then (1500, 0) else (2000, 0) }
        1 0
        { Globals.zero with cpu_last_ucc := fun _ => 1000, cpu_last_urc := fun _ => 1000 }
      ).cpu_turbo 0 = 499 / 999 := by
  refine ⟨by decide, by decide, ?_⟩
  have h1 : counterDelta 1000 (((0 : Nat) % 2 ^ 32) <<< 32 ||| (1500 % 2 ^ 32)) = 499 := by
    decide
  have h2 : counterDelta 1000 (((0 : Nat) % 2 ^ 32) <<< 32 ||| (2000 % 2 ^ 32)) = 999 := by
    decide
  have hn : get_cpu_number (sampleInfo 0x06 0x0F 6 2) 0 = 0 := rfl
  have hk : (0 : Nat) < sampleConstants.kCPUSensorsMaxCpus := by decide
  simp only [read_cpu_turbo, hn, hk, if_true]
  simp only [Nat.reduceEqDiff, if_true, if_false, h1, h2]
  norm_num [setAt]

/-- C20 (counterexample): rail 0 was last sampled at time 10 with the counter at 1000; the
decode at time 10.5 reads the counter 0.  The cache keeps the counter 1000 and the timestamp
10: neither is replaced. -/
theorem C20_counterexample :
    rdmsr64 (sampleWorld 0 0 1000).m (sampleWorld 0 0 1000).m.current (.cpu_energy_msrs 0) = 0 ∧
    (CPUSensors.getSensorValue sampleConstants sampleSandyBridge (21 / 2)
        { group := .kCPUSensorsPowerSensor, index := 0 }
        (sampleWorld 0 0 1000)).2.self.lastEnergyValue 0 = 1000 ∧
    (CPUSensors.getSensorValue sampleConstants sampleSandyBridge (21 / 2)
        { group := .kCPUSensorsPowerSensor, index := 0 }
        (sampleWorld 0 0 1000)).2.self.lastEnergyTime 0 = 10 ∧
    (10 : ℚ) ≠ 21 / 2 := by
  refine ⟨rfl, rfl, rfl, by norm_num⟩

/-- C20 (as amended): a power-sensor decode call for rail `n` replaces the rail's cached
counter with the counter just read and the cached timestamp with the current time exactly
when it reports a value, that is when the counter reads non-zero and the elapsed time is
non-zero, and then leaves the cache of every other rail as it was; when the counter reads
zero or the elapsed time is zero it returns 0 and leaves the whole state as it was. -/
theorem C20_power_cache_update (k : Constants) (info : CpuidInfo) (time : ℚ) (w : World)
    (n : Nat) :
    (rdmsr64 w.m w.m.current (.cpu_energy_msrs n) ≠ 0 → time - w.self.lastEnergyTime n ≠ 0 →
      (CPUSensors.getSensorValue k info time
          { group := .kCPUSensorsPowerSensor, index := n } w).2.self.lastEnergyValue n
        = rdmsr64 w.m w.m.current (.cpu_energy_msrs n) ∧
      (CPUSensors.getSensorValue k info time
          { group := .kCPUSensorsPowerSensor, index := n } w).2.self.lastEnergyTime n = time ∧
      ∀ j, j ≠ n →
        (CPUSensors.getSensorValue k info time
            { group := .kCPUSensorsPowerSensor, index := n } w).2.self.lastEnergyValue j
          = w.self.lastEnergyValue j ∧
        (CPUSensors.getSensorValue k info time
            { group := .kCPUSensorsPowerSensor, index := n } w).2.self.lastEnergyTime j
          = w.self.lastEnergyTime j) ∧
    (rdmsr64 w.m w.m.current (.cpu_energy_msrs n) = 0 ∨ time - w.self.lastEnergyTime n = 0 →
      CPUSensors.getSensorValue k info time
          { group := .kCPUSensorsPowerSensor, index := n } w = (0, w)) := by
  constructor
  · intro he ht
    have ht1 : ¬ toFloat (toDouble (time - w.self.lastEnergyTime n)) = 0 :=
      fun h => ht ((deltaTime_eq_zero_iff _).mp h)
    simp only [CPUSensors.getSensorValue, if_neg he, if_neg ht1]
    refine ⟨by simp [setAt], by simp [setAt], ?_⟩
    intro j hj
    simp [setAt, hj]
  · intro h
    by_cases he : rdmsr64 w.m w.m.current (.cpu_energy_msrs n) = 0
    · simp only [CPUSensors.getSensorValue, if_pos he]
    · rcases h with h | h
      · exact absurd h he
      · have h1 : toFloat (toDouble (time - w.self.lastEnergyTime n)) = 0 :=
          (deltaTime_eq_zero_iff _).mpr h
        simp only [CPUSensors.getSensorValue, if_neg he, if_pos h1]

/-- C20 (as amended) at a concrete read: the counter 1500 read at time 10.5 replaces the
cached counter 1000 and the cached timestamp 10. -/
theorem C20_witness :
    (CPUSensors.getSensorValue sampleConstants sampleSandyBridge (21 / 2)
        { group := .kCPUSensorsPowerSensor, index := 0 }
        (sampleWorld 1500 0 1000)).2.self.lastEnergyValue 0 = 1500 ∧
    (CPUSensors.getSensorValue sampleConstants sampleSandyBridge (21 / 2)
        { group := .kCPUSensorsPowerSensor, index := 0 }
        (sampleWorld 1500 0 1000)).2.self.lastEnergyTime 0 = 21 / 2 :=
  ⟨((C20_power_cache_update sampleConstants sampleSandyBridge (21 / 2)
      (sampleWorld 1500 0 1000) 0).1 (by decide)
      (by show (21 / 2 : ℚ) - 10 ≠ 0; norm_num)).1,
    ((C20_power_cache_update sampleConstants sampleSandyBridge (21 / 2)
      (sampleWorld 1500 0 1000) 0).1 (by decide)
      (by show (21 / 2 : ℚ) - 10 ≠ 0; norm_num)).2.1⟩

/-- The 16-bit divisor is `2 ^ n` when the 9-bit field `n` of the register is below 16. -/
theorem energyUnitDivisor_small (r : Nat) (hn : r / 2 ^ 8 % 2 ^ 9 < 16) :
    CPUSensors.energyUnitDivisor r = 2 ^ (r / 2 ^ 8 % 2 ^ 9) := by
  unfold CPUSensors.energyUnitDivisor
  have h1 : (r >>> 8) &&& 0x1FF = r / 2 ^ 8 % 2 ^ 9 := by
    rw [Nat.shiftRight_eq_div_pow]
    exact Nat.and_pow_two_sub_one_eq_mod _ 9
  rw [h1, Nat.one_shiftLeft]
  apply Nat.mod_eq_of_lt
  exact Nat.pow_lt_pow_right (by norm_num) hn

/-- A `start` that returns `true` ends with the energy step. -/
theorem start_true_form (k : Constants) (env : CpuStartEnv) (info : CpuidInfo) (m : Machine)
    (self : CPUSensors) (h : (CPUSensors.start k env info m self).1 = true) :
    ∃ s, (CPUSensors.start k env info m self).2 = CPUSensors.addEnergySensors k info m s := by
  unfold CPUSensors.start at h ⊢
  split at h
  · simp at h
  · split at h
    · simp at h
    · split at h
      · simp at h
      · split at h
        · simp at h
        · simp only [] at h ⊢
          split at h
          · simp at h
          · rename_i s2 hcalc
            simp only [*, if_false]
            exact ⟨_, rfl⟩

/-- On the six named families, a non-zero register value with a non-zero divisor sets the
energy unit to the reciprocal of the divisor. -/
theorem addEnergySensors_unit (k : Constants) (info : CpuidInfo) (m : Machine)
    (self : CPUSensors) (hfam : raplCapable info)
    (hr : rdmsr64 m m.current .MSR_RAPL_POWER_UNIT ≠ 0)
    (hu : CPUSensors.energyUnitDivisor (rdmsr64 m m.current .MSR_RAPL_POWER_UNIT) ≠ 0) :
    (CPUSensors.addEnergySensors k info m self).energyUnitValue
      = 1 / ((CPUSensors.energyUnitDivisor (rdmsr64 m m.current .MSR_RAPL_POWER_UNIT) : ℕ) : ℚ)
    := by
  unfold CPUSensors.addEnergySensors
  cases hf : info.cpuid_cpufamily with
  | other id => exact absurd hf (hfam id)
  | _ =>
    simp only [hr, hu, ne_eq, not_false_eq_true, and_self, if_true]
    first
      | rfl
      | (split <;> (try split) <;> rfl)

/-- On every RAPL-capable family (Nehalem through Haswell), when `start` succeeds and the
energy-unit register reads a non-zero value whose 9-bit field `n` in bits 8..16 is below 16,
the derived energy-unit scale equals `1 / 2 ^ n`. -/
theorem energy_unit_scale_below_16 (k : Constants) (env : CpuStartEnv) (info : CpuidInfo)
    (m : Machine) (self : CPUSensors) (hfam : raplCapable info)
    (hstart : (CPUSensors.start k env info m self).1 = true)
    (hr : rdmsr64 m m.current .MSR_RAPL_POWER_UNIT ≠ 0)
    (hn : rdmsr64 m m.current .MSR_RAPL_POWER_UNIT / 2 ^ 8 % 2 ^ 9 < 16) :
    (CPUSensors.start k env info m self).2.energyUnitValue
      = 1 / (2 : ℚ) ^ (rdmsr64 m m.current .MSR_RAPL_POWER_UNIT / 2 ^ 8 % 2 ^ 9) := by
  obtain ⟨s, hs⟩ := start_true_form k env info m self hstart
  have hdiv := energyUnitDivisor_small _ hn
  have hne : CPUSensors.energyUnitDivisor (rdmsr64 m m.current .MSR_RAPL_POWER_UNIT) ≠ 0 := by
    rw [hdiv]; exact pow_ne_zero _ (by norm_num)
  rw [hs, addEnergySensors_unit k info m s hfam hr hne, hdiv]
  norm_num

/-- C19 (evaluation of the code at the failing input): on Sandy Bridge the energy-unit
register reads 0xA1003, whose field in bits 8..16 is 16.  `start` succeeds, the energy-unit
scale stays 0 instead of becoming `1 / 2 ^ 16`, and no power sensor is registered: the
divisor `1 << 16` is stored in 16 bits, which gives 0. -/
theorem C19_energy_unit_lost_at_16 :
    rdmsr64 (sampleMachine 0xA1003) (sampleMachine 0xA1003).current .MSR_RAPL_POWER_UNIT
      = 0xA1003 ∧
    (0xA1003 : Nat) / 2 ^ 8 % 2 ^ 9 = 16 ∧
    CPUSensors.energyUnitDivisor 0xA1003 = 0 ∧
    (CPUSensors.start sampleConstants (sampleStartEnv none) sampleSandyBridge
        (sampleMachine 0xA1003) CPUSensors.fresh).1 = true ∧
    (CPUSensors.start sampleConstants (sampleStartEnv none) sampleSandyBridge
        (sampleMachine 0xA1003) CPUSensors.fresh).2.energyUnitValue = 0 ∧
    (∀ index, FakeSMCSensor.mk .kCPUSensorsPowerSensor index ∉
      (CPUSensors.start sampleConstants (sampleStartEnv none) sampleSandyBridge
        (sampleMachine 0xA1003) CPUSensors.fresh).2.sensors) ∧
    (0 : ℚ) ≠ 1 / (2 : ℚ) ^ 16 := by
  refine ⟨by decide, by decide, by decide, by decide, rfl, ?_, by norm_num⟩
  intro index
  have hs : (CPUSensors.start sampleConstants (sampleStartEnv none) sampleSandyBridge
      (sampleMachine 0xA1003) CPUSensors.fresh).2.sensors
      = [⟨.kFakeSMCTemperatureSensor, 0⟩, ⟨.kFakeSMCTemperatureSensor, 1⟩,
         ⟨.kFakeSMCMultiplierSensor, 0⟩, ⟨.kFakeSMCFrequencySensor, 0⟩] := by
    rfl
  rw [hs]
  simp

/-! ## The remaining claims: package decode and tick frame -/

/-- The package decode on naturals: masking the 64-bit difference with 0x7F is the
difference of `tjmax[0]` and the reading taken modulo 128. -/
theorem package_mask_eq (t raw : Nat) (hraw : raw < 2 ^ 64) :
    (((t + 2 ^ 64 - (raw >>> 16)) % 2 ^ 64 &&& 0x7F : ℕ) : ℤ)
      = ((t : ℤ) - (((raw >>> 16) &&& 0x7F : ℕ) : ℤ)) % 128 := by
  have h1 : (t + 2 ^ 64 - (raw >>> 16)) % 2 ^ 64 &&& 0x7F
      = (t + 2 ^ 64 - (raw >>> 16)) % 2 ^ 64 % 2 ^ 7 := Nat.and_pow_two_sub_one_eq_mod _ 7
  have h2 : (raw >>> 16) &&& 0x7F = (raw >>> 16) % 2 ^ 7 := Nat.and_pow_two_sub_one_eq_mod _ 7
  have h3 : raw >>> 16 = raw / 2 ^ 16 := Nat.shiftRight_eq_div_pow raw 16
  rw [h1, h2, h3]
  omega

/-- C26: for every package-thermal-status value `raw` and every `tjmax[0]`, the
package-temperature decode returns `((tjmax[0] - (raw >> 16)) mod 2^64) & 0x7F`; the value
lies in 0..127, and it equals `tjmax[0] - ((raw >> 16) & 0x7F)` if and only if that
difference lies in 0..127. -/
theorem C26_package_decode_value (k : Constants) (info : CpuidInfo) (time : ℚ) (w : World) :
    (CPUSensors.getSensorValue k info time
        { group := .kCPUSensorsPackageThermalSensor, index := 0 } w).1
      = ((((((w.self.tjmax 0 : ℤ)
            - ((rdmsr64 w.m w.m.current .MSR_IA32_PACKAGE_THERM_STATUS >>> 16 : ℕ) : ℤ))
            % 2 ^ 64).toNat &&& 0x7F : ℕ) : ℤ) : ℚ) ∧
    (0 : ℚ) ≤ (CPUSensors.getSensorValue k info time
        { group := .kCPUSensorsPackageThermalSensor, index := 0 } w).1 ∧
    (CPUSensors.getSensorValue k info time
        { group := .kCPUSensorsPackageThermalSensor, index := 0 } w).1 ≤ 127 ∧
    ((CPUSensors.getSensorValue k info time
        { group := .kCPUSensorsPackageThermalSensor, index := 0 } w).1
      = ((((w.self.tjmax 0 : ℤ)
            - (((rdmsr64 w.m w.m.current .MSR_IA32_PACKAGE_THERM_STATUS >>> 16) &&& 0x7F : ℕ)
                : ℤ) : ℤ)) : ℚ)
      ↔ 0 ≤ (w.self.tjmax 0 : ℤ)
            - (((rdmsr64 w.m w.m.current .MSR_IA32_PACKAGE_THERM_STATUS >>> 16) &&& 0x7F : ℕ)
                : ℤ)
        ∧ (w.self.tjmax 0 : ℤ)
            - (((rdmsr64 w.m w.m.current .MSR_IA32_PACKAGE_THERM_STATUS >>> 16) &&& 0x7F : ℕ)
                : ℤ) ≤ 127) := by
  have hraw : rdmsr64 w.m w.m.current .MSR_IA32_PACKAGE_THERM_STATUS < 2 ^ 64 := by
    unfold rdmsr64; exact Nat.mod_lt _ (by norm_num)
  have hm := package_mask_eq (w.self.tjmax 0) _ hraw
  have hval : (CPUSensors.getSensorValue k info time
      { group := .kCPUSensorsPackageThermalSensor, index := 0 } w).1
      = ((((w.self.tjmax 0 + 2 ^ 64
            - (rdmsr64 w.m w.m.current .MSR_IA32_PACKAGE_THERM_STATUS >>> 16)) % 2 ^ 64
            &&& 0x7F : ℕ) : ℤ) : ℚ) := by
    simp only [CPUSensors.getSensorValue]
    norm_cast
  have hsame : (w.self.tjmax 0 + 2 ^ 64
      - (rdmsr64 w.m w.m.current .MSR_IA32_PACKAGE_THERM_STATUS >>> 16)) % 2 ^ 64
      = (((w.self.tjmax 0 : ℤ)
          - ((rdmsr64 w.m w.m.current .MSR_IA32_PACKAGE_THERM_STATUS >>> 16 : ℕ) : ℤ))
          % 2 ^ 64).toNat := by
    have h3 : rdmsr64 w.m w.m.current .MSR_IA32_PACKAGE_THERM_STATUS >>> 16
        = rdmsr64 w.m w.m.current .MSR_IA32_PACKAGE_THERM_STATUS / 2 ^ 16 :=
      Nat.shiftRight_eq_div_pow _ 16
    rw [h3]
    omega
  refine ⟨?_, ?_, ?_, ?_⟩
  · rw [hval, hsame]
  · rw [hval, hm]
    exact_mod_cast Int.emod_nonneg _ (by norm_num)
  · rw [hval, hm]
    have : ((w.self.tjmax 0 : ℤ)
        - (((rdmsr64 w.m w.m.current .MSR_IA32_PACKAGE_THERM_STATUS >>> 16) &&& 0x7F : ℕ) : ℤ))
        % 128 ≤ 127 := by omega
    exact_mod_cast this
  · rw [hval, hm]
    constructor
    · intro h
      have h' : ((w.self.tjmax 0 : ℤ)
          - (((rdmsr64 w.m w.m.current .MSR_IA32_PACKAGE_THERM_STATUS >>> 16) &&& 0x7F : ℕ)
              : ℤ)) % 128
          = (w.self.tjmax 0 : ℤ)
          - (((rdmsr64 w.m w.m.current .MSR_IA32_PACKAGE_THERM_STATUS >>> 16) &&& 0x7F : ℕ)
              : ℤ) := by exact_mod_cast h
      omega
    · rintro ⟨h1, h2⟩
      have h' : ((w.self.tjmax 0 : ℤ)
          - (((rdmsr64 w.m w.m.current .MSR_IA32_PACKAGE_THERM_STATUS >>> 16) &&& 0x7F : ℕ)
              : ℤ)) % 128
          = (w.self.tjmax 0 : ℤ)
          - (((rdmsr64 w.m w.m.current .MSR_IA32_PACKAGE_THERM_STATUS >>> 16) &&& 0x7F : ℕ)
              : ℤ) := by omega
      exact_mod_cast h'

/-- The tick leaves the active profile, both collections and every profile object as they
were, and returns success. -/
theorem tick_frame {σ : Type} (ev : Evaluator σ) (self : ACPIProbe) (now : ℚ) (fw : σ) :
    (ACPIProbe.woorkloopTimerEvent ev self now fw).self.activeProfile = self.activeProfile ∧
    (ACPIProbe.woorkloopTimerEvent ev self now fw).self.profiles = self.profiles ∧
    (ACPIProbe.woorkloopTimerEvent ev self now fw).self.profileList = self.profileList ∧
    (ACPIProbe.woorkloopTimerEvent ev self now fw).self.heap = self.heap ∧
    (ACPIProbe.woorkloopTimerEvent ev self now fw).self.heapNext = self.heapNext ∧
    (ACPIProbe.woorkloopTimerEvent ev self now fw).ret = kIOReturnSuccess := by
  cases hp : self.activeProfile with
  | none => simp [ACPIProbe.woorkloopTimerEvent, hp]
  | some p =>
    by_cases hg : ACPIProbe.gateOpen (self.heap p) now
    · rw [tick_gate_open ev self now fw p hp hg]
      exact ⟨hp, rfl, rfl, rfl, rfl, rfl⟩
    · rw [tick_gate_closed ev self now fw p hp hg]
      exact ⟨hp, rfl, rfl, rfl, rfl, rfl⟩

/-- The four outcomes of `activateProfile`. -/
theorem activateProfile_cases (self : ACPIProbe) (name : String) (now : ℚ) :
    (self.profiles = none ∧ self.activateProfile name now = (kIOReturnAborted, self)) ∨
    (∃ d, self.profiles = some d ∧ d.getCount = 0 ∧
      self.activateProfile name now = (kIOReturnAborted, self)) ∨
    (∃ d, self.profiles = some d ∧ d.getCount ≠ 0 ∧ d.getObject name = none ∧
      self.activateProfile name now = (kIOReturnBadArgument, self)) ∨
    (∃ d p, self.profiles = some d ∧ d.getCount ≠ 0 ∧ d.getObject name = some p ∧
      self.activateProfile name now = (kIOReturnSuccess,
        { self with
          activeProfile := some p
          heap := fun q =>
            if q = p then { self.heap p with startedAt := now } else self.heap q })) := by
  cases hd : self.profiles with
  | none =>
    left
    exact ⟨rfl, by simp [ACPIProbe.activateProfile, hd]⟩
  | some d =>
    right
    by_cases hc : d.getCount = 0
    · left
      exact ⟨d, rfl, hc, by simp [ACPIProbe.activateProfile, hd, hc]⟩
    · right
      cases hl : d.getObject name with
      | none =>
        left
        exact ⟨d, rfl, hc, hl, by simp [ACPIProbe.activateProfile, hd, hc, hl]⟩
      | some p =>
        right
        exact ⟨d, p, rfl, hc, hl, by simp [ACPIProbe.activateProfile, hd, hc, hl]⟩

/-- Whether `activateProfile` succeeds depends on the name-keyed collection only. -/
theorem activateProfile_success_iff (self : ACPIProbe) (name : String) (now : ℚ) :
    (self.activateProfile name now).1 = kIOReturnSuccess ↔
      ∃ d p, self.profiles = some d ∧ d.getCount ≠ 0 ∧ d.getObject name = some p := by
  rcases activateProfile_cases self name now with ⟨hd, e⟩ | ⟨d, hd, hc, e⟩ | ⟨d, hd, hc, hq, e⟩
    | ⟨d, p, hd, hc, hq, e⟩
  · rw [e]; simp [hd, kIOReturnAborted, kIOReturnSuccess]
  · rw [e]; simp [hd, hc, kIOReturnAborted, kIOReturnSuccess]
  · rw [e]; simp [hd, hq, kIOReturnBadArgument, kIOReturnSuccess]
  · rw [e]; simp [hd, hc, hq]

/-- An `activateProfile` call that does not succeed leaves the scheduler as it was. -/
theorem activateProfile_failure_frame (self : ACPIProbe) (name : String) (now : ℚ)
    (h : (self.activateProfile name now).1 ≠ kIOReturnSuccess) :
    (self.activateProfile name now).2 = self := by
  rcases activateProfile_cases self name now with ⟨hd, e⟩ | ⟨d, hd, hc, e⟩ | ⟨d, hd, hc, hq, e⟩
    | ⟨d, p, hd, hc, hq, e⟩
  · rw [e]
  · rw [e]
  · rw [e]
  · rw [e] at h; exact absurd rfl h

/-- A closed timeout test stays closed at every later clock reading. -/
theorem gate_stays_closed (profile : ACPIProbeProfile) (now t : ℚ) (hle : now ≤ t)
    (h : ¬ ACPIProbe.gateOpen profile now) : ¬ ACPIProbe.gateOpen profile t := by
  unfold ACPIProbe.gateOpen at h ⊢
  simp only [not_or, not_lt] at h ⊢
  exact ⟨h.1, le_trans h.2 (by linarith)⟩

theorem applyOps_keepsExpired {σ : Type} (ev : Evaluator σ) (self : ACPIProbe) (now : ℚ)
    (ops : List SchedulerOp) (st : ACPIProbe × σ)
    (hops : ∀ op ∈ ops, op.keepsExpired self now)
    (hst : st.1.activeProfile = self.activeProfile ∧ st.1.profiles = self.profiles
      ∧ st.1.heap = self.heap) :
    (applyOps ev ops st).1.activeProfile = self.activeProfile ∧
    (applyOps ev ops st).1.profiles = self.profiles ∧
    (applyOps ev ops st).1.heap = self.heap := by
  induction ops generalizing st with
  | nil => exact hst
  | cons op rest ih =>
    unfold applyOps at ih ⊢
    rw [List.foldl_cons]
    apply ih _ (fun o ho => hops o (List.mem_cons_of_mem _ ho))
    have hop := hops op (List.mem_cons_self _ _)
    obtain ⟨h1, h2, h3⟩ := hst
    cases op with
    | tick t =>
      obtain ⟨f1, f2, -, f4, -, -⟩ := tick_frame ev st.1 t st.2
      exact ⟨by simp only [applyOp]; rw [f1, h1], by simp only [applyOp]; rw [f2, h2],
        by simp only [applyOp]; rw [f4, h3]⟩
    | activate name t =>
      have hfail : (st.1.activateProfile name t).1 ≠ kIOReturnSuccess := by
        intro hs
        apply hop
        rw [activateProfile_success_iff] at hs ⊢
        rw [h2] at hs
        exact hs
      have := activateProfile_failure_frame st.1 name t hfail
      simp only [applyOp]
      rw [this]
      exact ⟨h1, h2, h3⟩

/-- On the started sample scheduler, whose profile has timeout 1000 and no stamp, the timeout
test fails at clock reading 1000000. -/
theorem sampleStarted_expired : ¬ ACPIProbe.gateOpen (sampleStarted.heap 0) 1000000 := by
  unfold ACPIProbe.gateOpen
  simp only [not_or, not_lt]
  refine ⟨by decide, ?_⟩
  show ((1000 * 1000 % 2 ^ 64 : ℕ) : ℚ) ≤ (1000000 : ℚ) - 0
  norm_num

/-- C27: a tick never changes the active profile, the two profile collections or any profile
object (so no `startedAt` stamp), and always returns success; consequently, for an active
profile with non-zero timeout, once the timeout test fails at clock reading `now` (the tick
takes the recheck path), then after every sequence of later ticks at clock readings not
before `now` and of `activateProfile` calls that do not succeed, a tick at a clock reading
not before `now` takes the recheck path again: no probe evaluated, no batch published, timer
re-armed for 5000 ms. -/
theorem C27_tick_frame_and_expiry_persists {σ : Type} (ev : Evaluator σ) (self : ACPIProbe)
    (now : ℚ) (fw : σ) :
    ((ACPIProbe.woorkloopTimerEvent ev self now fw).self.activeProfile = self.activeProfile ∧
      (ACPIProbe.woorkloopTimerEvent ev self now fw).self.profiles = self.profiles ∧
      (ACPIProbe.woorkloopTimerEvent ev self now fw).self.profileList = self.profileList ∧
      (ACPIProbe.woorkloopTimerEvent ev self now fw).self.heap = self.heap ∧
      (ACPIProbe.woorkloopTimerEvent ev self now fw).ret = kIOReturnSuccess) ∧
    (∀ p, self.activeProfile = some p → (self.heap p).timeout ≠ 0 →
      ¬ ACPIProbe.gateOpen (self.heap p) now →
      ∀ ops : List SchedulerOp, (∀ op ∈ ops, op.keepsExpired self now) →
      ∀ t, now ≤ t →
        (ACPIProbe.woorkloopTimerEvent ev (applyOps ev ops (self, fw)).1 t
            (applyOps ev ops (self, fw)).2).calls = [] ∧
        (ACPIProbe.woorkloopTimerEvent ev (applyOps ev ops (self, fw)).1 t
            (applyOps ev ops (self, fw)).2).published = none ∧
        (ACPIProbe.woorkloopTimerEvent ev (applyOps ev ops (self, fw)).1 t
            (applyOps ev ops (self, fw)).2).armedMS = 5000) := by
  obtain ⟨f1, f2, f3, f4, -, f6⟩ := tick_frame ev self now fw
  refine ⟨⟨f1, f2, f3, f4, f6⟩, ?_⟩
  intro p hp _ hclosed ops hops t ht
  obtain ⟨h1, -, h3⟩ := applyOps_keepsExpired ev self now ops (self, fw) hops ⟨rfl, rfl, rfl⟩
  have hp' : (applyOps ev ops (self, fw)).1.activeProfile = some p := by rw [h1, hp]
  have hg : ¬ ACPIProbe.gateOpen ((applyOps ev ops (self, fw)).1.heap p) t := by
    rw [h3]; exact gate_stays_closed _ now t ht hclosed
  rw [tick_gate_closed ev _ t _ p hp' hg]
  exact ⟨rfl, rfl, rfl⟩

/-- C27 (witness): on the started sample scheduler the timeout test fails at clock reading
1000000; after a later tick and an `activateProfile` call for the unknown name `Q`, the tick
at clock reading 1000003 evaluates no probe and arms the timer for 5000 ms. -/
theorem C27_witness :
    (ACPIProbe.woorkloopTimerEvent sampleEvaluator
        (applyOps sampleEvaluator [.tick 1000001, .activate "Q" 1000002] (sampleStarted, ())).1
        1000003
        (applyOps sampleEvaluator [.tick 1000001, .activate "Q" 1000002]
          (sampleStarted, ())).2).calls = [] ∧
    (ACPIProbe.woorkloopTimerEvent sampleEvaluator
        (applyOps sampleEvaluator [.tick 1000001, .activate "Q" 1000002] (sampleStarted, ())).1
        1000003
        (applyOps sampleEvaluator [.tick 1000001, .activate "Q" 1000002]
          (sampleStarted, ())).2).armedMS = 5000 := by
  have h := (C27_tick_frame_and_expiry_persists sampleEvaluator sampleStarted 1000000 ()).2
    0 rfl (by decide) sampleStarted_expired [.tick 1000001, .activate "Q" 1000002]
    (by
      intro op hop
      simp only [List.mem_cons, List.mem_singleton, List.not_mem_nil, or_false] at hop
      rcases hop with h | h
      · subst h
        show (1000000 : ℚ) ≤ 1000001
        norm_num
      · subst h
        show (sampleStarted.activateProfile "Q" 1000002).1 ≠ kIOReturnSuccess
        decide)
    1000003 (by norm_num)
  exact ⟨h.1, h.2.2⟩

/-! ## The remaining claims: the first profile and its timeout -/

/-- A profile that `init` filled keeps the `startedAt` of the object it was called on. -/
theorem init_startedAt (this p : ACPIProbeProfile) (aName : Option String)
    (aMethods : List String) (aInterval aTimeout : Option Nat) (aVerbose : Option Bool)
    (h : this.init aName aMethods aInterval aTimeout aVerbose = some p) :
    p.startedAt = this.startedAt := by
  cases aName with
  | none => simp [ACPIProbeProfile.init] at h
  | some nm =>
    cases aInterval with
    | none => simp [ACPIProbeProfile.init] at h
    | some iv =>
      simp only [ACPIProbeProfile.init] at h
      split at h
      · exact absurd h (by simp)
      · rw [Option.some.injEq] at h
        rw [← h]

/-- A profile that `withParameters` initialised has no `startedAt` stamp. -/
theorem withParameters_valid_startedAt (name : Option String) (methods : Option (List String))
    (interval timeout : Option Nat) (verbose : Option Bool) (profile : ACPIProbeProfile)
    (h : ACPIProbeProfile.withParameters name methods interval timeout verbose
      = .valid profile) : profile.startedAt = 0 := by
  cases methods with
  | none => simp [ACPIProbeProfile.withParameters] at h
  | some ms =>
    cases interval with
    | none => simp [ACPIProbeProfile.withParameters] at h
    | some iv =>
      simp only [ACPIProbeProfile.withParameters] at h
      split at h
      · cases h
      · cases hi : ACPIProbeProfile.zero.init name ms (some iv) timeout verbose with
        | none => rw [hi] at h; cases h
        | some p =>
          rw [hi] at h
          cases h
          exact init_startedAt _ _ _ _ _ _ _ hi

theorem addProfile_unstamped (self self1 : ACPIProbe) (name : Option String)
    (methods : Option (List String)) (interval timeout : Option Nat) (verbose : Option Bool)
    (hu : self.Unstamped) (h : self.addProfile name methods interval timeout verbose = .ok self1) :
    self1.Unstamped := by
  unfold ACPIProbe.addProfile at h
  cases hw : ACPIProbeProfile.withParameters name methods interval timeout verbose with
  | null =>
    rw [hw] at h
    cases h
    exact hu
  | released =>
    rw [hw] at h
    cases h
  | valid profile =>
    rw [hw] at h
    have hz := withParameters_valid_startedAt _ _ _ _ _ _ hw
    cases name with
    | none => simp at h
    | some nm =>
      cases hd : self.profiles with
      | none => simp [hd] at h
      | some d =>
        cases hl : self.profileList with
        | none => simp [hd, hl] at h
        | some l =>
          simp only [hd, hl] at h
          cases h
          intro q
          show (if q = self.heapNext then profile else self.heap q).startedAt = 0
          by_cases hq : q = self.heapNext
          · rw [if_pos hq]; exact hz
          · rw [if_neg hq]; exact hu q

/-- A property of the scheduler that every accepted `addProfile` call keeps is kept by the
whole loading of `start`. -/
theorem loadList_keeps {σ : Type} (P : ACPIProbe → Prop)
    (hadd : ∀ (s s1 : ACPIProbe) name methods interval timeout verbose, P s →
      s.addProfile name methods interval timeout verbose = .ok s1 → P s1)
    (ev : Evaluator σ) (items : List OSObject) (acc acc1 : ACPIProbe × σ) (hp : P acc.1)
    (h : ACPIProbe.loadList ev items acc = .ok acc1) : P acc1.1 := by
  induction items generalizing acc with
  | nil =>
    simp only [ACPIProbe.loadList] at h
    cases h
    exact hp
  | cons item rest ih =>
    simp only [ACPIProbe.loadList] at h
    cases he : ACPIProbe.loadListEntry ev acc item with
    | error f => rw [he] at h; cases h
    | ok acc2 =>
      rw [he] at h
      apply ih acc2 _ h
      unfold ACPIProbe.loadListEntry at he
      split at he
      · split at he
        · split at he
          · split at he
            · rename_i self1 hadd1
              cases he
              exact hadd _ _ _ _ _ _ _ hp hadd1
            · cases he
          · cases he; exact hp
        · cases he; exact hp
      · cases he; exact hp

theorem start_keeps {σ : Type} (P : ACPIProbe → Prop)
    (hadd : ∀ (s s1 : ACPIProbe) name methods interval timeout verbose, P s →
      s.addProfile name methods interval timeout verbose = .ok s1 → P s1)
    (ev : Evaluator σ) (env : StartEnv) (fw fw1 : σ) (s : ACPIProbe)
    (h0 : P { ACPIProbe.fresh with profiles := some [], profileList := some [] })
    (h : ACPIProbe.start ev env ACPIProbe.fresh fw = .ok (true, s, fw1)) :
    ∃ s2 : ACPIProbe, P s2 ∧ ACPIProbe.activateFirst env s2 = .ok (true, s) := by
  unfold ACPIProbe.start at h
  split at h
  · cases h
  · split at h
    · cases h
    · simp only [] at h
      cases hdev : ACPIProbe.loadFromDevice ev
          { ACPIProbe.fresh with profiles := some [], profileList := some [] } fw with
      | error f => rw [hdev] at h; cases h
      | ok acc1 =>
        obtain ⟨s1, fwa⟩ := acc1
        rw [hdev] at h
        simp only [] at h
        have h1 : P s1 := by
          unfold ACPIProbe.loadFromDevice at hdev
          split at hdev
          · split at hdev
            · split at hdev
              · exact loadList_keeps P hadd ev _ _ _ h0 hdev
              · cases hdev; exact h0
            · cases hdev; exact h0
          · cases hdev; exact h0
        cases hcfg : ACPIProbe.loadFromConfiguration env s1 with
        | error f => rw [hcfg] at h; cases h
        | ok s2 =>
          rw [hcfg] at h
          simp only [] at h
          have h2 : P s2 := by
            unfold ACPIProbe.loadFromConfiguration at hcfg
            split at hcfg
            · split at hcfg
              · split at hcfg
                · exact hadd _ _ _ _ _ _ _ h1 hcfg
                · cases hcfg; exact h1
              · cases hcfg; exact h1
            · cases hcfg
          cases hact : ACPIProbe.activateFirst env s2 with
          | error f => rw [hact] at h; cases h
          | ok r =>
            obtain ⟨ret, s3⟩ := r
            rw [hact] at h
            simp only [Except.ok.injEq, Prod.mk.injEq] at h
            obtain ⟨hret, hs, -⟩ := h
            rw [hret, hs] at hact
            exact ⟨s2, h2, hact⟩

/-- The end of `start` leaves every profile object as it was. -/
theorem activateFirst_heap (env : StartEnv) (s2 s : ACPIProbe) (ret : Bool)
    (h : ACPIProbe.activateFirst env s2 = .ok (ret, s)) : s.heap = s2.heap := by
  unfold ACPIProbe.activateFirst at h
  split at h
  · split at h
    · split at h
      · cases h; rfl
      · split at h
        · cases h; rfl
        · split at h
          · cases h; rfl
          · cases h; rfl
    · cases h; rfl
  · cases h

/-- After a successful `start` on a fresh scheduler no profile carries a stamp. -/
theorem start_unstamped {σ : Type} (ev : Evaluator σ) (env : StartEnv) (fw fw1 : σ)
    (s : ACPIProbe) (h : ACPIProbe.start ev env ACPIProbe.fresh fw = .ok (true, s, fw1)) :
    s.Unstamped := by
  obtain ⟨s2, hu, hact⟩ := start_keeps ACPIProbe.Unstamped addProfile_unstamped ev env fw fw1 s
    (fun _ => rfl) h
  intro q
  rw [activateFirst_heap env s2 s true hact]
  exact hu q

/-- Runs of the timer handler alone leave the active profile and every profile object as
they were. -/
theorem applyOps_ticks_frame {σ : Type} (ev : Evaluator σ) (ops : List SchedulerOp)
    (st : ACPIProbe × σ) (hops : ∀ op ∈ ops, op.isTick = true) :
    (applyOps ev ops st).1.activeProfile = st.1.activeProfile ∧
    (applyOps ev ops st).1.heap = st.1.heap := by
  induction ops generalizing st with
  | nil => exact ⟨rfl, rfl⟩
  | cons op rest ih =>
    have hrest := ih (applyOp ev st op) (fun o ho => hops o (List.mem_cons_of_mem _ ho))
    have hop := hops op (List.mem_cons_self _ _)
    unfold applyOps at hrest ⊢
    rw [List.foldl_cons, hrest.1, hrest.2]
    cases op with
    | tick t =>
      obtain ⟨f1, -, -, f4, -, -⟩ := tick_frame ev st.1 t st.2
      exact ⟨f1, f4⟩
    | activate name t => simp [SchedulerOp.isTick] at hop

/-- The timeout test on a profile without a stamp passes at every clock reading below the
timeout, when the product `timeout * 1000` does not wrap. -/
theorem gate_unstamped_open (profile : ACPIProbeProfile) (now : ℚ)
    (hz : profile.startedAt = 0)
    (h : profile.timeout = 0 ∨
      (profile.timeout * 1000 < 2 ^ 64 ∧ now < (profile.timeout : ℚ))) :
    ACPIProbe.gateOpen profile now := by
  unfold ACPIProbe.gateOpen
  rcases h with h0 | ⟨hw, hlt⟩
  · exact Or.inl h0
  · right
    rw [hz, Nat.mod_eq_of_lt hw, sub_zero]
    have hle : (profile.timeout : ℚ) ≤ ((profile.timeout * 1000 : ℕ) : ℚ) := by
      have : profile.timeout ≤ profile.timeout * 1000 := by omega
      exact_mod_cast this
    linarith

/-- The timeout test on a profile without a stamp and with a non-zero timeout fails at every
clock reading from `2 ^ 64` on. -/
theorem gate_unstamped_closed (profile : ACPIProbeProfile) (now : ℚ)
    (hz : profile.startedAt = 0) (ht : profile.timeout ≠ 0) (hnow : (2 : ℚ) ^ 64 ≤ now) :
    ¬ ACPIProbe.gateOpen profile now := by
  unfold ACPIProbe.gateOpen
  simp only [not_or, not_lt]
  refine ⟨ht, ?_⟩
  rw [hz, sub_zero]
  have hlt : profile.timeout * 1000 % 2 ^ 64 < 2 ^ 64 := Nat.mod_lt _ (by norm_num)
  have hq : ((profile.timeout * 1000 % 2 ^ 64 : ℕ) : ℚ) < (2 : ℚ) ^ 64 := by
    exact_mod_cast hlt
  linarith

/-- C22 (counterexample): `start` loads profile `P` with timeout 1000 and makes it active
without a call of `activateProfile`; its `startedAt` is 0.  The tick at clock reading
1000000 evaluates no probe, publishes nothing and arms the timer for the 5000 ms recheck:
the timeout test is applied, measured from clock reading 0. -/
theorem C22_counterexample :
    ACPIProbe.start sampleEvaluator sampleAcpiEnv ACPIProbe.fresh ()
      = .ok (true, sampleStarted, ()) ∧
    sampleStarted.activeProfile = some 0 ∧
    (sampleStarted.heap 0).timeout = 1000 ∧
    (sampleStarted.heap 0).startedAt = 0 ∧
    (ACPIProbe.woorkloopTimerEvent sampleEvaluator sampleStarted 1000000 ()).calls = [] ∧
    (ACPIProbe.woorkloopTimerEvent sampleEvaluator sampleStarted 1000000 ()).published = none ∧
    (ACPIProbe.woorkloopTimerEvent sampleEvaluator sampleStarted 1000000 ()).armedMS = 5000 := by
  refine ⟨rfl, rfl, rfl, rfl, ?_, ?_, ?_⟩ <;>
    rw [tick_gate_closed _ _ _ _ 0 rfl sampleStarted_expired]

/-- C22 (amended claim): the profile that a successful `start` on a fresh scheduler makes
active has `startedAt = 0`, and as long as only ticks run it stays active and unstamped.
The timeout test is then measured from clock reading 0, not disabled: a tick at a clock
reading below the timeout (or with timeout 0) evaluates the profile's probes, publishes a
batch and re-arms the timer for the polling interval; with a non-zero timeout there is a
clock reading from which on every tick evaluates nothing, publishes nothing and arms the
timer for the 5000 ms recheck. -/
theorem C22_first_profile_gate_counts_from_zero {σ : Type} (ev : Evaluator σ) (env : StartEnv)
    (fw fw1 : σ) (s : ACPIProbe)
    (h : ACPIProbe.start ev env ACPIProbe.fresh fw = .ok (true, s, fw1))
    (p : Nat) (hp : s.activeProfile = some p)
    (ops : List SchedulerOp) (hops : ∀ op ∈ ops, op.isTick = true) :
    (applyOps ev ops (s, fw1)).1.activeProfile = some p ∧
    (applyOps ev ops (s, fw1)).1.heap p = s.heap p ∧
    (s.heap p).startedAt = 0 ∧
    (∀ now : ℚ,
      ((s.heap p).timeout = 0 ∨
        ((s.heap p).timeout * 1000 < 2 ^ 64 ∧ now < ((s.heap p).timeout : ℚ))) →
      (ACPIProbe.woorkloopTimerEvent ev (applyOps ev ops (s, fw1)).1 now
          (applyOps ev ops (s, fw1)).2).calls
        = invocations ev (s.heap p).methods (applyOps ev ops (s, fw1)).2 ∧
      (ACPIProbe.woorkloopTimerEvent ev (applyOps ev ops (s, fw1)).1 now
          (applyOps ev ops (s, fw1)).2).published.isSome = true ∧
      (ACPIProbe.woorkloopTimerEvent ev (applyOps ev ops (s, fw1)).1 now
          (applyOps ev ops (s, fw1)).2).armedMS = toUInt32 ((s.heap p).interval * 1000)) ∧
    ((s.heap p).timeout ≠ 0 → ∃ t0 : ℚ, ∀ now : ℚ, t0 ≤ now →
      (ACPIProbe.woorkloopTimerEvent ev (applyOps ev ops (s, fw1)).1 now
          (applyOps ev ops (s, fw1)).2).calls = [] ∧
      (ACPIProbe.woorkloopTimerEvent ev (applyOps ev ops (s, fw1)).1 now
          (applyOps ev ops (s, fw1)).2).published = none ∧
      (ACPIProbe.woorkloopTimerEvent ev (applyOps ev ops (s, fw1)).1 now
          (applyOps ev ops (s, fw1)).2).armedMS = 5000) := by
  obtain ⟨hact, hheap⟩ := applyOps_ticks_frame ev ops (s, fw1) hops
  have hact1 : (applyOps ev ops (s, fw1)).1.activeProfile = some p := by rw [hact]; exact hp
  have hobj : (applyOps ev ops (s, fw1)).1.heap p = s.heap p := by rw [hheap]
  have hz : (s.heap p).startedAt = 0 := start_unstamped ev env fw fw1 s h p
  refine ⟨hact1, hobj, hz, ?_, ?_⟩
  · intro now hnow
    have hg : ACPIProbe.gateOpen ((applyOps ev ops (s, fw1)).1.heap p) now := by
      rw [hobj]; exact gate_unstamped_open _ _ hz hnow
    rw [tick_gate_open ev _ now _ p hact1 hg, hobj]
    refine ⟨?_, rfl, rfl⟩
    show (probeLoop ev _ _ _).calls = _
    rw [probeLoop_calls]
    rfl
  · intro ht
    refine ⟨(2 : ℚ) ^ 64, ?_⟩
    intro now hnow
    have hg : ¬ ACPIProbe.gateOpen ((applyOps ev ops (s, fw1)).1.heap p) now := by
      rw [hobj]; exact gate_unstamped_closed _ _ hz ht hnow
    rw [tick_gate_closed ev _ now _ p hact1 hg]
    exact ⟨rfl, rfl, rfl⟩

/-- C22 (witness): after the sample start and one tick, profile `P` is still active and the
tick at clock reading 3/2, below its timeout 1000, evaluates its three probes. -/
theorem C22_witness :
    (applyOps sampleEvaluator [.tick 1] (sampleStarted, ())).1.activeProfile = some 0 ∧
    ((ACPIProbe.woorkloopTimerEvent sampleEvaluator
        (applyOps sampleEvaluator [.tick 1] (sampleStarted, ())).1 (3 / 2)
        (applyOps sampleEvaluator [.tick 1] (sampleStarted, ())).2).calls.map Call.method
      = ["A", "B", "C"]) := by
  have h := C22_first_profile_gate_counts_from_zero sampleEvaluator sampleAcpiEnv () ()
    sampleStarted sample_start 0 rfl [.tick 1] (by simp [SchedulerOp.isTick])
  refine ⟨h.1, ?_⟩
  have h4 := (h.2.2.2.1 (3 / 2) (Or.inr ⟨by decide, by
    show (3 / 2 : ℚ) < ((1000 : ℕ) : ℚ)
    norm_num⟩)).1
  rw [h4, invocations_methods]
  rfl

/-! ## The remaining claims: verbose flattening -/

theorem String.take_of_length_le (s : String) (n : Nat) (h : s.length ≤ n) : s.take n = s := by
  rw [String.take_eq]
  have : s.1.take n = s.1 := List.take_of_length_le h
  rw [this]

theorem keyOf_length_ge (name : String) (path : List Nat) :
    name.length ≤ (keyOf name path).length := by
  induction path generalizing name with
  | nil => exact le_refl _
  | cons i rest ih =>
    have h := ih (name ++ "[" ++ toString i ++ "]")
    simp only [keyOf, List.foldl_cons] at h ⊢
    simp only [String.length_append] at h
    omega

/-- A key that fits in 63 characters is never cut on the way: the names `logValue` builds
with `snprintf` along the path are the full ones. -/
theorem foldl_indexedName_of_fit (name : String) (path : List Nat)
    (h : (keyOf name path).length ≤ 63) : path.foldl indexedName name = keyOf name path := by
  induction path generalizing name with
  | nil => simp only [keyOf, List.foldl_nil]
  | cons i rest ih =>
    have hge := keyOf_length_ge (name ++ "[" ++ toString i ++ "]") rest
    have hk : keyOf name (i :: rest) = keyOf (name ++ "[" ++ toString i ++ "]") rest := rfl
    rw [hk] at h ⊢
    have hcut : indexedName name i = name ++ "[" ++ toString i ++ "]" :=
      String.take_of_length_le _ _ (le_trans hge h)
    rw [List.foldl_cons, hcut]
    exact ih _ h

mutual
/-- The lines of `logValue`: one per integer leaf, in depth-first left-to-right order, keyed
by the names `snprintf` built along the path. -/
theorem logValue_leaves : (v : OSObject) → (name : String) →
    logValue name v = (leaves v).map
      (fun e => (e.1.foldl indexedName name, formatLLD (unsigned64BitValue e.2)))
  | .number v, name => by simp [logValue, leaves]
  | .string _, name => by simp [logValue, leaves]
  | .boolean _, name => by simp [logValue, leaves]
  | .array items, name => by
    simp only [logValue, leaves]
    exact logValueFrom_leaves items name 0
theorem logValueFrom_leaves : (items : List OSObject) → (name : String) → (i : Nat) →
    logValueFrom name i items = (leavesFrom i items).map
      (fun e => (e.1.foldl indexedName name, formatLLD (unsigned64BitValue e.2)))
  | [], name, i => by simp [logValueFrom, leavesFrom]
  | x :: xs, name, i => by
    simp only [logValueFrom, leavesFrom, List.map_append, List.map_map]
    rw [logValue_leaves x (indexedName name i), logValueFrom_leaves xs name (i + 1)]
    simp only [Function.comp_def, List.foldl_cons]
end

/-- With every generated key within 63 characters, `logValue` writes exactly one line per
integer leaf, in depth-first left-to-right order, keyed by the probe name followed by `[i]`
for every index on the path, with the number `%lld` prints for the leaf. -/
theorem logValue_flatten (name : String) (v : OSObject)
    (hfit : ∀ e ∈ leaves v, (keyOf name e.1).length ≤ 63) :
    logValue name v = (leaves v).map
      (fun e => (keyOf name e.1, formatLLD (unsigned64BitValue e.2))) := by
  rw [logValue_leaves]
  apply List.map_congr_left
  intro e he
  rw [foldl_indexedName_of_fit name e.1 (hfit e he)]

/-- The number `%lld` prints is the argument itself exactly below `2 ^ 63`. -/
theorem formatLLD_eq_iff (x : Nat) (hx : x < 2 ^ 64) : formatLLD x = (x : Int) ↔ x < 2 ^ 63 := by
  unfold formatLLD
  rw [Nat.mod_eq_of_lt hx]
  constructor
  · intro h
    by_contra hn
    rw [if_neg hn] at h
    omega
  · intro h
    rw [if_pos h]

/-- An absent result, a failed evaluation and a non-verbose profile write no info-log line;
a string or boolean result writes none either. -/
theorem probeStep_infoLog {σ : Type} (ev : Evaluator σ) (verbose : Bool) (st : LoopState σ)
    (method : String) :
    (probeStep ev verbose st method).infoLog = st.infoLog ++
      (match (ev st.fw method).1.2 with
        | some obj =>
          if (ev st.fw method).1.1 = kIOReturnSuccess ∧ verbose = true then logValue method obj
          else []
        | none => []) := by
  unfold probeStep
  rcases hev : ev st.fw method with ⟨⟨result, object⟩, fw1⟩
  cases object with
  | none => simp
  | some obj =>
    by_cases hr : kIOReturnSuccess = result
    · subst hr
      cases verbose <;> simp
    · have hr2 : ¬ result = kIOReturnSuccess := fun e => hr e.symm
      simp [hr, hr2]

/-- C24 (evaluation of the code at the failing input): for the integer result
18446744073709551615 of probe `A`, verbose flattening writes one line keyed `A`, and the
number on it is -1, not the leaf's value, because the unsigned 64-bit value is printed with
the signed conversion `%lld`.  Nested in sequences the same leaf gives the key `A[1][0]`
and again -1. -/
theorem C24_unsigned_leaf_printed_signed :
    leaves (.number 18446744073709551615) = [([], 18446744073709551615)] ∧
    unsigned64BitValue 18446744073709551615 = 18446744073709551615 ∧
    logValue "A" (.number 18446744073709551615) = [("A", -1)] ∧
    logValue "A" (.array [.string "x", .array [.number 18446744073709551615, .number 7]])
      = [("A[1][0]", -1), ("A[1][1]", 7)] := by
  refine ⟨by simp [leaves], by decide, ?_, ?_⟩
  · set_option maxRecDepth 100000 in rfl
  · set_option maxRecDepth 100000 in rfl

/-! ## The remaining claims: the two profile collections -/

theorem nameAt_append_left (acc : List (String × ACPIProbeProfile))
    (x : String × ACPIProbeProfile) (i : Nat) (h : i < acc.length) :
    nameAt (acc ++ [x]) i = nameAt acc i := by
  unfold nameAt
  rw [List.get?_eq_getElem?, List.get?_eq_getElem?, List.getElem?_append_left h]

theorem nameAt_append_last (acc : List (String × ACPIProbeProfile))
    (x : String × ACPIProbeProfile) : nameAt (acc ++ [x]) acc.length = some x.1 := by
  unfold nameAt
  rw [List.get?_eq_getElem?, List.getElem?_append_right (le_refl _)]
  simp

theorem nameAt_lt (acc : List (String × ACPIProbeProfile)) (i : Nat) (name : String)
    (h : nameAt acc i = some name) : i < acc.length := by
  unfold nameAt at h
  by_contra hn
  rw [List.get?_eq_getElem?, List.getElem?_eq_none (by omega)] at h
  simp at h

/-- The most recent call named `name` after one more accepted call. -/
theorem lastNamed_append (acc : List (String × ACPIProbeProfile)) (nm : String)
    (prof : ACPIProbeProfile) (name : String) (i : Nat) :
    LastNamed (acc ++ [(nm, prof)]) name i ↔
      if nm = name then i = acc.length else LastNamed acc name i := by
  have hlast := nameAt_append_last acc (nm, prof)
  by_cases hk : nm = name
  · rw [if_pos hk]
    constructor
    · rintro ⟨hi, hno⟩
      have hlt := nameAt_lt _ _ _ hi
      rw [List.length_append, List.length_singleton] at hlt
      by_contra hne
      have hlt2 : i < acc.length := by omega
      exact hno acc.length hlt2 (by rw [hlast, ← hk])
    · intro hi
      subst hi
      refine ⟨by rw [hlast, ← hk], ?_⟩
      intro j hj hname
      have hlt := nameAt_lt _ _ _ hname
      rw [List.length_append, List.length_singleton] at hlt
      omega
  · rw [if_neg hk]
    constructor
    · rintro ⟨hi, hno⟩
      have hlt := nameAt_lt _ _ _ hi
      rw [List.length_append, List.length_singleton] at hlt
      have hlt2 : i < acc.length := by
        by_contra hne
        have : i = acc.length := by omega
        rw [this, hlast] at hi
        exact hk (Option.some.inj hi)
      rw [nameAt_append_left _ _ _ hlt2] at hi
      refine ⟨hi, ?_⟩
      intro j hj hname
      have hjlt := nameAt_lt _ _ _ hname
      exact hno j hj (by rw [nameAt_append_left _ _ _ hjlt]; exact hname)
    · rintro ⟨hi, hno⟩
      have hlt := nameAt_lt _ _ _ hi
      refine ⟨by rw [nameAt_append_left _ _ _ hlt]; exact hi, ?_⟩
      intro j hj hname
      have hjlt := nameAt_lt _ _ _ hname
      rw [List.length_append, List.length_singleton] at hjlt
      by_cases hjl : j < acc.length
      · rw [nameAt_append_left _ _ _ hjl] at hname
        exact hno j hj hname
      · have : j = acc.length := by omega
        rw [this, hlast] at hname
        exact hk (Option.some.inj hname)

/-- One `addProfile` call keeps the containers in step with the accepted calls. -/
theorem addProfile_holds (self self1 : ACPIProbe) (a : ProfileArgs) (n0 : Nat)
    (acc : List (String × ACPIProbeProfile)) (hh : self.Holds n0 acc)
    (h : self.addProfile a.name a.methods a.interval a.timeout a.verbose = .ok self1) :
    self1.Holds n0 (acc ++ a.accepted.toList) := by
  unfold ACPIProbe.addProfile at h
  unfold ProfileArgs.accepted
  cases hw : ACPIProbeProfile.withParameters a.name a.methods a.interval a.timeout a.verbose with
  | null =>
    rw [hw] at h
    cases h
    simpa using hh
  | released =>
    rw [hw] at h
    cases h
  | valid profile =>
    rw [hw] at h
    obtain ⟨hnext, hlist, hheap, d, hd, hcount, hname⟩ := hh
    cases hn : a.name with
    | none => rw [hn] at h; simp at h
    | some nm =>
      rw [hn] at h
      simp only [hd, hlist] at h
      cases h
      simp only [Option.toList_some]
      refine ⟨?_, ?_, ?_, d.setObject nm self.heapNext, rfl, ?_, ?_⟩
      · show self.heapNext + 1 = n0 + (acc ++ [(nm, profile)]).length
        rw [List.length_append, List.length_singleton, hnext]
        omega
      · show some (List.range' n0 acc.length ++ [self.heapNext])
          = some (List.range' n0 (acc ++ [(nm, profile)]).length)
        rw [List.length_append, List.length_singleton, List.range'_concat, hnext]
        simp
      · intro i nm1 prof hi
        show (if n0 + i = self.heapNext then profile else self.heap (n0 + i)) = prof
        rw [List.get?_eq_getElem?] at hi
        by_cases hlt : i < acc.length
        · rw [List.getElem?_append_left hlt] at hi
          rw [if_neg (by omega)]
          exact hheap i nm1 prof (by rw [List.get?_eq_getElem?]; exact hi)
        · have hlen : (acc ++ [(nm, profile)]).length = acc.length + 1 := by simp
          have hilt : i < (acc ++ [(nm, profile)]).length := by
            by_contra hge
            rw [List.getElem?_eq_none (by omega)] at hi
            cases hi
          have hie : i = acc.length := by omega
          subst hie
          rw [List.getElem?_append_right (le_refl _)] at hi
          simp at hi
          rw [if_pos (by omega)]
          exact hi.2
      · constructor
        · intro h0; exact absurd h0 (OSDictionary.setObject_count_ne_zero d nm _)
        · intro h0; simp at h0
      · intro name q
        rw [OSDictionary.getObject_setObject]
        by_cases hk : nm = name
        · rw [if_pos hk]
          constructor
          · intro hq
            refine ⟨acc.length, by rw [← Option.some.inj hq, hnext], ?_⟩
            rw [lastNamed_append, if_pos hk]
          · rintro ⟨i, hq, hlast⟩
            rw [lastNamed_append, if_pos hk] at hlast
            rw [hq, hlast, hnext]
        · rw [if_neg hk, hname]
          constructor
          · rintro ⟨i, hq, hlast⟩
            exact ⟨i, hq, by rw [lastNamed_append, if_neg hk]; exact hlast⟩
          · rintro ⟨i, hq, hlast⟩
            rw [lastNamed_append, if_neg hk] at hlast
            exact ⟨i, hq, hlast⟩

/-- A sequence of `addProfile` calls that ends without a fault keeps the containers in step
with the accepted calls. -/
theorem addProfiles_holds (calls : List ProfileArgs) (self self1 : ACPIProbe) (n0 : Nat)
    (acc : List (String × ACPIProbeProfile)) (hh : self.Holds n0 acc)
    (h : self.addProfiles calls = .ok self1) :
    self1.Holds n0 (acc ++ acceptedCalls calls) := by
  induction calls generalizing self acc with
  | nil =>
    simp only [ACPIProbe.addProfiles] at h
    cases h
    simpa [acceptedCalls] using hh
  | cons a rest ih =>
    simp only [ACPIProbe.addProfiles] at h
    cases hs : self.addProfile a.name a.methods a.interval a.timeout a.verbose with
    | error f => rw [hs] at h; cases h
    | ok s1 =>
      rw [hs] at h
      have h1 := ih s1 (acc ++ a.accepted.toList) (addProfile_holds self s1 a n0 acc hh hs) h
      have he : acc ++ a.accepted.toList ++ acceptedCalls rest
          = acc ++ acceptedCalls (a :: rest) := by
        unfold acceptedCalls
        rw [List.filterMap_cons]
        cases a.accepted <;> simp
      rw [← he]
      exact h1

/-- The containers as `start` creates them hold no call. -/
theorem holds_empty (self : ACPIProbe) (hp : self.profiles = some [])
    (hl : self.profileList = some []) : self.Holds self.heapNext [] := by
  refine ⟨rfl, hl, ?_, [], hp, by simp [OSDictionary.getCount], ?_⟩
  · intro i nm prof hi
    simp at hi
  · intro name q
    constructor
    · intro hq
      simp [OSDictionary.getObject] at hq
    · rintro ⟨i, -, hi, -⟩
      simp [nameAt] at hi

/-- C28: a sequence of `addProfile` calls that runs without a fault on freshly created
containers (the profile of accepted call `i` is stored at pointer `heapNext + i`):
`getProfileCount` is the number of accepted calls; `getProfile(index)` returns the accepted
profiles in insertion order; `getProfile(name)` returns the profile of the most recent
accepted call with that name, and `activateProfile(name)` succeeds and makes it active.
When two accepted calls share a name the earlier profile stays in the ordered list but no
name reaches it, and if it was the first accepted one, the end of `start` makes it the
active profile. -/
theorem C28_profile_collections (calls : List ProfileArgs) (s0 s : ACPIProbe)
    (hp : s0.profiles = some []) (hl : s0.profileList = some [])
    (h : s0.addProfiles calls = .ok s) :
    s.getProfileCount = (acceptedCalls calls).length ∧
    (∀ i, s.getProfile i
      = if i < (acceptedCalls calls).length then some (s0.heapNext + i) else none) ∧
    (∀ i nm prof, (acceptedCalls calls).get? i = some (nm, prof) →
      s.heap (s0.heapNext + i) = prof) ∧
    (∀ name q, s.getProfileByName name = some q ↔
      ∃ i, q = s0.heapNext + i ∧ LastNamed (acceptedCalls calls) name i) ∧
    (∀ name q now, s.getProfileByName name = some q →
      (s.activateProfile name now).1 = kIOReturnSuccess ∧
      (s.activateProfile name now).2.activeProfile = some q) ∧
    (∀ i j name, i < j → nameAt (acceptedCalls calls) i = some name →
      nameAt (acceptedCalls calls) j = some name →
      s.getProfile i = some (s0.heapNext + i) ∧
      ∀ key, s.getProfileByName key ≠ some (s0.heapNext + i)) ∧
    (∀ env s1, acceptedCalls calls ≠ [] → ACPIProbe.activateFirst env s = .ok (true, s1) →
      s1.activeProfile = some s0.heapNext ∧ s1.getProfile 0 = some s0.heapNext ∧
      ∀ key, s1.getProfileByName key = s.getProfileByName key) := by
  have hh := addProfiles_holds calls s0 s s0.heapNext [] (holds_empty s0 hp hl) h
  rw [List.nil_append] at hh
  obtain ⟨-, hlist, hheap, d, hd, hcount, hname⟩ := hh
  have hget : ∀ i, s.getProfile i
      = if i < (acceptedCalls calls).length then some (s0.heapNext + i) else none := by
    intro i
    simp only [ACPIProbe.getProfile, hlist, List.get?_eq_getElem?]
    by_cases hi : i < (acceptedCalls calls).length
    · rw [if_pos hi, List.getElem?_eq_getElem (by simpa using hi)]
      simp
    · rw [if_neg hi, List.getElem?_eq_none (by simpa using hi)]
  have hbyname : ∀ name q, s.getProfileByName name = some q ↔
      ∃ i, q = s0.heapNext + i ∧ LastNamed (acceptedCalls calls) name i := by
    intro name q
    simp only [ACPIProbe.getProfileByName, hd]
    exact hname name q
  refine ⟨?_, hget, hheap, hbyname, ?_, ?_, ?_⟩
  · simp [ACPIProbe.getProfileCount, hlist]
  · intro name q now hq
    have hq1 : d.getObject name = some q := by
      simpa only [ACPIProbe.getProfileByName, hd] using hq
    have hc : d.getCount ≠ 0 := by
      intro h0
      obtain ⟨i, -, hi, -⟩ := (hname name q).mp hq1
      have hlt := nameAt_lt _ _ _ hi
      rw [hcount.mp h0] at hlt
      simp at hlt
    rcases activateProfile_cases s name now with ⟨hd1, e⟩ | ⟨d1, hd1, hc1, e⟩
      | ⟨d1, hd1, hc1, hq2, e⟩ | ⟨d1, p, hd1, hc1, hq2, e⟩
    · rw [hd] at hd1; cases hd1
    · rw [hd] at hd1; cases hd1; exact absurd hc1 hc
    · rw [hd] at hd1; cases hd1; rw [hq1] at hq2; cases hq2
    · rw [hd] at hd1; cases hd1; rw [hq1] at hq2; cases hq2
      rw [e]
      exact ⟨rfl, rfl⟩
  · intro i j name hij hi hj
    have hlt := nameAt_lt _ _ _ hi
    refine ⟨by rw [hget, if_pos hlt], ?_⟩
    intro key hkey
    obtain ⟨i1, hi1, hlast⟩ := (hbyname key _).mp hkey
    have hie : i1 = i := by omega
    subst hie
    have hkn : key = name := by
      have := hlast.1
      rw [hi] at this
      exact (Option.some.inj this).symm
    subst hkn
    exact hlast.2 j hij hj
  · intro env s1 hne hact
    have hc : d.getCount ≠ 0 := fun h0 => hne (hcount.mp h0)
    have hpos : 0 < (acceptedCalls calls).length := List.length_pos.mpr hne
    have h0 := hget 0
    rw [if_pos hpos] at h0
    simp only [ACPIProbe.getProfile, hlist] at h0
    unfold ACPIProbe.activateFirst at hact
    simp only [hd, hlist, hc, ne_eq, not_false_eq_true, if_true] at hact
    split at hact
    · simp at hact
    · split at hact
      · simp at hact
      · split at hact
        · simp at hact
        · simp only [Except.ok.injEq, Prod.mk.injEq, true_and] at hact
          subst hact
          refine ⟨?_, ?_, ?_⟩
          · show (List.range' s0.heapNext (acceptedCalls calls).length).get? 0 = _
            rw [h0]
            simp
          · simp only [ACPIProbe.getProfile, hlist]
            rw [h0]
            simp
          · intro key
            simp only [ACPIProbe.getProfileByName, hd]

/-- C28 (witness): of the three sample calls the second is rejected; the two accepted
profiles are both named `P`.  The count is 2, the ordered list holds pointers 0 and 1, the
name `P` resolves to pointer 1, and no name reaches pointer 0. -/
theorem C28_witness :
    ({ ACPIProbe.fresh with profiles := some [], profileList := some [] }
        : ACPIProbe).addProfiles sampleCalls = .ok sampleLoaded ∧
    sampleLoaded.getProfileCount = 2 ∧ sampleLoaded.getProfile 0 = some 0 ∧
    sampleLoaded.getProfile 1 = some 1 ∧ sampleLoaded.getProfileByName "P" = some 1 ∧
    ∀ key, sampleLoaded.getProfileByName key ≠ some 0 := by
  have h := C28_profile_collections sampleCalls
    { ACPIProbe.fresh with profiles := some [], profileList := some [] } sampleLoaded
    rfl rfl rfl
  have hacc : (acceptedCalls sampleCalls).length = 2 := by decide
  refine ⟨rfl, ?_, ?_, ?_, ?_, ?_⟩
  · rw [h.1, hacc]
  · rw [h.2.1 0, hacc]; rfl
  · rw [h.2.1 1, hacc]; rfl
  · rw [h.2.2.2.1 "P" 1]
    refine ⟨1, rfl, by decide, ?_⟩
    intro j hj hn
    have := nameAt_lt _ _ _ hn
    rw [hacc] at this
    omega
  · exact (h.2.2.2.2.2.1 0 1 "P" (by decide) (by decide) (by decide)).2

/-! ## The remaining claims: the platform identifier and the target-temperature register -/

theorem foldl_platform {α : Type} (f : CPUSensors → α → CPUSensors)
    (hf : ∀ s a, (f s a).platform = s.platform) (l : List α) (self : CPUSensors) :
    (l.foldl f self).platform = self.platform := by
  induction l generalizing self with
  | nil => rfl
  | cons a rest ih => rw [List.foldl_cons, ih, hf]

theorem addCoreThermalSensors_platform (k : Constants) (info : CpuidInfo) (self : CPUSensors) :
    (CPUSensors.addCoreThermalSensors k info self).platform = self.platform := by
  unfold CPUSensors.addCoreThermalSensors
  apply foldl_platform
  intro s a
  rfl

theorem addPackageThermalSensor_platform (env : CpuStartEnv) (info : CpuidInfo)
    (self : CPUSensors) :
    (CPUSensors.addPackageThermalSensor env info self).platform = self.platform := by
  unfold CPUSensors.addPackageThermalSensor
  cases info.cpuid_cpufamily <;> simp only [] <;> (try split) <;> rfl

theorem addMultiplierSensors_platform (info : CpuidInfo) (m : Machine) (self : CPUSensors) :
    (CPUSensors.addMultiplierSensors info m self).platform = self.platform := by
  unfold CPUSensors.addMultiplierSensors
  cases info.cpuid_cpufamily <;> simp only [] <;> (try split) <;> (try rfl)
  apply foldl_platform
  intro s a
  rfl

theorem addEnergySensors_platform (k : Constants) (info : CpuidInfo) (m : Machine)
    (self : CPUSensors) :
    (CPUSensors.addEnergySensors k info m self).platform = self.platform := by
  unfold CPUSensors.addEnergySensors
  cases info.cpuid_cpufamily <;> simp only [] <;> (try split) <;> (try split) <;>
    (try split) <;> rfl

theorem setupBusClock_platform (env : CpuStartEnv) (self : CPUSensors) :
    (CPUSensors.setupBusClock env self).platform = self.platform := by
  unfold CPUSensors.setupBusClock
  simp only []
  split <;> rfl

theorem setupPlatformKeys_platform (self : CPUSensors) :
    (CPUSensors.setupPlatformKeys self).platform = self.platform := by
  unfold CPUSensors.setupPlatformKeys
  split <;> rfl

theorem setupTjmax_platform (info : CpuidInfo) (self : CPUSensors) :
    (CPUSensors.setupTjmax info self).platform = self.platform := by
  unfold CPUSensors.setupTjmax
  cases info.cpuid_cpufamily <;> rfl

theorem readTjmaxFromMSR_platform (info : CpuidInfo) (m : Machine) (self : CPUSensors) :
    (CPUSensors.readTjmaxFromMSR info m self).platform = self.platform := by
  unfold CPUSensors.readTjmaxFromMSR
  apply foldl_platform
  intro s a
  rfl

theorem setTjmax0_platform (v : Nat) (self : CPUSensors) :
    (CPUSensors.setTjmax0 v self).platform = self.platform := rfl

theorem defaultPlatform_platform (text : String) (self : CPUSensors) :
    (CPUSensors.defaultPlatform text self).platform =
      (match self.platform with
        | some bytes => some bytes
        | none => some (platformBytes text)) := by
  unfold CPUSensors.defaultPlatform
  cases h : self.platform <;> simp [h]

/-- A `start` that returns `true` went through the `Tjmax` calculation and kept the platform
value the calculation left. -/
theorem start_true_platform (k : Constants) (env : CpuStartEnv) (info : CpuidInfo)
    (m : Machine) (self : CPUSensors) (h : (CPUSensors.start k env info m self).1 = true) :
    ∃ s2, CPUSensors.calculateTjmax k info m (CPUSensors.readConfiguration env info self)
        = some s2 ∧
      (CPUSensors.start k env info m self).2.platform = s2.platform := by
  by_cases h1 : env.superStart = true
  swap
  · simp [CPUSensors.start, h1] at h
  by_cases h2 : info.cpuid_vendor = k.CPUID_VID_INTEL
  swap
  · simp [CPUSensors.start, h1, h2] at h
  by_cases h3 : info.cpuid_features &&& k.CPUID_FEATURE_MSR = 0
  · simp [CPUSensors.start, h1, h2, h3] at h
  by_cases h4 : info.core_count = 0
  · simp [CPUSensors.start, h1, h2, h3, h4] at h
  have hchk : startChecksPass k env info := ⟨h1, h2, h3, h4⟩
  cases hc : CPUSensors.calculateTjmax k info m
      (CPUSensors.readConfiguration env info self) with
  | none =>
    rw [(start_of_checks k env info m self hchk).1 hc] at h
    cases h
  | some s2 =>
    refine ⟨s2, rfl, ?_⟩
    simp only [CPUSensors.start, h1, h2, h3, h4, hc, not_true_eq_false, if_false, ne_eq,
      not_false_eq_true]
    rw [addEnergySensors_platform, addMultiplierSensors_platform,
      addPackageThermalSensor_platform, addCoreThermalSensors_platform,
      setupPlatformKeys_platform, setupBusClock_platform, setupTjmax_platform]

/-- The platform value after the configuration was read: the forced string, when there is
one. -/
theorem readConfiguration_platform (env : CpuStartEnv) (info : CpuidInfo) (self : CPUSensors) :
    (CPUSensors.readConfiguration env info self).platform =
      (match env.forcedPlatform with
        | some s => some (platformBytes s)
        | none => self.platform) := by
  unfold CPUSensors.readConfiguration CpuStartEnv.forcedPlatform
  cases hc : env.configuration with
  | none => rfl
  | some c =>
    have h1 : ∀ s1 : CPUSensors, s1.platform = self.platform →
        (match c.PlatformString with
          | some string =>
            if string.length > 0 then { s1 with platform := some (platformBytes string) }
            else s1
          | none => s1).platform =
        (match (match c.PlatformString with
            | some string => if string.length > 0 then some string else none
            | none => none) with
          | some s => some (platformBytes s)
          | none => self.platform) := by
      intro s1 hs1
      cases hp : c.PlatformString with
      | none => simpa using hs1
      | some string =>
        by_cases hl : string.length > 0
        · simp [hl]
        · simpa [hl] using hs1
    simp only []
    apply h1
    cases c.Tjmax with
    | none => rfl
    | some number =>
      simp only []
      split <;> rfl

/-- The family-0x06 switch never replaces a platform value that exists. -/
theorem calculateTjmax06_keeps_platform (k : Constants) (info : CpuidInfo) (m : Machine)
    (self : CPUSensors) (bytes : List Nat) (h : self.platform = some bytes) :
    (CPUSensors.calculateTjmax06 k info m self).platform = some bytes := by
  have hdef : ∀ text, CPUSensors.defaultPlatform text self = self := by
    intro text
    unfold CPUSensors.defaultPlatform
    rw [h]
  have hdef2 : ∀ text v, CPUSensors.defaultPlatform text (CPUSensors.setTjmax0 v self)
      = CPUSensors.setTjmax0 v self := by
    intro text v
    unfold CPUSensors.defaultPlatform
    rw [setTjmax0_platform, h]
  unfold CPUSensors.calculateTjmax06
  simp only [hdef, hdef2]
  repeat' split
  all_goals first
    | exact h
    | (rw [readTjmaxFromMSR_platform]; exact h)

/-- The `Tjmax` calculation never replaces a platform value that exists. -/
theorem calculateTjmax_keeps_platform (k : Constants) (info : CpuidInfo) (m : Machine)
    (self s2 : CPUSensors) (bytes : List Nat) (h : self.platform = some bytes)
    (hc : CPUSensors.calculateTjmax k info m self = some s2) : s2.platform = some bytes := by
  unfold CPUSensors.calculateTjmax at hc
  split at hc
  · split at hc
    · cases hc
      exact calculateTjmax06_keeps_platform k info m self bytes h
    · split at hc
      · split at hc
        · cases hc
          rw [setTjmax0_platform]; exact h
        · cases hc; exact h
      · cases hc
  · cases hc; exact h

/-- The eight bytes of `platformBytes`: the first `min (length) 8` characters, then zeros. -/
theorem platformBytes_eq (text : String) :
    (platformBytes text).length = 8 ∧
    platformBytes text = (text.toList.map Char.toNat).take (min text.length 8)
      ++ List.replicate (8 - min text.length 8) 0 := by
  unfold platformBytes
  have hlen : (text.toList.map Char.toNat).length = text.length := by
    rw [List.length_map]; rfl
  constructor
  · rw [List.length_take, List.length_append, List.length_replicate]
    omega
  · rw [List.take_append_eq_append_take, hlen, List.take_replicate]
    congr 1
    · by_cases h : text.length ≤ 8
      · rw [min_eq_left h, List.take_of_length_le (by omega), List.take_of_length_le (by omega)]
      · rw [min_eq_right (by omega)]
    · congr 1
      omega

/-- C25: with a forced platform string `s` of non-zero length in the configuration node,
after a `start` that returns `true` the platform identifier is `platformBytes s`: exactly 8
bytes, the first `min (length of s) 8` bytes of `s` followed by zero bytes.  This holds for
every processor family and model, so the decision table never replaces it. -/
theorem C25_forced_platform_string (k : Constants) (env : CpuStartEnv) (info : CpuidInfo)
    (m : Machine) (self : CPUSensors) (s : String) (hs : env.forcedPlatform = some s)
    (hstart : (CPUSensors.start k env info m self).1 = true) :
    0 < s.length ∧
    (CPUSensors.start k env info m self).2.platform = some (platformBytes s) ∧
    (platformBytes s).length = 8 ∧
    platformBytes s = (s.toList.map Char.toNat).take (min s.length 8)
      ++ List.replicate (8 - min s.length 8) 0 := by
  obtain ⟨s2, hcalc, hplat⟩ := start_true_platform k env info m self hstart
  have hread : (CPUSensors.readConfiguration env info self).platform
      = some (platformBytes s) := by
    rw [readConfiguration_platform, hs]
  refine ⟨?_, ?_, (platformBytes_eq s).1, (platformBytes_eq s).2⟩
  · unfold CpuStartEnv.forcedPlatform at hs
    split at hs
    · split at hs
      · split at hs
        · rename_i hpos
          cases hs
          exact hpos
        · cases hs
      · cases hs
    · cases hs
  · rw [hplat]
    exact calculateTjmax_keeps_platform k info m _ s2 _ hread hcalc

/-- C25 (witness): on a Merom processor, whose table row is `M75`, the forced string
`MacBookPro5,1` gives the bytes of `MacBookP`, and the forced string `ab` gives `ab` and six
zero bytes. -/
theorem C25_witness :
    (CPUSensors.start sampleConstants (samplePlatformEnv "MacBookPro5,1")
        (sampleInfo 0x06 0x0F 2 2) (sampleMachine 0) CPUSensors.fresh).2.platform
      = some [77, 97, 99, 66, 111, 111, 107, 80] ∧
    (CPUSensors.start sampleConstants (samplePlatformEnv "ab")
        (sampleInfo 0x06 0x0F 2 2) (sampleMachine 0) CPUSensors.fresh).2.platform
      = some [97, 98, 0, 0, 0, 0, 0, 0] :=
  ⟨(C25_forced_platform_string sampleConstants (samplePlatformEnv "MacBookPro5,1")
      (sampleInfo 0x06 0x0F 2 2) (sampleMachine 0) CPUSensors.fresh "MacBookPro5,1"
      rfl rfl).2.1,
    (C25_forced_platform_string sampleConstants (samplePlatformEnv "ab")
      (sampleInfo 0x06 0x0F 2 2) (sampleMachine 0) CPUSensors.fresh "ab" rfl rfl).2.1⟩

/-! ## The remaining claims: the decision table -/

/-- What `readTjmaxFromMSR` leaves in `tjmax`: the field of the register in every entry below
the core count, the old value elsewhere. -/
theorem readTjmaxFromMSR_tjmax (info : CpuidInfo) (m : Machine) (self : CPUSensors) (i : Nat) :
    (CPUSensors.readTjmaxFromMSR info m self).tjmax i =
      if i < info.core_count then (rdmsr64 m m.current .MSR_IA32_TEMP_TARGET >>> 16) &&& 0xFF
      else self.tjmax i := by
  unfold CPUSensors.readTjmaxFromMSR
  generalize info.core_count = n
  induction n with
  | zero => simp
  | succ n ih =>
    rw [List.range_succ, List.foldl_append, List.foldl_cons, List.foldl_nil]
    show setAt _ n _ i = _
    have hset : ∀ (a : Nat → Nat) (v : Nat), setAt a n v i = if i = n then v else a i :=
      fun _ _ => rfl
    rw [hset]
    by_cases hi : i = n
    · rw [if_pos hi, if_pos (by omega)]
    · rw [if_neg hi, ih]
      by_cases hlt : i < n
      · rw [if_pos hlt, if_pos (by omega)]
      · rw [if_neg hlt, if_neg (by omega)]

/-- The platform value the family-0x06 switch leaves, case by case. -/
theorem calculateTjmax06_platform (k : Constants) (info : CpuidInfo) (m : Machine)
    (self : CPUSensors) :
    (CPUSensors.calculateTjmax06 k info m self).platform =
      (if info.cpuid_model = k.CPUID_MODEL_PENTIUM_M then
        (CPUSensors.defaultPlatform "M70" self).platform
      else if info.cpuid_model = k.CPUID_MODEL_YONAH then
        (CPUSensors.defaultPlatform "K22" self).platform
      else if info.cpuid_model = k.CPUID_MODEL_MEROM then
        (CPUSensors.defaultPlatform "M75" self).platform
      else if info.cpuid_model = k.CPUID_MODEL_PENRYN then
        (CPUSensors.defaultPlatform "M82" self).platform
      else if info.cpuid_model = k.CPUID_MODEL_ATOM then
        (CPUSensors.defaultPlatform "T9" self).platform
      else if info.cpuid_model = k.CPUID_MODEL_NEHALEM ∨ info.cpuid_model = k.CPUID_MODEL_FIELDS
          ∨ info.cpuid_model = k.CPUID_MODEL_DALES ∨ info.cpuid_model = k.CPUID_MODEL_DALES_32NM
          ∨ info.cpuid_model = k.CPUID_MODEL_WESTMERE
          ∨ info.cpuid_model = k.CPUID_MODEL_NEHALEM_EX
          ∨ info.cpuid_model = k.CPUID_MODEL_WESTMERE_EX then
        (CPUSensors.defaultPlatform "k74" self).platform
      else if info.cpuid_model = k.CPUID_MODEL_SANDYBRIDGE
          ∨ info.cpuid_model = k.CPUID_MODEL_JAKETOWN then
        (CPUSensors.defaultPlatform "k62" self).platform
      else if info.cpuid_model = k.CPUID_MODEL_IVYBRIDGE then
        (CPUSensors.defaultPlatform "d8" self).platform
      else if info.cpuid_model = k.CPUID_MODEL_HASWELL_DT
          ∨ info.cpuid_model = k.CPUID_MODEL_HASWELL_MB
          ∨ info.cpuid_model = k.CPUID_MODEL_HASWELL_ULT
          ∨ info.cpuid_model = k.CPUID_MODEL_HASWELL_ULX then
        (CPUSensors.defaultPlatform "j43" self).platform
      else self.platform) := by
  have hdef : ∀ text v, (CPUSensors.defaultPlatform text (CPUSensors.setTjmax0 v self)).platform
      = (CPUSensors.defaultPlatform text self).platform := by
    intro text v
    rw [defaultPlatform_platform, defaultPlatform_platform, setTjmax0_platform]
  unfold CPUSensors.calculateTjmax06
  simp only []
  split
  · exact hdef _ _
  split
  · rfl
  split
  · repeat' split
    all_goals rfl
  split
  · split <;> rfl
  split
  · repeat' split
    all_goals rfl
  split
  · exact readTjmaxFromMSR_platform _ _ _
  split
  · exact readTjmaxFromMSR_platform _ _ _
  split
  · exact readTjmaxFromMSR_platform _ _ _
  split
  · exact readTjmaxFromMSR_platform _ _ _
  · rfl

/-- On an object without a platform value, the family-0x06 switch leaves the constant of
the table row that holds the model. -/
theorem calculateTjmax06_table (k : Constants) (info : CpuidInfo) (m : Machine)
    (self : CPUSensors) (hnone : self.platform = none) (row : List Nat × String)
    (hrow : row ∈ platformTable k.toCpuidModels) (hm : info.cpuid_model ∈ row.1) :
    (CPUSensors.calculateTjmax06 k info m self).platform = some (platformBytes row.2) := by
  have hd := k.labelsDistinct
  have hd2 := k.labelsDistinct.imp (fun h => Ne.symm h)
  simp only [CpuidModels.caseLabels, List.pairwise_cons, List.mem_cons, List.mem_singleton,
    forall_eq_or_imp, forall_eq, ne_eq, List.not_mem_nil, IsEmpty.forall_iff, implies_true,
    List.Pairwise.nil, and_true] at hd hd2
  have hdef : ∀ text, (CPUSensors.defaultPlatform text self).platform
      = some (platformBytes text) := by
    intro text
    rw [defaultPlatform_platform, hnone]
  rw [calculateTjmax06_platform]
  simp only [hdef]
  simp only [platformTable, List.mem_cons, List.mem_singleton, List.not_mem_nil,
    or_false] at hrow
  rcases hrow with h | h | h | h | h | h | h | h | h <;> subst h <;>
    simp only [List.mem_cons, List.mem_singleton, List.not_mem_nil, or_false] at hm
  · simp [hm]
  · simp [hm, hd, hd2]
  · simp [hm, hd, hd2]
  · simp [hm, hd, hd2]
  · simp [hm, hd, hd2]
  · rcases hm with h | h | h | h | h | h | h <;> simp [h, hd, hd2]
  · rcases hm with h | h <;> simp [h, hd, hd2]
  · simp [hm, hd, hd2]
  · rcases hm with h | h | h | h <;> simp [h, hd, hd2]

/-- For a model of the Nehalem, Sandy Bridge, Ivy Bridge and Haswell rows the family-0x06
switch runs `readTjmaxFromMSR`: every entry of `tjmax` below the core count gets the field
of the target-temperature register. -/
theorem calculateTjmax06_target (k : Constants) (info : CpuidInfo) (m : Machine)
    (self : CPUSensors) (hm : info.cpuid_model ∈ targetRegisterModels k.toCpuidModels)
    (i : Nat) :
    (CPUSensors.calculateTjmax06 k info m self).tjmax i =
      if i < info.core_count then (rdmsr64 m m.current .MSR_IA32_TEMP_TARGET >>> 16) &&& 0xFF
      else self.tjmax i := by
  have hd := k.labelsDistinct
  have hd2 := k.labelsDistinct.imp (fun h => Ne.symm h)
  simp only [CpuidModels.caseLabels, List.pairwise_cons, List.mem_cons, List.mem_singleton,
    forall_eq_or_imp, forall_eq, ne_eq, List.not_mem_nil, IsEmpty.forall_iff, implies_true,
    List.Pairwise.nil, and_true] at hd hd2
  have hread : ∀ text, (CPUSensors.readTjmaxFromMSR info m
      (CPUSensors.defaultPlatform text self)).tjmax i =
      if i < info.core_count then (rdmsr64 m m.current .MSR_IA32_TEMP_TARGET >>> 16) &&& 0xFF
      else self.tjmax i := by
    intro text
    rw [readTjmaxFromMSR_tjmax, defaultPlatform_tjmax]
  simp only [targetRegisterModels, List.mem_cons, List.mem_singleton, List.not_mem_nil,
    or_false] at hm
  unfold CPUSensors.calculateTjmax06
  rcases hm with h | h | h | h | h | h | h | h | h | h | h | h | h | h <;>
    simp only [h, hd, hd2, if_true, if_false, true_or, or_true, or_self, or_false,
      false_or] <;>
    exact hread _

/-- C23 (counterexample): an Ivy Bridge-EP processor (family 0x06, model
`CPUID_MODEL_IVYBRIDGE_EP`, which has no case label in the switch) with no override, whose
target-temperature register holds 95 in bits 16..23: `start` succeeds and the critical
temperature of both cores is 0, not 95. -/
theorem C23_counterexample :
    sampleIvyBridgeEP.cpuid_model = sampleConstants.CPUID_MODEL_IVYBRIDGE_EP ∧
    (sampleStartEnv none).userTjmax = 0 ∧
    (rdmsr64 (sampleMachine 0x5F0000) 0 .MSR_IA32_TEMP_TARGET >>> 16) &&& 0xFF = 95 ∧
    (CPUSensors.start sampleConstants (sampleStartEnv none) sampleIvyBridgeEP
        (sampleMachine 0x5F0000) CPUSensors.fresh).1 = true ∧
    (CPUSensors.start sampleConstants (sampleStartEnv none) sampleIvyBridgeEP
        (sampleMachine 0x5F0000) CPUSensors.fresh).2.tjmax 0 = 0 ∧
    (CPUSensors.start sampleConstants (sampleStartEnv none) sampleIvyBridgeEP
        (sampleMachine 0x5F0000) CPUSensors.fresh).2.tjmax 1 = 0 := by
  refine ⟨rfl, rfl, by decide, rfl, rfl, rfl⟩

/-- C23 (amended claim): with no critical-temperature override in effect, for family 0x06
`start` on a fresh object succeeds.  For every model that has a case label in the Nehalem,
Sandy Bridge, Ivy Bridge and Haswell rows of the switch, every core below the core count
then has the critical temperature `(t >>> 16) &&& 0xFF`, bits 16..23 of the value `t` read
from the target-temperature register, and the block "Setup Tjmax" leaves these entries as
the calculation set them, whatever the kernel's class of the processor.  For a model
without a case label, such as Ivy Bridge-EP, the register is not used and the critical
temperature of every core stays 0. -/
theorem C23_tjmax_from_target_register (k : Constants) (env : CpuStartEnv) (info : CpuidInfo)
    (m : Machine) (hchk : startChecksPass k env info) (hu : env.userTjmax = 0)
    (h6 : info.cpuid_family = 0x06) :
    (CPUSensors.start k env info m CPUSensors.fresh).1 = true ∧
    (info.cpuid_model ∈ targetRegisterModels k.toCpuidModels →
      (∀ i, i < info.core_count →
        (CPUSensors.start k env info m CPUSensors.fresh).2.tjmax i
          = (rdmsr64 m m.current .MSR_IA32_TEMP_TARGET >>> 16) &&& 0xFF) ∧
      (rdmsr64 m m.current .MSR_IA32_TEMP_TARGET >>> 16) &&& 0xFF
        = rdmsr64 m m.current .MSR_IA32_TEMP_TARGET / 2 ^ 16 % 2 ^ 8 ∧
      (∃ s2, CPUSensors.calculateTjmax k info m
          (CPUSensors.readConfiguration env info CPUSensors.fresh) = some s2 ∧
        ∀ i, i < info.core_count →
          s2.tjmax i = (rdmsr64 m m.current .MSR_IA32_TEMP_TARGET >>> 16) &&& 0xFF ∧
          (CPUSensors.setupTjmax info s2).tjmax i = s2.tjmax i)) ∧
    (info.cpuid_model ∉ k.caseLabels →
      ∀ i, (CPUSensors.start k env info m CPUSensors.fresh).2.tjmax i = 0) := by
  have h0 : (CPUSensors.readConfiguration env info CPUSensors.fresh).tjmax 0 = 0 := by
    rw [readConfiguration_fresh_zero, hu]
  have hcalc : CPUSensors.calculateTjmax k info m
      (CPUSensors.readConfiguration env info CPUSensors.fresh)
      = some (CPUSensors.calculateTjmax06 k info m
          (CPUSensors.readConfiguration env info CPUSensors.fresh)) := by
    unfold CPUSensors.calculateTjmax
    rw [if_pos h0, if_pos h6]
  obtain ⟨htrue, htj⟩ := (start_of_checks k env info m CPUSensors.fresh hchk).2 _ hcalc
  refine ⟨htrue, ?_, ?_⟩
  · intro hm
    have hall : ∀ j, j < info.core_count →
        (CPUSensors.calculateTjmax06 k info m
          (CPUSensors.readConfiguration env info CPUSensors.fresh)).tjmax j
          = (rdmsr64 m m.current .MSR_IA32_TEMP_TARGET >>> 16) &&& 0xFF := by
      intro j hj
      rw [calculateTjmax06_target k info m _ hm, if_pos hj]
    refine ⟨?_, ?_, _, hcalc, ?_⟩
    · intro i hi
      rw [htj]
      exact setupTjmax_apply info _ _ i hi hall
    · rw [Nat.shiftRight_eq_div_pow]
      exact Nat.and_pow_two_sub_one_eq_mod _ 8
    · intro i hi
      refine ⟨hall i hi, ?_⟩
      rw [hall i hi]
      exact setupTjmax_apply info _ _ i hi hall
  · intro hm i
    rw [htj, calculateTjmax06_unlisted k info m _ hm]
    apply setupTjmax_const
    intro j
    rw [readConfiguration_unforced env info CPUSensors.fresh hu rfl j]
    rfl

/-- C23 (witness): a two-core Sandy Bridge processor whose target-temperature register reads
0x5F0000 gets the critical temperature 95 on both cores. -/
theorem C23_witness :
    (CPUSensors.start sampleConstants (sampleStartEnv none) sampleSandyBridge
        (sampleMachine 0x5F0000) CPUSensors.fresh).2.tjmax 0 = 95 ∧
    (CPUSensors.start sampleConstants (sampleStartEnv none) sampleSandyBridge
        (sampleMachine 0x5F0000) CPUSensors.fresh).2.tjmax 1 = 95 :=
  ⟨((C23_tjmax_from_target_register sampleConstants (sampleStartEnv none) sampleSandyBridge
      (sampleMachine 0x5F0000) (by unfold startChecksPass; decide) rfl rfl).2.1
      (by decide)).1 0 (by decide),
    ((C23_tjmax_from_target_register sampleConstants (sampleStartEnv none) sampleSandyBridge
      (sampleMachine 0x5F0000) (by unfold startChecksPass; decide) rfl rfl).2.1
      (by decide)).1 1 (by decide)⟩

/-- C21 (counterexample): a Merom processor (family 0x06, table row `M75`) with the
critical-temperature override 95 and no forced platform string: `start` succeeds and leaves
no platform identifier, while without the override it leaves the bytes of `M75`. -/
theorem C21_counterexample :
    (sampleStartEnv (some 95)).forcedPlatform = none ∧
    (sampleStartEnv (some 95)).userTjmax = 95 ∧
    (sampleInfo 0x06 0x0F 2 2).cpuid_model = sampleConstants.CPUID_MODEL_MEROM ∧
    (CPUSensors.start sampleConstants (sampleStartEnv (some 95)) (sampleInfo 0x06 0x0F 2 2)
        (sampleMachine 0) CPUSensors.fresh).1 = true ∧
    (CPUSensors.start sampleConstants (sampleStartEnv (some 95)) (sampleInfo 0x06 0x0F 2 2)
        (sampleMachine 0) CPUSensors.fresh).2.platform = none ∧
    (CPUSensors.start sampleConstants (sampleStartEnv none) (sampleInfo 0x06 0x0F 2 2)
        (sampleMachine 0) CPUSensors.fresh).2.platform = some [77, 55, 53, 0, 0, 0, 0, 0] := by
  refine ⟨rfl, rfl, rfl, rfl, rfl, rfl⟩

/-- C21 (amended claim): for family 0x06 and a configuration without a forced platform
string, `start` on a fresh object succeeds, and the platform identifier depends on the
critical-temperature override.  With no override in effect (none given, or one that reads
as zero) it is, for every row of the decision table and every model of the row, the 8-byte
constant of the row.  With an override in effect the decision table is not consulted and no
platform identifier is set. -/
theorem C21_platform_from_table (k : Constants) (env : CpuStartEnv) (info : CpuidInfo)
    (m : Machine) (hchk : startChecksPass k env info) (h6 : info.cpuid_family = 0x06)
    (hnf : env.forcedPlatform = none) :
    (CPUSensors.start k env info m CPUSensors.fresh).1 = true ∧
    (env.userTjmax = 0 → ∀ row ∈ platformTable k.toCpuidModels, info.cpuid_model ∈ row.1 →
      (CPUSensors.start k env info m CPUSensors.fresh).2.platform
        = some (platformBytes row.2) ∧
      (platformBytes row.2).length = 8) ∧
    (env.userTjmax ≠ 0 →
      (CPUSensors.start k env info m CPUSensors.fresh).2.platform = none) := by
  have hplat0 : (CPUSensors.readConfiguration env info CPUSensors.fresh).platform = none := by
    rw [readConfiguration_platform, hnf]
    rfl
  have htj0 := readConfiguration_fresh_zero env info
  obtain ⟨s2, hs2⟩ := calculateTjmax_known_family k info m
    (CPUSensors.readConfiguration env info CPUSensors.fresh) (Or.inl h6)
  obtain ⟨htrue, -⟩ := (start_of_checks k env info m CPUSensors.fresh hchk).2 s2 hs2
  obtain ⟨s3, hs3, hplat⟩ := start_true_platform k env info m CPUSensors.fresh htrue
  refine ⟨htrue, ?_, ?_⟩
  · intro hu row hrow hm
    refine ⟨?_, (platformBytes_eq row.2).1⟩
    have hcalc : CPUSensors.calculateTjmax k info m
        (CPUSensors.readConfiguration env info CPUSensors.fresh)
        = some (CPUSensors.calculateTjmax06 k info m
            (CPUSensors.readConfiguration env info CPUSensors.fresh)) := by
      unfold CPUSensors.calculateTjmax
      rw [if_pos (by rw [htj0, hu]), if_pos h6]
    rw [hcalc] at hs3
    rw [hplat, ← Option.some.inj hs3]
    exact calculateTjmax06_table k info m _ hplat0 row hrow hm
  · intro hu
    have hskip := calculateTjmax_skipped k info m
      (CPUSensors.readConfiguration env info CPUSensors.fresh) (by rw [htj0]; exact hu)
    rw [hskip] at hs3
    rw [hplat, ← Option.some.inj hs3]
    exact hplat0

/-- C21 (witness): a Penryn processor with no override and no forced string gets the bytes
of `M82`. -/
theorem C21_witness :
    (CPUSensors.start sampleConstants (sampleStartEnv none) (sampleInfo 0x06 0x17 0 2)
        (sampleMachine 0) CPUSensors.fresh).2.platform = some [77, 56, 50, 0, 0, 0, 0, 0] :=
  ((C21_platform_from_table sampleConstants (sampleStartEnv none) (sampleInfo 0x06 0x17 0 2)
      (sampleMachine 0) (by unfold startChecksPass; decide) rfl rfl).2.1 rfl
    ([sampleConstants.CPUID_MODEL_PENRYN], "M82") (by simp [platformTable])
    (by decide)).1

/-! ## The tick without an active profile -/

theorem addProfile_timer (self self1 : ACPIProbe) (name : Option String)
    (methods : Option (List String)) (interval timeout : Option Nat) (verbose : Option Bool)
    (ht : self.timerEventSource = false)
    (h : self.addProfile name methods interval timeout verbose = .ok self1) :
    self1.timerEventSource = false := by
  unfold ACPIProbe.addProfile at h
  cases hw : ACPIProbeProfile.withParameters name methods interval timeout verbose with
  | null =>
    rw [hw] at h
    cases h
    exact ht
  | released =>
    rw [hw] at h
    cases h
  | valid profile =>
    rw [hw] at h
    cases name with
    | none => simp at h
    | some nm =>
      cases hd : self.profiles with
      | none => simp [hd] at h
      | some d =>
        cases hl : self.profileList with
        | none => simp [hd, hl] at h
        | some l =>
          simp only [hd, hl] at h
          cases h
          exact ht

/-- Whatever `start` on a fresh scheduler returns, the scheduler it leaves has a timer event
source only together with an active profile: no state that `start` produces lets the
handler run its `setTimeoutMS` call without an active profile and with a timer. -/
theorem start_timer_implies_active {σ : Type} (ev : Evaluator σ) (env : StartEnv)
    (fw fw1 : σ) (ret : Bool) (s : ACPIProbe)
    (h : ACPIProbe.start ev env ACPIProbe.fresh fw = .ok (ret, s, fw1))
    (ht : s.timerEventSource = true) : s.activeProfile.isSome = true := by
  have hadd : ∀ (s s1 : ACPIProbe) name methods interval timeout verbose,
      (s.Loading ∧ s.timerEventSource = false) →
      s.addProfile name methods interval timeout verbose = .ok s1 →
      (s1.Loading ∧ s1.timerEventSource = false) :=
    fun s s1 _ _ _ _ _ hs h1 =>
      ⟨addProfile_loading s s1 _ _ _ _ _ hs.1 h1, addProfile_timer s s1 _ _ _ _ _ hs.2 h1⟩
  unfold ACPIProbe.start at h
  split at h
  · cases h
    exact absurd ht (by decide)
  · split at h
    · cases h
      exact absurd ht (by decide)
    · have h0 : (({ ACPIProbe.fresh with profiles := some [], profileList := some [] }
          : ACPIProbe).Loading ∧
          ({ ACPIProbe.fresh with profiles := some [], profileList := some [] }
          : ACPIProbe).timerEventSource = false) :=
        ⟨⟨[], [], rfl, rfl, by simp [OSDictionary.getCount], by
          intro name p hp; simp [OSDictionary.getObject] at hp, rfl, rfl⟩, rfl⟩
      simp only [] at h
      cases hdev : ACPIProbe.loadFromDevice ev
          { ACPIProbe.fresh with profiles := some [], profileList := some [] } fw with
      | error f => rw [hdev] at h; cases h
      | ok acc1 =>
        obtain ⟨s1, fwa⟩ := acc1
        rw [hdev] at h
        simp only [] at h
        have h1 : s1.Loading ∧ s1.timerEventSource = false := by
          unfold ACPIProbe.loadFromDevice at hdev
          split at hdev
          · split at hdev
            · split at hdev
              · exact loadList_keeps (fun s => s.Loading ∧ s.timerEventSource = false) hadd
                  ev _ _ _ h0 hdev
              · cases hdev; exact h0
            · cases hdev; exact h0
          · cases hdev; exact h0
        cases hcfg : ACPIProbe.loadFromConfiguration env s1 with
        | error f => rw [hcfg] at h; cases h
        | ok s2 =>
          rw [hcfg] at h
          simp only [] at h
          have h2 : s2.Loading ∧ s2.timerEventSource = false := by
            unfold ACPIProbe.loadFromConfiguration at hcfg
            split at hcfg
            · split at hcfg
              · split at hcfg
                · exact hadd _ _ _ _ _ _ _ h1 hcfg
                · cases hcfg; exact h1
              · cases hcfg; exact h1
            · cases hcfg
          cases hact : ACPIProbe.activateFirst env s2 with
          | error f => rw [hact] at h; cases h
          | ok r =>
            obtain ⟨ret1, s3⟩ := r
            rw [hact] at h
            simp only [Except.ok.injEq, Prod.mk.injEq] at h
            obtain ⟨-, hs, -⟩ := h
            subst hs
            obtain ⟨⟨d, l, hd, hlist, hcount, -, -, -⟩, htimer⟩ := h2
            unfold ACPIProbe.activateFirst at hact
            simp only [hd, hlist] at hact
            by_cases hc : d.getCount = 0
            · simp only [hc, ne_eq, not_true_eq_false, if_false, Except.ok.injEq,
                Prod.mk.injEq] at hact
              rw [← hact.2, htimer] at ht
              cases ht
            · have hne : l ≠ [] := fun e => hc (hcount.mpr e)
              have hsome : (l.get? 0).isSome = true := by
                cases l with
                | nil => exact absurd rfl hne
                | cons a rest => rfl
              simp only [hc, ne_eq, not_false_eq_true, if_true] at hact
              split at hact
              · simp only [Except.ok.injEq, Prod.mk.injEq] at hact
                rw [← hact.2]; exact hsome
              · split at hact
                · simp only [Except.ok.injEq, Prod.mk.injEq] at hact
                  rw [← hact.2]; exact hsome
                · split at hact
                  · simp only [Except.ok.injEq, Prod.mk.injEq] at hact
                    rw [← hact.2]; exact hsome
                  · simp only [Except.ok.injEq, Prod.mk.injEq] at hact
                    rw [← hact.2]; exact hsome

/-- A successful `start` that found a profile leaves the timer event source in place. -/
theorem start_ok_timer {σ : Type} (ev : Evaluator σ) (env : StartEnv) (fw fw1 : σ)
    (s : ACPIProbe) (h : ACPIProbe.start ev env ACPIProbe.fresh fw = .ok (true, s, fw1))
    (hc : s.getProfileCount ≠ 0) : s.timerEventSource = true := by
  obtain ⟨s2, hl, hact⟩ := start_ok_loaded ev env fw fw1 s h
  obtain ⟨d, l, hd, hlist, hcount, -, -, -⟩ := hl
  unfold ACPIProbe.activateFirst at hact
  simp only [hd, hlist] at hact
  by_cases h0 : d.getCount = 0
  · simp only [h0, ne_eq, not_true_eq_false, if_false, Except.ok.injEq, Prod.mk.injEq,
      true_and] at hact
    subst hact
    exact absurd (by simp [ACPIProbe.getProfileCount, hlist, hcount.mp h0]) hc
  · simp only [h0, ne_eq, not_false_eq_true, if_true] at hact
    split at hact
    · simp at hact
    · split at hact
      · simp at hact
      · split at hact
        · simp at hact
        · simp only [Except.ok.injEq, Prod.mk.injEq, true_and] at hact
          subst hact
          rfl

/-- Later calls neither create nor remove the timer event source. -/
theorem applyOps_timer {σ : Type} (ev : Evaluator σ) (ops : List SchedulerOp)
    (st : ACPIProbe × σ) :
    (applyOps ev ops st).1.timerEventSource = st.1.timerEventSource := by
  induction ops generalizing st with
  | nil => rfl
  | cons op rest ih =>
    have hrest := ih (applyOp ev st op)
    unfold applyOps at hrest ⊢
    rw [List.foldl_cons, hrest]
    cases op with
    | tick t =>
      show (ACPIProbe.woorkloopTimerEvent ev st.1 t st.2).self.timerEventSource = _
      unfold ACPIProbe.woorkloopTimerEvent
      simp only []
      split
      · split <;> rfl
      · rfl
    | activate name t =>
      show (st.1.activateProfile name t).2.timerEventSource = _
      rcases activateProfile_cases st.1 name t with ⟨-, e⟩ | ⟨d, -, -, e⟩ | ⟨d, -, -, -, e⟩
        | ⟨d, p, -, -, -, e⟩ <;> rw [e]

/-- After a successful `start` that found a profile, no tick faults, whatever calls came
before it. -/
theorem tick_after_start_no_fault {σ : Type} (ev : Evaluator σ) (env : StartEnv) (fw fw1 : σ)
    (s : ACPIProbe) (h : ACPIProbe.start ev env ACPIProbe.fresh fw = .ok (true, s, fw1))
    (hc : s.getProfileCount ≠ 0) (ops : List SchedulerOp) (now : ℚ) :
    (ACPIProbe.woorkloopTimerEvent ev (applyOps ev ops (s, fw1)).1 now
      (applyOps ev ops (s, fw1)).2).fault = none := by
  rw [tick_fault, applyOps_timer, start_ok_timer ev env fw fw1 s h hc]
  rfl

end HWSensors
